import Mathlib

/-!
# Monitor lifecycle and heartbeat store of `server/server.js`

A shallow embedding of the lifecycle functions (`checkOwner`, `startMonitor`,
`restartMonitor`, `pauseMonitor`, `startMonitors`, `shutdownFunction`, the
`deleteMonitor` handler), of the heartbeat handlers (`clearHeartbeats`,
`clearEvents`, `getMonitorBeats`), of `editMonitor` with
`updateMonitorNotification`, of the `login`, `setup` and `setSettings`
handlers, and of the monitor block of `uploadBackup`, all of
`src/server/server.js`; and the interleavings of the lifecycle calls at their
`await` points.

* SQL tables are lists of rows, in storage order.
* Every bean returned by `R.findOne` / `R.find` is a fresh object: it is
  allocated in `State.heap` and referred to by its index (its handle).
* `server.monitorList` is an association list from monitor id to handle.
* A function that may throw returns the thrown message together with the state
  reached at the throw, so that "nothing was changed" is a statement about the
  second component.
-/

namespace MalibuStatus

/-! ## Data model -/

/-- One row of table `monitor`. `config` stands for the configuration columns
(type, url, interval, ...), which the lifecycle functions never inspect. -/
structure MonitorRow where
  id : Nat
  user_id : Nat
  active : Nat
  name : String
  config : Nat
deriving DecidableEq, Repr

/-- One row of table `heartbeat`. `time` is the text stored in the `DATETIME`
column; SQLite compares and orders such texts character by character. -/
structure HeartbeatRow where
  id : Nat
  monitor_id : Nat
  time : String
  status : Nat
  msg : String
  important : Nat
deriving DecidableEq, Repr

/-- A monitor bean: the columns it was loaded with and whether its loop runs. -/
structure MonitorInstance where
  row : MonitorRow
  running : Bool
deriving DecidableEq, Repr

/-- The mutable state the embedded functions act on. -/
structure State where
  monitor : List MonitorRow
  heartbeat : List HeartbeatRow
  heap : List MonitorInstance
  monitorList : List (Nat × Nat)
deriving DecidableEq, Repr

/-- A socket: `userID` is set by `afterLogin`. -/
structure Socket where
  userID : Option Nat
deriving DecidableEq, Repr

/-- The object handed to the `callback` of a handler. -/
structure Reply where
  ok : Bool
  msg : Option String
deriving DecidableEq, Repr

/-- The object handed to the `callback` of `getMonitorBeats`. -/
structure BeatsReply where
  ok : Bool
  msg : Option String
  data : List HeartbeatRow
deriving DecidableEq, Repr

/-- An observable call made by the startup loop, in the order it is made. -/
inductive Event where
  | start (h : Nat)
  | sleep (ms : Nat)
deriving DecidableEq, Repr

/-- Result of a function that may throw, with the state it leaves behind. -/
abbrev Outcome := Except String Unit × State

/-! ## `server.monitorList` as a JavaScript object -/

/-- The value of `server.monitorList[k]`, `none` when `k in server.monitorList` is false. -/
def regLookup (k : Nat) : List (Nat × Nat) → Option Nat
  | [] => none
  | p :: l => if p.1 = k then some p.2 else regLookup k l

/-- The assignment `server.monitorList[k] = h`: an existing key keeps its place. -/
def regSet (k h : Nat) : List (Nat × Nat) → List (Nat × Nat)
  | [] => [(k, h)]
  | p :: l => if p.1 = k then (k, h) :: l else p :: regSet k h l

/-- The statement `delete server.monitorList[k]`. -/
def regDelete (k : Nat) (l : List (Nat × Nat)) : List (Nat × Nat) :=
  l.filter (fun p => !decide (p.1 = k))

/-- The keys of `server.monitorList`. -/
def regKeys (l : List (Nat × Nat)) : List Nat := l.map Prod.fst

/-! ## Bean instances -/

/-- Apply `f` to the instance with handle `h`; other handles are untouched. -/
def heapModify (f : MonitorInstance → MonitorInstance) : Nat → List MonitorInstance → List MonitorInstance
  | _, [] => []
  | 0, i :: l => f i :: l
  | n + 1, i :: l => i :: heapModify f n l

/-- Modelled from the spec: `Monitor.start` of `server/model/monitor.js` is not
under src/. Section 4.3: starting creates the timed loop of the target and
begins ticking; the loop exists until it is stopped. -/
def monitorStart (h : Nat) (s : State) : State :=
  { s with heap := heapModify (fun i => { i with running := true }) h s.heap }

/-- Modelled from the spec: `Monitor.stop` of `server/model/monitor.js` is not
under src/. Section 4.3: stopping cancels the loop, no further probes execute,
and stopping a loop that is not running is a no-op. -/
def monitorStop (h : Nat) (s : State) : State :=
  { s with heap := heapModify (fun i => { i with running := false }) h s.heap }

/-- Allocate the bean for a row just read from the database; returns its handle. -/
def allocBean (row : MonitorRow) (s : State) : Nat × State :=
  (s.heap.length, { s with heap := s.heap ++ [{ row := row, running := false }] })

/-- Number of instances for monitor `id` whose loop is running. -/
def runningCount (id : Nat) (s : State) : Nat :=
  (s.heap.filter (fun i => i.running && decide (i.row.id = id))).length

/-- Whether the instance with handle `h` is running (`false` for a dangling handle). -/
def isRunning (h : Nat) (s : State) : Bool :=
  match s.heap[h]? with
  | some i => i.running
  | none => false

/-! ## SQL statements on table `monitor` -/

/-- `SELECT id FROM monitor WHERE id = ? AND user_id = ?` (first row). -/
def selectOwned (monitorID userID : Nat) (t : List MonitorRow) : Option MonitorRow :=
  t.find? (fun r => decide (r.id = monitorID) && decide (r.user_id = userID))

/-- `UPDATE monitor SET active = a WHERE id = ? AND user_id = ?`. -/
def updateActive (a monitorID userID : Nat) (t : List MonitorRow) : List MonitorRow :=
  t.map (fun r => if r.id = monitorID ∧ r.user_id = userID then { r with active := a } else r)

/-- `R.findOne("monitor", " id = ? ", [monitorID])`. -/
def findOneMonitor (monitorID : Nat) (t : List MonitorRow) : Option MonitorRow :=
  t.find? (fun r => decide (r.id = monitorID))

/-- `DELETE FROM monitor WHERE id = ? AND user_id = ?`. -/
def deleteOwned (monitorID userID : Nat) (t : List MonitorRow) : List MonitorRow :=
  t.filter (fun r => !(decide (r.id = monitorID) && decide (r.user_id = userID)))

/-! ## Lifecycle functions -/

/-- The message of the error thrown by `checkOwner`. -/
def notOwnerMsg : String := "You do not own this monitor."

/-- Function `checkOwner(userID, monitorID)`. -/
def checkOwner (userID monitorID : Nat) (s : State) : Except String Unit :=
  match selectOwned monitorID userID s.monitor with
  | some _ => .ok ()
  | none => .error notOwnerMsg

/-- Function `startMonitor(userID, monitorID)`. -/
def startMonitor (userID monitorID : Nat) (s : State) : Outcome :=
  match checkOwner userID monitorID s with
  | .error e => (.error e, s)
  | .ok _ =>
    let s1 := { s with monitor := updateActive 1 monitorID userID s.monitor }
    match findOneMonitor monitorID s1.monitor with
    | none => (.error "Cannot read properties of null", s1)
    | some row =>
      let (h, s2) := allocBean row s1
      let s3 := match regLookup row.id s2.monitorList with
        | some old => monitorStop old s2
        | none => s2
      let s4 := { s3 with monitorList := regSet row.id h s3.monitorList }
      (.ok (), monitorStart h s4)

/-- Function `restartMonitor(userID, monitorID)`. -/
def restartMonitor (userID monitorID : Nat) (s : State) : Outcome :=
  startMonitor userID monitorID s

/-- Function `pauseMonitor(userID, monitorID)`. -/
def pauseMonitor (userID monitorID : Nat) (s : State) : Outcome :=
  match checkOwner userID monitorID s with
  | .error e => (.error e, s)
  | .ok _ =>
    let s1 := { s with monitor := updateActive 0 monitorID userID s.monitor }
    match regLookup monitorID s1.monitorList with
    | some h => (.ok (), monitorStop h s1)
    | none => (.ok (), s1)

/-- The state-changing part of handler `socket.on("deleteMonitor")`, with
`checkLogin` of `util-server` (not under src/) taken as a parameter. -/
def deleteMonitor (checkLogin : Socket → Except String Unit) (socket : Socket)
    (monitorID : Nat) (s : State) : Reply × State :=
  match checkLogin socket with
  | .error e => ({ ok := false, msg := some e }, s)
  | .ok _ =>
    let s1 := match regLookup monitorID s.monitorList with
      | some h => { monitorStop h s with monitorList := regDelete monitorID s.monitorList }
      | none => s
    match socket.userID with
    | some u => ({ ok := true, msg := some "Deleted Successfully." },
        { s1 with monitor := deleteOwned monitorID u s1.monitor })
    | none => ({ ok := true, msg := some "Deleted Successfully." }, s1)

/-- Function `pauseMonitor` followed, when it returned, by `startMonitor`. -/
def pauseThenStart (userID monitorID : Nat) (s : State) : Outcome :=
  match pauseMonitor userID monitorID s with
  | (.error e, s1) => (.error e, s1)
  | (.ok _, s1) => startMonitor userID monitorID s1

/-- A completed lifecycle call. -/
inductive Op where
  | start (userID monitorID : Nat)
  | restart (userID monitorID : Nat)
  | pause (userID monitorID : Nat)
  | delete (socket : Socket) (monitorID : Nat)
deriving DecidableEq, Repr

/-- The state after one completed call (whether it returned or threw). -/
def step (checkLogin : Socket → Except String Unit) (s : State) : Op → State
  | .start u m => (startMonitor u m s).2
  | .restart u m => (restartMonitor u m s).2
  | .pause u m => (pauseMonitor u m s).2
  | .delete sock m => (deleteMonitor checkLogin sock m s).2

/-- The state after a sequence of completed calls, oldest first. -/
def run (checkLogin : Socket → Except String Unit) (s : State) (ops : List Op) : State :=
  ops.foldl (step checkLogin) s

/-! ## Startup: `startMonitors` -/

/-- Modelled from the spec: `getRandomInt` of `src/util` is not under src/.
Section 4.3 calls the delay "a small randomized jitter"; `r` is the random draw,
folded into the half-open range from `min` to `max`. -/
def getRandomInt (min max r : Nat) : Nat := min + r % (max - min)

/-- `R.find("monitor", " active = 1 ")`: the selected rows. -/
def findActive (t : List MonitorRow) : List MonitorRow :=
  t.filter (fun r => decide (r.active = 1))

/-- Allocate one bean per selected row; returns the handles in list order. -/
def allocBeans : List MonitorRow → State → List Nat × State
  | [], s => ([], s)
  | r :: rs, s =>
    let (h, s1) := allocBean r s
    let (hs, s2) := allocBeans rs s1
    (h :: hs, s2)

/-- First loop of `startMonitors`: `server.monitorList[monitor.id] = monitor`. -/
def registerAll : List Nat → State → State
  | [], s => s
  | h :: hs, s =>
    match s.heap[h]? with
    | some i => registerAll hs { s with monitorList := regSet i.row.id h s.monitorList }
    | none => registerAll hs s

/-- Second loop of `startMonitors`: `monitor.start(io)` then
`await sleep(getRandomInt(300, 1000))`; `rand k` is the `k`-th random draw. -/
def startLoop (rand : Nat → Nat) : Nat → List Nat → State → State × List Event
  | _, [], s => (s, [])
  | k, h :: hs, s =>
    let r := startLoop rand (k + 1) hs (monitorStart h s)
    (r.1, Event.start h :: Event.sleep (getRandomInt 300 1000 (rand k)) :: r.2)

/-- Function `startMonitors()` with the calls it makes. -/
def startMonitors (rand : Nat → Nat) (s : State) : State × List Event :=
  let (hs, s1) := allocBeans (findActive s.monitor) s
  startLoop rand 0 hs (registerAll hs s1)

/-- Handles on which `start` is called, one entry per call. -/
def startedHandles : List Event → List Nat
  | [] => []
  | Event.start h :: ev => h :: startedHandles ev
  | Event.sleep _ :: ev => startedHandles ev

/-- Time slept before the first `start` call on `h`; `none` if `h` is never started. -/
def delayBefore (h : Nat) : List Event → Option Nat
  | [] => none
  | Event.start k :: ev => if k = h then some 0 else delayBefore h ev
  | Event.sleep ms :: ev => (delayBefore h ev).map (fun d => ms + d)

/-- Sum of the `i` sleeps of the startup loop that begin with the `k`-th draw. -/
def jitterSum (rand : Nat → Nat) : Nat → Nat → Nat
  | _, 0 => 0
  | k, i + 1 => getRandomInt 300 1000 (rand k) + jitterSum rand (k + 1) i

/-! ## Heartbeat handlers -/

/-- `DELETE FROM heartbeat WHERE monitor_id = ?`. -/
def deleteBeats (monitorID : Nat) (t : List HeartbeatRow) : List HeartbeatRow :=
  t.filter (fun b => !decide (b.monitor_id = monitorID))

/-- `UPDATE heartbeat SET msg = ?, important = ? WHERE monitor_id = ?` with `""` and `"0"`. -/
def resetImportant (monitorID : Nat) (t : List HeartbeatRow) : List HeartbeatRow :=
  t.map (fun b => if b.monitor_id = monitorID then { b with msg := "", important := 0 } else b)

/-- Handler `socket.on("clearHeartbeats")`; `checkLogin` and `sendHeartbeatList`
(not under src/) are parameters, the latter only reads the state. -/
def clearHeartbeats (checkLogin : Socket → Except String Unit)
    (sendHeartbeatList : State → Nat → Except String Unit)
    (socket : Socket) (monitorID : Nat) (s : State) : Reply × State :=
  match checkLogin socket with
  | .error e => ({ ok := false, msg := some e }, s)
  | .ok _ =>
    let s1 := { s with heartbeat := deleteBeats monitorID s.heartbeat }
    match sendHeartbeatList s1 monitorID with
    | .error e => ({ ok := false, msg := some e }, s1)
    | .ok _ => ({ ok := true, msg := none }, s1)

/-- Handler `socket.on("clearEvents")`; `checkLogin` and
`sendImportantHeartbeatList` (not under src/) are parameters. -/
def clearEvents (checkLogin : Socket → Except String Unit)
    (sendImportantHeartbeatList : State → Nat → Except String Unit)
    (socket : Socket) (monitorID : Nat) (s : State) : Reply × State :=
  match checkLogin socket with
  | .error e => ({ ok := false, msg := some e }, s)
  | .ok _ =>
    let s1 := { s with heartbeat := resetImportant monitorID s.heartbeat }
    match sendImportantHeartbeatList s1 monitorID with
    | .error e => ({ ok := false, msg := some e }, s1)
    | .ok _ => ({ ok := true, msg := none }, s1)

/-- The query of `getMonitorBeats`: rows of the monitor with
`time > DATETIME('now', '-' || period || ' hours')`, `ORDER BY time ASC`.
`cutoff` is the value of the `DATETIME` call, `none` when it is `NULL`; a
comparison with `NULL` selects no row. Both the comparison and the order are
those of the texts. -/
def selectBeats (cutoff : Option String) (monitorID : Nat) (t : List HeartbeatRow) :
    List HeartbeatRow :=
  match cutoff with
  | none => []
  | some c =>
    (t.filter (fun b => decide (b.monitor_id = monitorID) && decide (c.data < b.time.data))).insertionSort
      (fun a b => a.time.data ≤ b.time.data)

/-- Handler `socket.on("getMonitorBeats")`; `period = none` is `null` or
`undefined`, otherwise the text SQLite makes of the bound value. `datetime p`
is the value of `DATETIME('now', '-' || p || ' hours')` in SQLite (not code of
this repository), `none` when it is `NULL`. -/
def getMonitorBeats (checkLogin : Socket → Except String Unit)
    (datetime : String → Option String)
    (socket : Socket) (monitorID : Nat) (period : Option String) (s : State) : BeatsReply :=
  match checkLogin socket with
  | .error e => { ok := false, msg := some e, data := [] }
  | .ok _ =>
    match period with
    | none => { ok := false, msg := some "Invalid period.", data := [] }
    | some p => { ok := true, msg := none, data := selectBeats (datetime p) monitorID s.heartbeat }

/-! ## Invariant of the registry -/

/-- Every running instance is the one registered under its monitor id, and
every registered handle refers to an allocated instance. -/
def RegistryInv (s : State) : Prop :=
  (∀ h i, s.heap[h]? = some i → i.running = true → regLookup i.row.id s.monitorList = some h) ∧
  (∀ k h, regLookup k s.monitorList = some h → h < s.heap.length)

/-! ## Concrete states used as examples -/

/-- A `checkLogin` that accepts exactly the sockets with a user id. -/
def loggedIn (socket : Socket) : Except String Unit :=
  match socket.userID with
  | some _ => .ok ()
  | none => .error "You are not logged in."

/-- An emitter that never fails. -/
def sendFine (_ : State) (_ : Nat) : Except String Unit := .ok ()

/-- Two monitors of user 1: monitor 1 active, monitor 2 paused; nothing registered. -/
def exState : State :=
  { monitor := [{ id := 1, user_id := 1, active := 1, name := "a", config := 0 },
                { id := 2, user_id := 1, active := 0, name := "b", config := 0 }],
    heartbeat := [{ id := 1, monitor_id := 1, time := "2026-11-04 06:00:00", status := 1,
                    msg := "up", important := 1 },
                  { id := 2, monitor_id := 2, time := "2026-11-04 05:00:00", status := 0,
                    msg := "down", important := 1 },
                  { id := 3, monitor_id := 1, time := "2026-11-04 09:30:00", status := 1,
                    msg := "up", important := 0 },
                  { id := 4, monitor_id := 1, time := "2026-11-04 09:00:00", status := 1,
                    msg := "up", important := 0 }],
    heap := [],
    monitorList := [] }

/-- The values of `DATETIME('now', '-' || p || ' hours')` at the instant
2026-11-04 10:00:00 for the two periods used below: two hours back for `2`, and
`NULL` for `1000000000`, which leads before every date SQLite represents (this
table answers `NULL` for every other text as well). -/
def exDatetime (p : String) : Option String :=
  if p = "2" then some "2026-11-04 08:00:00" else none

/-- Heartbeats of monitor 1 around the instant 2026-11-04 08:00:00, one of them
stored with milliseconds at that very instant, and one heartbeat of monitor 2. -/
def exBeats : State :=
  { monitor := [{ id := 1, user_id := 1, active := 1, name := "a", config := 0 }],
    heartbeat := [{ id := 1, monitor_id := 1, time := "2026-11-04 07:59:59", status := 1,
                    msg := "up", important := 1 },
                  { id := 2, monitor_id := 1, time := "2026-11-04 09:30:00", status := 1,
                    msg := "up", important := 0 },
                  { id := 3, monitor_id := 1, time := "2026-11-04 08:00:00.000", status := 1,
                    msg := "up", important := 0 },
                  { id := 4, monitor_id := 2, time := "2026-11-04 09:00:00", status := 1,
                    msg := "up", important := 0 }],
    heap := [],
    monitorList := [] }

/-- Three monitors of user 1, the first and the third active; nothing registered. -/
def exTwoActive : State :=
  { monitor := [{ id := 1, user_id := 1, active := 1, name := "a", config := 0 },
                { id := 2, user_id := 1, active := 0, name := "b", config := 0 },
                { id := 3, user_id := 1, active := 1, name := "c", config := 0 }],
    heartbeat := [],
    heap := [],
    monitorList := [] }

/-- State `exState` after `startMonitor(1, 1)`: monitor 1 is registered under
handle 0 and its loop runs. -/
def exRunning : State := (startMonitor 1 1 exState).2

/-! ## Notification bindings and `editMonitor` -/

/-- One row of table `monitor_notification` (its own key column left out). -/
structure NotificationBinding where
  monitor_id : Nat
  notification_id : Nat
deriving DecidableEq, Repr

/-- The state of the server with the bindings table next to `State`. -/
structure Server where
  core : State
  monitor_notification : List NotificationBinding
deriving DecidableEq, Repr

/-- The `monitor` object submitted to `editMonitor`. `user_id` and `active` are
fields a client may send along; `notificationIDList` lists the keys of the
object with the truthiness of their values, in enumeration order. -/
structure MonitorInput where
  id : Nat
  user_id : Nat
  active : Nat
  name : String
  config : Nat
  notificationIDList : List (Nat × Bool)
deriving DecidableEq, Repr

/-- The loop `for (let notificationID in notificationIDList)` of
`updateMonitorNotification`: for a key with a truthy value a bean is dispensed
and `await R.store(relation)` is run. `store` tells whether that call returns or
throws for a row (the constraints of table `monitor_notification` are declared
in the database schema); a throw ends the loop, and the rows stored before it
stay in the table, since no transaction is open. -/
def storeBindings (store : NotificationBinding → Except String Unit) (monitorID : Nat) :
    List (Nat × Bool) → List NotificationBinding → Except String Unit × List NotificationBinding
  | [], t => (.ok (), t)
  | p :: l, t =>
    if p.2 then
      match store { monitor_id := monitorID, notification_id := p.1 } with
      | .error e => (.error e, t)
      | .ok _ =>
        storeBindings store monitorID l (t ++ [{ monitor_id := monitorID, notification_id := p.1 }])
    else storeBindings store monitorID l t

/-- Function `updateMonitorNotification(monitorID, notificationIDList)`:
the `DELETE`, then the loop of `R.store` calls. The first component says
whether the call returned or threw, the second is the table it leaves. -/
def updateMonitorNotification (store : NotificationBinding → Except String Unit)
    (monitorID : Nat) (notificationIDList : List (Nat × Bool))
    (t : List NotificationBinding) : Except String Unit × List NotificationBinding :=
  storeBindings store monitorID notificationIDList
    (t.filter (fun b => !decide (b.monitor_id = monitorID)))

/-- A table `monitor_notification` that takes every row. -/
def storeFine (_ : NotificationBinding) : Except String Unit := .ok ()

/-- A table `monitor_notification` whose `notification_id` column refers to a
table `notification` without a row 5: storing a binding to 5 throws. -/
def exStoreNo5 (b : NotificationBinding) : Except String Unit :=
  if b.notification_id = 5 then .error "SQLITE_CONSTRAINT: FOREIGN KEY constraint failed"
  else .ok ()

/-- `R.store(bean)` for a bean loaded from table `monitor`: the row with the
bean id takes the columns of the bean. -/
def storeMonitor (bean : MonitorRow) (t : List MonitorRow) : List MonitorRow :=
  t.map (fun r => if r.id = bean.id then bean else r)

/-- The assignments `bean.name = monitor.name`, ... of `editMonitor`: the
configuration columns are taken from the submitted object, `id`, `user_id` and
`active` stay those of the loaded bean. -/
def editedRow (bean : MonitorRow) (monitor : MonitorInput) : MonitorRow :=
  { bean with name := monitor.name, config := monitor.config }

/-- The message of the error thrown by `editMonitor` for a foreign monitor. -/
def permissionDeniedMsg : String := "Permission denied."

/-- Handler `socket.on("editMonitor")`; `checkLogin` and `server.sendMonitorList`
(not under src/) and the outcome `store` of `R.store` on table
`monitor_notification` are parameters. A throw of `updateMonitorNotification`
is caught after `R.store(bean)` and the `DELETE` have been run. -/
def editMonitor (checkLogin : Socket → Except String Unit)
    (store : NotificationBinding → Except String Unit)
    (sendMonitorList : Server → Except String Unit)
    (socket : Socket) (monitor : MonitorInput) (sv : Server) : Reply × Server :=
  match checkLogin socket with
  | .error e => ({ ok := false, msg := some e }, sv)
  | .ok _ =>
    match findOneMonitor monitor.id sv.core.monitor with
    | none => ({ ok := false, msg := some "Cannot read properties of null" }, sv)
    | some bean =>
      match socket.userID with
      | none => ({ ok := false, msg := some permissionDeniedMsg }, sv)
      | some u =>
        if bean.user_id ≠ u then ({ ok := false, msg := some permissionDeniedMsg }, sv)
        else
          let bean1 : MonitorRow := editedRow bean monitor
          let core1 : State := { sv.core with monitor := storeMonitor bean1 sv.core.monitor }
          match updateMonitorNotification store bean1.id monitor.notificationIDList
              sv.monitor_notification with
          | (.error e, bindings) =>
            ({ ok := false, msg := some e }, { core := core1, monitor_notification := bindings })
          | (.ok _, bindings) =>
            let r : Outcome := if bean1.active ≠ 0 then restartMonitor u bean1.id core1
              else (.ok (), core1)
            let sv2 : Server := { core := r.2, monitor_notification := bindings }
            match r.1 with
            | .error e => ({ ok := false, msg := some e }, sv2)
            | .ok _ =>
              match sendMonitorList sv2 with
              | .error e => ({ ok := false, msg := some e }, sv2)
              | .ok _ => ({ ok := true, msg := some "Saved." }, sv2)

/-- A server around `exRunning`: monitor 1 is bound to the notifications 7 and 8,
monitor 2 to notification 7. -/
def exServer : Server :=
  { core := exRunning,
    monitor_notification := [{ monitor_id := 1, notification_id := 7 },
                             { monitor_id := 2, notification_id := 7 },
                             { monitor_id := 1, notification_id := 8 }] }

/-- An emitter on `Server` that never fails. -/
def sendListFine (_ : Server) : Except String Unit := .ok ()

/-- An edit of monitor 1 sent with a foreign `user_id`, binding only notification 9. -/
def exInput : MonitorInput :=
  { id := 1, user_id := 99, active := 0, name := "renamed", config := 5,
    notificationIDList := [(7, false), (9, true)] }

/-- An edit of monitor 1 that binds it to notification 5 only. -/
def exInputNo5 : MonitorInput :=
  { id := 1, user_id := 1, active := 0, name := "renamed", config := 5,
    notificationIDList := [(5, true)] }

/-! ## Login and setup -/

/-- One row of table `user`. -/
structure UserRow where
  id : Nat
  username : String
  password : String
  active : Nat
  twofa_secret : Option String
  twofa_status : Nat
  twofa_last_token : Option String
deriving DecidableEq, Repr

/-- The `data` object of the `login` event; `token = none` is an absent token. -/
structure LoginData where
  username : String
  password : String
  token : Option String
deriving DecidableEq, Repr

/-- An object handed to the `callback` of `login`. -/
inductive LoginAnswer where
  | ok (token : String)
  | tokenRequired
  | fail (msg : String)
deriving DecidableEq, Repr

/-- What the `login` handler leaves behind: the callback invocations in order,
the socket, table `user`, and the user ids `afterLogin` was called with. -/
structure LoginResult where
  answers : List LoginAnswer
  socket : Socket
  user : List UserRow
  afterLogin : List Nat
deriving DecidableEq, Repr

/-- The token when `data.token` is truthy (present and not the empty string). -/
def truthyToken : Option String → Option String
  | some t => if t = "" then none else some t
  | none => none

/-- The synchronous part of `afterLogin(socket, user)`: `socket.userID = user.id`. -/
def afterLogin (socket : Socket) (user : UserRow) : Socket :=
  { socket with userID := some user.id }

/-- `UPDATE user SET twofa_last_token = ? WHERE id = ?` with `socket.userID`. -/
def updateLastToken (token : String) (userID : Option Nat) (t : List UserRow) : List UserRow :=
  t.map (fun r => if some r.id = userID then { r with twofa_last_token := some token } else r)

/-- The first `if` of the `login` handler: `user.twofa_status === 0`. -/
def loginNoTwoFA (jwtSign : String → String) (data : LoginData) (user : UserRow)
    (r : LoginResult) : LoginResult :=
  if user.twofa_status = 0 then
    { r with answers := r.answers ++ [LoginAnswer.ok (jwtSign data.username)],
             socket := afterLogin r.socket user,
             afterLogin := r.afterLogin ++ [user.id] }
  else r

/-- The second `if`: `user.twofa_status === 1 && !data.token`. -/
def loginTokenRequired (data : LoginData) (user : UserRow) (r : LoginResult) : LoginResult :=
  if user.twofa_status = 1 ∧ truthyToken data.token = none then
    { r with answers := r.answers ++ [LoginAnswer.tokenRequired] }
  else r

/-- The third `if`: `data.token` is truthy. -/
def loginWithToken (verify : String → Option String → Bool) (jwtSign : String → String)
    (data : LoginData) (user : UserRow) (r : LoginResult) : LoginResult :=
  match truthyToken data.token with
  | none => r
  | some t =>
    if user.twofa_last_token ≠ some t ∧ verify t user.twofa_secret = true then
      { answers := r.answers ++ [LoginAnswer.ok (jwtSign data.username)],
        socket := afterLogin r.socket user,
        user := updateLastToken t (afterLogin r.socket user).userID r.user,
        afterLogin := r.afterLogin ++ [user.id] }
    else
      { r with answers := r.answers ++ [LoginAnswer.fail "Invalid Token!"] }

/-- Handler `socket.on("login")`. Parameters for what is not under src/:
`rateLimit` is the outcome of `loginRateLimiter.pass` (`some msg` when it
rejects and answers `msg` itself), `login` is `login` of `./auth` reading table
`user`, `verify` is `notp.totp.verify`, `jwtSign` is `jwt.sign`. -/
def loginHandler (rateLimit : Option String)
    (login : List UserRow → String → String → Option UserRow)
    (verify : String → Option String → Bool) (jwtSign : String → String)
    (socket : Socket) (data : Option LoginData) (users : List UserRow) : LoginResult :=
  match data with
  | none => { answers := [], socket := socket, user := users, afterLogin := [] }
  | some d =>
    match rateLimit with
    | some msg =>
      { answers := [LoginAnswer.fail msg], socket := socket, user := users, afterLogin := [] }
    | none =>
      match login users d.username d.password with
      | none =>
        { answers := [LoginAnswer.fail "Incorrect username or password."],
          socket := socket, user := users, afterLogin := [] }
      | some user =>
        loginWithToken verify jwtSign d user
          (loginTokenRequired d user
            (loginNoTwoFA jwtSign d user
              { answers := [], socket := socket, user := users, afterLogin := [] }))

/-- The module state the `setup` handler acts on. -/
structure AuthState where
  user : List UserRow
  needSetup : Bool
deriving DecidableEq, Repr

/-- The message thrown by `setup` for a weak password. -/
def weakPasswordMsg : String :=
  "Password is too weak. It should contain alphabetic and numeric characters. It must be at least 6 characters in length."

/-- The message thrown by `setup` when a user exists. -/
def initializedMsg : String :=
  "Uptime Kuma has been initialized. If you want to run setup again, please delete the database."

/-- `R.store(user)` for a dispensed bean: a new row with the next key; `defaults`
are the column defaults of table `user` (declared in the database schema). -/
def storeNewUser (defaults : UserRow) (username password : String) (t : List UserRow) :
    List UserRow :=
  t ++ [{ defaults with id := (t.map (fun r => r.id)).foldr max 0 + 1,
                        username := username, password := password }]

/-- Handler `socket.on("setup")`; `tooWeak p` is
`passwordStrength(p).value === "Too weak"`, `hash` is `passwordHash.generate`. -/
def setup (tooWeak : String → Bool) (hash : String → String) (defaults : UserRow)
    (username password : String) (a : AuthState) : Reply × AuthState :=
  if tooWeak password = true then ({ ok := false, msg := some weakPasswordMsg }, a)
  else if a.user.length ≠ 0 then ({ ok := false, msg := some initializedMsg }, a)
  else ({ ok := true, msg := some "Added Successfully." },
    { user := storeNewUser defaults username (hash password) a.user, needSetup := false })

/-- The state after a sequence of `setup` calls, oldest first. -/
def setupAll (tooWeak : String → Bool) (hash : String → String) (defaults : UserRow)
    (calls : List (String × String)) (a : AuthState) : AuthState :=
  calls.foldl (fun st c => (setup tooWeak hash defaults c.1 c.2 st).2) a

/-! ## Settings -/

/-- What the `setSettings` handler leaves behind: the reply, the settings
store, whether `doubleCheckPassword` was invoked and whether
`setSettings("general", data)` was executed. -/
structure SettingsResult (σ : Type) where
  reply : Reply
  settings : σ
  checked : Bool
  saved : Bool

/-- Handler `socket.on("setSettings")`. Parameters for what is not under src/:
`setting st` is the truthiness of `await setting("disableAuth")`,
`wantsDisable data` that of `data.disableAuth`, `doubleCheckPassword` and
`setSettings` are the functions of `util-server`. -/
def setSettingsHandler {σ δ : Type} (checkLogin : Socket → Except String Unit)
    (setting : σ → Bool) (wantsDisable : δ → Bool)
    (doubleCheckPassword : Socket → String → Except String Unit)
    (setSettings : δ → σ → σ)
    (socket : Socket) (data : δ) (currentPassword : String) (st : σ) : SettingsResult σ :=
  match checkLogin socket with
  | .error e =>
    { reply := { ok := false, msg := some e }, settings := st, checked := false, saved := false }
  | .ok _ =>
    if (!setting st && wantsDisable data) = true then
      match doubleCheckPassword socket currentPassword with
      | .error e =>
        { reply := { ok := false, msg := some e }, settings := st, checked := true,
          saved := false }
      | .ok _ =>
        { reply := { ok := true, msg := some "Saved" }, settings := setSettings data st,
          checked := true, saved := true }
    else
      { reply := { ok := true, msg := some "Saved" }, settings := setSettings data st,
        checked := false, saved := true }

/-! ## Shutdown -/

/-- An observable call made by `shutdownFunction`, in the order it is made. -/
inductive ShutdownEvent where
  | stop (h : Nat)
  | sleep (ms : Nat)
  | databaseClose
  | stopBackgroundJobs
  | cloudflaredStop
deriving DecidableEq, Repr

/-- The loop `for (let id in server.monitorList) monitor.stop()`. -/
def stopAll : List (Nat × Nat) → State → State × List ShutdownEvent
  | [], s => (s, [])
  | p :: l, s =>
    let r := stopAll l (monitorStop p.2 s)
    (r.1, ShutdownEvent.stop p.2 :: r.2)

/-- Function `shutdownFunction(signal)` with the calls it makes. -/
def shutdownFunction (s : State) : State × List ShutdownEvent :=
  let r := stopAll s.monitorList s
  (r.1, r.2 ++ [ShutdownEvent.sleep 2000, ShutdownEvent.databaseClose,
    ShutdownEvent.stopBackgroundJobs, ShutdownEvent.cloudflaredStop])

/-- The calls made before the first `Database.close()`. -/
def beforeClose (ev : List ShutdownEvent) : List ShutdownEvent :=
  ev.takeWhile (fun e => !decide (e = ShutdownEvent.databaseClose))

/-! ## Backup: the monitor block of `uploadBackup` -/

/-- One entry of `backupData.monitorList`; `config` stands for the copied
configuration fields. -/
structure BackupMonitor where
  name : String
  config : Nat
  active : Nat
deriving DecidableEq, Repr

/-- `JSON.stringify` of the characters of a string without control characters:
the double quote (34) and the backslash (92) get a backslash in front. -/
def jsonEscape : List Char → List Char
  | [] => []
  | c :: cs =>
    if c = Char.ofNat 34 ∨ c = Char.ofNat 92 then Char.ofNat 92 :: c :: jsonEscape cs
    else c :: jsonEscape cs

/-- `JSON.stringify` of one row of `SELECT name FROM monitor`: an object with
the one key `name`, between the braces 123 and 125. -/
def jsonNameRow (name : String) : List Char :=
  [Char.ofNat 123, Char.ofNat 34, 'n', 'a', 'm', 'e', Char.ofNat 34, ':', Char.ofNat 34] ++
    jsonEscape name.data ++ [Char.ofNat 34, Char.ofNat 125]

/-- The string `monitorNameListString`: `JSON.stringify(monitorNameList)`. -/
def monitorNameListString (t : List MonitorRow) : List Char :=
  '[' :: List.intercalate [','] (t.map (fun r => jsonNameRow r.name)) ++ [']']

/-- Whether the characters `n` are the beginning of `h`. -/
def startsWith : List Char → List Char → Bool
  | _, [] => true
  | [], _ :: _ => false
  | h :: hs, n :: ns => decide (h = n) && startsWith hs ns

/-- `String.prototype.includes`: whether `n` occurs in `h` as a substring. -/
def includes : List Char → List Char → Bool
  | [], n => startsWith [] n
  | h :: hs, n => startsWith (h :: hs) n || includes hs n

/-- The condition of the `if` that guards the import of one backup monitor. -/
def shouldImportMonitor (importHandle : String) (nameListString : List Char)
    (m : BackupMonitor) : Bool :=
  (decide (importHandle = "skip") && (includes nameListString m.name.data == false)) ||
    decide (importHandle = "keep") || decide (importHandle = "overwrite")

/-- The body of that `if`: `R.store` of a new bean owned by `socket.userID`,
`updateMonitorNotification(bean.id, {})` (its loop has no key, so no binding
is stored), then `startMonitor` or `pauseMonitor` by
`monitorListData[i].active === 1`. `defaultActive` is the column default of
`monitor.active` (declared in the database schema); tags are left out. -/
def uploadBackupStore (defaultActive userID : Nat) (m : BackupMonitor) (sv : Server) :
    Except String Unit × Server :=
  let id := (sv.core.monitor.map (fun r => r.id)).foldr max 0 + 1
  let bean : MonitorRow :=
    { id := id, user_id := userID, active := defaultActive, name := m.name, config := m.config }
  let core1 : State := { sv.core with monitor := sv.core.monitor ++ [bean] }
  let bindings := (updateMonitorNotification storeFine id [] sv.monitor_notification).2
  let r : Outcome := if m.active = 1 then startMonitor userID id core1
    else pauseMonitor userID id core1
  (r.1, { core := r.2, monitor_notification := bindings })

/-- The loop `for (let i = 0; i < monitorListData.length; i++)`. -/
def uploadBackupLoop (defaultActive userID : Nat) (importHandle : String)
    (nameListString : List Char) : List BackupMonitor → Server → Except String Unit × Server
  | [], sv => (.ok (), sv)
  | m :: ms, sv =>
    if shouldImportMonitor importHandle nameListString m = true then
      match uploadBackupStore defaultActive userID m sv with
      | (.error e, sv1) => (.error e, sv1)
      | (.ok _, sv1) => uploadBackupLoop defaultActive userID importHandle nameListString ms sv1
    else uploadBackupLoop defaultActive userID importHandle nameListString ms sv

/-- The monitor block of handler `socket.on("uploadBackup")`, from
`if (monitorListData.length >= 1)` on; the names are read once, before the loop. -/
def uploadBackupMonitors (defaultActive userID : Nat) (importHandle : String)
    (monitorListData : List BackupMonitor) (sv : Server) : Except String Unit × Server :=
  if monitorListData.length ≥ 1 then
    uploadBackupLoop defaultActive userID importHandle
      (monitorNameListString sv.core.monitor) monitorListData sv
  else (.ok (), sv)

/-- A server whose only monitor is named `web-server`. -/
def exBackupServer : Server :=
  { core := { monitor := [{ id := 1, user_id := 1, active := 0, name := "web-server",
                            config := 0 }],
              heartbeat := [], heap := [], monitorList := [] },
    monitor_notification := [] }

/-- The row maps of `storeMonitor` and `updateActive`: they keep every id and
leave the rows with another id than `k` alone. -/
def KeepsIds (k : Nat) (f : MonitorRow → MonitorRow) : Prop :=
  (∀ q, (f q).id = q.id) ∧ (∀ q, q.id ≠ k → f q = q)

/-! ## Concrete login data used as examples -/

/-- A `login` that looks the active user up by name and compares the stored
password with the given one. -/
def exLogin (users : List UserRow) (username password : String) : Option UserRow :=
  users.find? (fun r => decide (r.username = username) && decide (r.password = password) &&
    decide (r.active = 1))

/-- A `notp.totp.verify` that accepts every token. -/
def exVerify (_ : String) (_ : Option String) : Bool := true

/-- A `jwt.sign` that returns the user name. -/
def exSign (username : String) : String := username

/-- One user with 2FA enabled and no token used so far. -/
def exUsers : List UserRow :=
  [{ id := 1, username := "admin", password := "pw", active := 1,
     twofa_secret := some "S", twofa_status := 1, twofa_last_token := none }]

/-- A login of `admin` with the token `123456`. -/
def exLoginData : LoginData := { username := "admin", password := "pw", token := some "123456" }

/-- A login of `admin` without a token. -/
def exLoginNoToken : LoginData := { username := "admin", password := "pw", token := none }

/-! ## Concrete setup and settings data used as examples -/

/-- A `passwordStrength` check that calls passwords shorter than 6 characters too weak. -/
def exTooWeak (password : String) : Bool := decide (password.length < 6)

/-- A `passwordHash.generate` that puts a mark in front of the password. -/
def exHash (password : String) : String := "#" ++ password

/-- The column defaults of table `user` used in the examples. -/
def exUserDefaults : UserRow :=
  { id := 0, username := "", password := "", active := 1,
    twofa_secret := none, twofa_status := 0, twofa_last_token := none }

/-- A fresh instance: no user, setup needed. -/
def exFresh : AuthState := { user := [], needSetup := true }

/-- A `doubleCheckPassword` that accepts only the password `pw`. -/
def exDoubleCheck (_ : Socket) (password : String) : Except String Unit :=
  if password = "pw" then .ok () else .error "Incorrect current password"

/-! ## Interleaving of lifecycle calls at their `await` points

JavaScript runs one continuation at a time: an `async` function runs
undisturbed from one `await` to the next, and other calls may run in between.
A call in flight is its program point with its local variables; one step of a
call is the code between two `await`s, the database statement of the `await`
included. -/

/-- A call of `startMonitor`, `restartMonitor`, `pauseMonitor` or
`startMonitors` in flight, named by the statement it runs next. -/
inductive AsyncCall where
  | startCheck (userID monitorID : Nat)
  | startUpdate (userID monitorID : Nat)
  | startFind (userID monitorID : Nat)
  | startRegister (bean : Option Nat)
  | pauseCheck (userID monitorID : Nat)
  | pauseUpdate (userID monitorID : Nat)
  | pauseStop (monitorID : Nat)
  | bootFind
  | bootRegister (beans : List Nat)
  | bootStart (beans : List Nat)
  | done
deriving DecidableEq, Repr

/-- The last block of `startMonitor`, after `await R.findOne`: the test
`monitor.id in server.monitorList` with the `stop()`, the assignment to
`server.monitorList[monitor.id]` and `monitor.start(io)`, with no `await` between them. -/
def registerAndStart (h : Nat) (s : State) : State :=
  match s.heap[h]? with
  | none => s
  | some i =>
    let s3 := match regLookup i.row.id s.monitorList with
      | some old => monitorStop old s
      | none => s
    monitorStart h { s3 with monitorList := regSet i.row.id h s3.monitorList }

/-- One step of a call in flight: the statements up to its next `await`.
`startCheck`, `startUpdate`, `startFind`, `startRegister` are the four parts of
`startMonitor`, `pauseCheck`, `pauseUpdate`, `pauseStop` the three of
`pauseMonitor`; `bootFind` is `await R.find` of `startMonitors`, `bootRegister`
its first loop with the first round of the second loop, `bootStart` one later
round of the second loop (`monitor.start(io)` after the `await sleep`). -/
def stepCall : AsyncCall → State → AsyncCall × State
  | .startCheck u id, s =>
    match checkOwner u id s with
    | .error _ => (.done, s)
    | .ok _ => (.startUpdate u id, s)
  | .startUpdate u id, s =>
    (.startFind u id, { s with monitor := updateActive 1 id u s.monitor })
  | .startFind _ id, s =>
    match findOneMonitor id s.monitor with
    | none => (.startRegister none, s)
    | some row => (.startRegister (some (allocBean row s).1), (allocBean row s).2)
  | .startRegister none, s => (.done, s)
  | .startRegister (some h), s => (.done, registerAndStart h s)
  | .pauseCheck u id, s =>
    match checkOwner u id s with
    | .error _ => (.done, s)
    | .ok _ => (.pauseUpdate u id, s)
  | .pauseUpdate u id, s =>
    (.pauseStop id, { s with monitor := updateActive 0 id u s.monitor })
  | .pauseStop id, s =>
    match regLookup id s.monitorList with
    | some h => (.done, monitorStop h s)
    | none => (.done, s)
  | .bootFind, s =>
    (.bootRegister (allocBeans (findActive s.monitor) s).1,
      (allocBeans (findActive s.monitor) s).2)
  | .bootRegister [], s => (.done, registerAll [] s)
  | .bootRegister (h :: hs), s => (.bootStart hs, monitorStart h (registerAll (h :: hs) s))
  | .bootStart [], s => (.done, s)
  | .bootStart (h :: hs), s => (.bootStart hs, monitorStart h s)
  | .done, s => (.done, s)

/-- A lifecycle call as it is issued. -/
inductive Call where
  | startMonitor (userID monitorID : Nat)
  | restartMonitor (userID monitorID : Nat)
  | pauseMonitor (userID monitorID : Nat)
  | startMonitors
deriving DecidableEq, Repr

/-- The call in flight at its first statement; `restartMonitor` is
`return await startMonitor(userID, monitorID)`. -/
def Call.begin : Call → AsyncCall
  | .startMonitor u id => .startCheck u id
  | .restartMonitor u id => .startCheck u id
  | .pauseMonitor u id => .pauseCheck u id
  | .startMonitors => .bootFind

/-- The calls in flight and the shared state. -/
abbrev Config := List AsyncCall × State

/-- The `i`-th call in flight runs one step; nothing happens without such a call. -/
def stepAt : Nat → List AsyncCall → State → Config
  | _, [], s => ([], s)
  | 0, t :: ts, s => ((stepCall t s).1 :: ts, (stepCall t s).2)
  | i + 1, t :: ts, s => (t :: (stepAt i ts s).1, (stepAt i ts s).2)

/-- An interleaving: the calls run one step each in the order of the schedule. -/
def runSchedule : List Nat → Config → Config
  | [], c => c
  | i :: sched, c => runSchedule sched (stepAt i c.1 c.2)

/-- Whether every call has completed. -/
def allDone (ts : List AsyncCall) : Bool := ts.all (fun t => decide (t = AsyncCall.done))

/-- Whether a call in flight belongs to `startMonitor`, `restartMonitor` or
`pauseMonitor` (not to `startMonitors`). -/
def AsyncCall.isLifecycle : AsyncCall → Bool
  | .bootFind => false
  | .bootRegister _ => false
  | .bootStart _ => false
  | _ => true

/-- An upper bound of the steps a lifecycle call still has to run. -/
def AsyncCall.stepsLeft : AsyncCall → Nat
  | .startCheck _ _ => 4
  | .startUpdate _ _ => 3
  | .startFind _ _ => 2
  | .startRegister _ => 1
  | .pauseCheck _ _ => 3
  | .pauseUpdate _ _ => 2
  | .pauseStop _ => 1
  | .bootFind => 0
  | .bootRegister _ => 0
  | .bootStart _ => 0
  | .done => 0

/-- The startup loop interleaved with `startMonitor(1, 3)` on `exTwoActive`:
`startMonitors` reads the active monitors 1 and 3, registers both and starts
monitor 1; during its sleep `startMonitor(1, 3)` runs to its end; then
`startMonitors` starts its own bean of monitor 3 and ends. -/
def exRace : Config :=
  runSchedule [0, 0, 1, 1, 1, 1, 0, 0]
    ([Call.begin Call.startMonitors, Call.begin (Call.startMonitor 1 3)], exTwoActive)

/-- The startup loop interleaved with `pauseMonitor(1, 3)` on `exTwoActive`:
`startMonitors` registers the monitors 1 and 3 and starts monitor 1; during its
sleep `pauseMonitor(1, 3)` runs to its end; then `startMonitors` starts its bean
of monitor 3 and ends. -/
def exPauseRace : Config :=
  runSchedule [0, 0, 1, 1, 1, 0, 0]
    ([Call.begin Call.startMonitors, Call.begin (Call.pauseMonitor 1 3)], exTwoActive)

/-- The bound `stepsLeft` of the `k`-th call in flight, 0 when there is none. -/
def stepsLeftAt (ts : List AsyncCall) (k : Nat) : Nat :=
  match ts[k]? with
  | some t => t.stepsLeft
  | none => 0

/-! ## Lemmas on the registry and the heap -/

theorem regLookup_regSet (k h k' : Nat) (l : List (Nat × Nat)) :
    regLookup k' (regSet k h l) = if k' = k then some h else regLookup k' l := by
  induction l with
  | nil =>
    by_cases hk : k' = k
    · simp [regSet, regLookup, hk]
    · have : ¬ k = k' := fun e => hk e.symm
      simp [regSet, regLookup, hk, this]
  | cons p l ih =>
    by_cases hp : p.1 = k
    · by_cases hk : k' = k
      · simp [regSet, regLookup, hp, hk]
      · have h1 : ¬ k = k' := fun e => hk e.symm
        have h2 : ¬ p.1 = k' := fun e => hk (e.symm.trans hp)
        simp [regSet, regLookup, hp, hk, h1, h2]
    · by_cases hk : k' = k
      · subst hk
        simp [regSet, regLookup, hp, ih]
      · by_cases hq : p.1 = k'
        · simp [regSet, regLookup, hp, hk, hq]
        · simp [regSet, regLookup, hp, hk, hq, ih]

theorem regLookup_regDelete (k k' : Nat) (l : List (Nat × Nat)) :
    regLookup k' (regDelete k l) = if k' = k then none else regLookup k' l := by
  induction l with
  | nil => simp [regDelete, regLookup]
  | cons p l ih =>
    unfold regDelete at ih ⊢
    by_cases hp : p.1 = k
    · by_cases hk : k' = k
      · subst hk
        simpa [List.filter, hp] using ih
      · have h2 : ¬ k = k' := fun e => hk e.symm
        simp [List.filter, hp, ih, hk, regLookup, h2]
    · by_cases hk : k' = k
      · subst hk
        simpa [List.filter, hp, regLookup] using ih
      · simp [List.filter, hp, ih, hk, regLookup]

theorem length_heapModify (f : MonitorInstance → MonitorInstance) (h : Nat)
    (l : List MonitorInstance) : (heapModify f h l).length = l.length := by
  induction l generalizing h with
  | nil => simp [heapModify]
  | cons i l ih =>
    cases h with
    | zero => simp [heapModify]
    | succ n => simp [heapModify, ih]

theorem getElem?_heapModify (f : MonitorInstance → MonitorInstance) (h k : Nat)
    (l : List MonitorInstance) :
    (heapModify f h l)[k]? = if k = h then (l[k]?).map f else l[k]? := by
  induction l generalizing h k with
  | nil => simp [heapModify]
  | cons i l ih =>
    cases h with
    | zero =>
      cases k with
      | zero => simp [heapModify]
      | succ m => simp [heapModify]
    | succ n =>
      cases k with
      | zero => simp [heapModify]
      | succ m => simp [heapModify, ih]

theorem filter_length_le_one {α : Type} (p : α → Bool) (l : List α)
    (h : ∀ (a b : Nat) (x y : α), l[a]? = some x → l[b]? = some y → p x = true → p y = true → a = b) :
    (l.filter p).length ≤ 1 := by
  induction l with
  | nil => simp
  | cons x l ih =>
    by_cases hx : p x = true
    · have hnone : l.filter p = [] := by
        rw [List.filter_eq_nil_iff]
        intro y hy hpy
        obtain ⟨b, hb⟩ := List.getElem?_of_mem hy
        have := h 0 (b + 1) x y (by simp) (by simpa using hb) hx hpy
        omega
      simp [List.filter, hx, hnone]
    · have hstep : (l.filter p).length ≤ 1 := by
        apply ih
        intro a b u v ha hb hu hv
        have := h (a + 1) (b + 1) u v (by simpa using ha) (by simpa using hb) hu hv
        omega
      simpa [List.filter, hx] using hstep

/-! ## The shape of the state after a lifecycle call -/

theorem getElem?_monitorStop (h k : Nat) (s : State) :
    (monitorStop h s).heap[k]? =
      if k = h then (s.heap[k]?).map (fun i => { i with running := false }) else s.heap[k]? :=
  getElem?_heapModify _ h k s.heap

theorem getElem?_monitorStart (h k : Nat) (s : State) :
    (monitorStart h s).heap[k]? =
      if k = h then (s.heap[k]?).map (fun i => { i with running := true }) else s.heap[k]? :=
  getElem?_heapModify _ h k s.heap

theorem findOneMonitor_id (id : Nat) (t : List MonitorRow) (row : MonitorRow)
    (h : findOneMonitor id t = some row) : row.id = id := by
  have := List.find?_some h
  simpa using this

theorem getElem?_append_one (l : List MonitorInstance) (x : MonitorInstance) (k : Nat)
    (hk : k ≠ l.length) : (l ++ [x])[k]? = l[k]? := by
  rcases Nat.lt_or_gt_of_ne hk with h | h
  · exact List.getElem?_append_left h
  · rw [List.getElem?_eq_none (by simp; omega), List.getElem?_eq_none (by omega)]

/-- What a returning `startMonitor` leaves behind. -/
theorem startMonitor_ok (u id : Nat) (s s' : State)
    (h : startMonitor u id s = (.ok (), s')) :
    ∃ row, row.id = id ∧ findOneMonitor id (updateActive 1 id u s.monitor) = some row ∧
      s'.monitor = updateActive 1 id u s.monitor ∧ s'.heartbeat = s.heartbeat ∧
      s'.monitorList = regSet id s.heap.length s.monitorList ∧
      s'.heap.length = s.heap.length + 1 ∧
      ∀ k : Nat, s'.heap[k]? =
        if k = s.heap.length then some { row := row, running := true }
        else if regLookup id s.monitorList = some k then
          (s.heap[k]?).map (fun i => { i with running := false })
        else s.heap[k]? := by
  unfold startMonitor at h
  cases hc : checkOwner u id s with
  | error e => simp [hc] at h
  | ok x =>
    simp only [hc] at h
    cases hf : findOneMonitor id (updateActive 1 id u s.monitor) with
    | none => simp [hf] at h
    | some row =>
      have hid : row.id = id := findOneMonitor_id _ _ _ hf
      simp only [hf, allocBean, hid] at h
      refine ⟨row, hid, rfl, ?_⟩
      cases hl : regLookup id s.monitorList with
      | none =>
        simp only [hl, Prod.mk.injEq, true_and] at h
        subst h
        refine ⟨rfl, rfl, rfl, ?_, ?_⟩
        · simp [monitorStart, length_heapModify]
        · intro k
          rw [getElem?_monitorStart]
          by_cases hk : k = s.heap.length
          · subst hk
            simp
          · simp only [hk, if_false]
            simpa using getElem?_append_one s.heap _ k hk
      | some old =>
        simp only [hl, Prod.mk.injEq, true_and] at h
        subst h
        refine ⟨rfl, rfl, rfl, ?_, ?_⟩
        · simp [monitorStart, monitorStop, length_heapModify]
        · intro k
          rw [getElem?_monitorStart]
          by_cases hk : k = s.heap.length
          · subst hk
            simp only [if_true]
            show Option.map _ ((monitorStop old _).heap[s.heap.length]?) = _
            rw [getElem?_monitorStop]
            by_cases ho : s.heap.length = old
            · simp [ho.symm]
            · simp [ho]
          · simp only [hk, if_false]
            show (monitorStop old _).heap[k]? = _
            rw [getElem?_monitorStop]
            have := getElem?_append_one s.heap { row := row, running := false } k hk
            by_cases ho : k = old
            · subst ho
              simp [this]
            · have ho2 : ¬ old = k := fun e => ho e.symm
              simp [ho, ho2, this]

/-- What a throwing `startMonitor` leaves behind: registry and instances untouched. -/
theorem startMonitor_error (u id : Nat) (s s' : State) (e : String)
    (h : startMonitor u id s = (.error e, s')) :
    s'.heap = s.heap ∧ s'.monitorList = s.monitorList ∧ s'.heartbeat = s.heartbeat := by
  unfold startMonitor at h
  cases hc : checkOwner u id s with
  | error e1 =>
    simp only [hc, Prod.mk.injEq] at h
    rw [← h.2]
    exact ⟨rfl, rfl, rfl⟩
  | ok x =>
    simp only [hc] at h
    cases hf : findOneMonitor id (updateActive 1 id u s.monitor) with
    | none =>
      simp only [hf, Prod.mk.injEq] at h
      rw [← h.2]
      exact ⟨rfl, rfl, rfl⟩
    | some row =>
      simp [hf, allocBean] at h

/-! ## The registry invariant is preserved by every lifecycle call -/

theorem RegistryInv_congr (s s' : State) (hh : s'.heap = s.heap)
    (hm : s'.monitorList = s.monitorList) (hs : RegistryInv s) : RegistryInv s' := by
  unfold RegistryInv at hs ⊢
  rw [hh, hm]
  exact hs

theorem RegistryInv_monitorStop (h : Nat) (s : State) (hs : RegistryInv s) :
    RegistryInv (monitorStop h s) := by
  refine ⟨?_, ?_⟩
  · intro k i hk hr
    rw [getElem?_monitorStop] at hk
    by_cases hkh : k = h
    · simp only [hkh, if_true] at hk
      cases hg : s.heap[h]? with
      | none => simp [hg] at hk
      | some j =>
        simp only [hg, Option.map_some', Option.some.injEq] at hk
        rw [← hk] at hr
        simp at hr
    · simp only [hkh, if_false] at hk
      exact hs.1 k i hk hr
  · intro k h' hk
    have := hs.2 k h' hk
    simpa [monitorStop, length_heapModify] using this

theorem RegistryInv_startMonitor (u id : Nat) (s : State) (hs : RegistryInv s) :
    RegistryInv (startMonitor u id s).2 := by
  cases hr : startMonitor u id s with
  | mk r s' =>
    cases r with
    | error e =>
      obtain ⟨hh, hm, _⟩ := startMonitor_error u id s s' e hr
      exact RegistryInv_congr s s' hh hm hs
    | ok x =>
      obtain ⟨row, hid, _, _, _, hreg, hlen, hget⟩ := startMonitor_ok u id s s' hr
      refine ⟨?_, ?_⟩
      · intro k i hk hrun
        show regLookup i.row.id s'.monitorList = some k
        rw [hreg, regLookup_regSet]
        have hk' : s'.heap[k]? = some i := hk
        rw [hget k] at hk'
        by_cases hkl : k = s.heap.length
        · simp only [hkl, if_true, Option.some.injEq] at hk'
          rw [← hk']
          simp [hid, hkl]
        · simp only [hkl, if_false] at hk'
          by_cases ho : regLookup id s.monitorList = some k
          · simp only [ho, if_true] at hk'
            cases hg : s.heap[k]? with
            | none => simp [hg] at hk'
            | some j =>
              simp only [hg, Option.map_some', Option.some.injEq] at hk'
              rw [← hk'] at hrun
              simp at hrun
          · simp only [ho, if_false] at hk'
            have hold := hs.1 k i hk' hrun
            by_cases hi : i.row.id = id
            · rw [hi] at hold
              exact absurd hold ho
            · simp [hi, hold]
      · intro k h' hk
        show h' < s'.heap.length
        have hk' : regLookup k s'.monitorList = some h' := hk
        rw [hreg, regLookup_regSet] at hk'
        rw [hlen]
        by_cases hki : k = id
        · simp only [hki, if_true, Option.some.injEq] at hk'
          omega
        · simp only [hki, if_false] at hk'
          have := hs.2 k h' hk'
          omega

theorem RegistryInv_pauseMonitor (u id : Nat) (s : State) (hs : RegistryInv s) :
    RegistryInv (pauseMonitor u id s).2 := by
  unfold pauseMonitor
  cases hc : checkOwner u id s with
  | error e => simpa [hc] using hs
  | ok x =>
    simp only [hc]
    cases hl : regLookup id s.monitorList with
    | none =>
      simp only [hl]
      exact RegistryInv_congr s _ rfl rfl hs
    | some h =>
      simp only [hl]
      exact RegistryInv_monitorStop h _ (RegistryInv_congr s _ rfl rfl hs)

theorem RegistryInv_regDelete (k h : Nat) (s : State) (hl : regLookup k s.monitorList = some h)
    (hs : RegistryInv s) :
    RegistryInv { monitorStop h s with monitorList := regDelete k s.monitorList } := by
  have hstop := RegistryInv_monitorStop h s hs
  refine ⟨?_, ?_⟩
  · intro j i hj hrun
    show regLookup i.row.id (regDelete k s.monitorList) = some j
    have hj' : (monitorStop h s).heap[j]? = some i := hj
    have h1 : regLookup i.row.id s.monitorList = some j := hstop.1 j i hj' hrun
    rw [regLookup_regDelete]
    by_cases hik : i.row.id = k
    · exfalso
      rw [hik, hl] at h1
      have hjh : h = j := by simpa using h1
      rw [getElem?_monitorStop] at hj'
      simp only [hjh, if_true] at hj'
      cases hg : s.heap[j]? with
      | none => simp [hg] at hj'
      | some x =>
        simp only [hg, Option.map_some', Option.some.injEq] at hj'
        rw [← hj'] at hrun
        simp at hrun
    · simp [hik, h1]
  · intro j h' hj
    show h' < (monitorStop h s).heap.length
    have hj' : regLookup j (regDelete k s.monitorList) = some h' := hj
    rw [regLookup_regDelete] at hj'
    by_cases hjk : j = k
    · simp [hjk] at hj'
    · simp only [hjk, if_false] at hj'
      exact hstop.2 j h' hj'

theorem RegistryInv_deleteMonitor (checkLogin : Socket → Except String Unit) (socket : Socket)
    (id : Nat) (s : State) (hs : RegistryInv s) :
    RegistryInv (deleteMonitor checkLogin socket id s).2 := by
  unfold deleteMonitor
  cases hc : checkLogin socket with
  | error e => simpa [hc] using hs
  | ok x =>
    simp only [hc]
    cases hl : regLookup id s.monitorList with
    | none =>
      cases hu : socket.userID with
      | none => simpa [hl, hu] using hs
      | some v => exact RegistryInv_congr s _ rfl rfl hs
    | some h =>
      have := RegistryInv_regDelete id h s hl hs
      cases hu : socket.userID with
      | none => exact this
      | some v => exact RegistryInv_congr _ _ rfl rfl this

theorem RegistryInv_step (checkLogin : Socket → Except String Unit) (s : State) (op : Op)
    (hs : RegistryInv s) : RegistryInv (step checkLogin s op) := by
  cases op with
  | start u m => exact RegistryInv_startMonitor u m s hs
  | restart u m => exact RegistryInv_startMonitor u m s hs
  | pause u m => exact RegistryInv_pauseMonitor u m s hs
  | delete sock m => exact RegistryInv_deleteMonitor checkLogin sock m s hs

theorem RegistryInv_run (checkLogin : Socket → Except String Unit) (ops : List Op) (s : State)
    (hs : RegistryInv s) : RegistryInv (run checkLogin s ops) := by
  induction ops generalizing s with
  | nil => exact hs
  | cons op ops ih => exact ih (step checkLogin s op) (RegistryInv_step checkLogin s op hs)

theorem RegistryInv_init (s : State) (hreg : s.monitorList = [])
    (hrun : ∀ i ∈ s.heap, i.running = false) : RegistryInv s := by
  refine ⟨?_, ?_⟩
  · intro h i hi hr
    have := hrun i (List.getElem?_mem hi)
    rw [this] at hr
    cases hr
  · intro k h hk
    rw [hreg] at hk
    simp [regLookup] at hk

theorem runningCount_le_one (id : Nat) (s : State) (hs : RegistryInv s) :
    runningCount id s ≤ 1 := by
  unfold runningCount
  apply filter_length_le_one
  intro a b x y ha hb hx hy
  simp only [Bool.and_eq_true, decide_eq_true_eq] at hx hy
  have h1 := hs.1 a x ha hx.1
  have h2 := hs.1 b y hb hy.1
  rw [hx.2] at h1
  rw [hy.2, h1] at h2
  simpa using h2

/-! ## Ownership -/

theorem selectOwned_isSome_iff (id u : Nat) (t : List MonitorRow) :
    (selectOwned id u t).isSome = true ↔ ∃ r ∈ t, r.id = id ∧ r.user_id = u := by
  unfold selectOwned
  rw [List.find?_isSome]
  simp

theorem checkOwner_ok_iff (u id : Nat) (s : State) :
    checkOwner u id s = .ok () ↔ ∃ r ∈ s.monitor, r.id = id ∧ r.user_id = u := by
  rw [← selectOwned_isSome_iff]
  unfold checkOwner
  cases selectOwned id u s.monitor <;> simp

theorem checkOwner_error_iff (u id : Nat) (s : State) :
    checkOwner u id s = .error notOwnerMsg ↔ ¬ ∃ r ∈ s.monitor, r.id = id ∧ r.user_id = u := by
  rw [← selectOwned_isSome_iff]
  unfold checkOwner
  cases selectOwned id u s.monitor <;> simp

theorem checkOwner_cases (u id : Nat) (s : State) :
    checkOwner u id s = .ok () ∨ checkOwner u id s = .error notOwnerMsg := by
  unfold checkOwner
  cases selectOwned id u s.monitor <;> simp

theorem updateActive_row_ids (a id u : Nat) (q : MonitorRow) :
    (if q.id = id ∧ q.user_id = u then { q with active := a } else q).id = q.id ∧
      (if q.id = id ∧ q.user_id = u then { q with active := a } else q).user_id = q.user_id := by
  split <;> exact ⟨rfl, rfl⟩

theorem owned_updateActive (a id u id' u' : Nat) (t : List MonitorRow) :
    (∃ r ∈ updateActive a id' u' t, r.id = id ∧ r.user_id = u) ↔
      ∃ r ∈ t, r.id = id ∧ r.user_id = u := by
  unfold updateActive
  constructor
  · rintro ⟨r, hr, h1, h2⟩
    obtain ⟨q, hq, rfl⟩ := List.mem_map.1 hr
    obtain ⟨e1, e2⟩ := updateActive_row_ids a id' u' q
    exact ⟨q, hq, e1 ▸ h1, e2 ▸ h2⟩
  · rintro ⟨r, hr, h1, h2⟩
    obtain ⟨e1, e2⟩ := updateActive_row_ids a id' u' r
    exact ⟨_, List.mem_map.2 ⟨r, hr, rfl⟩, e1.trans h1, e2.trans h2⟩

theorem findOneMonitor_of_owned (a id u : Nat) (t : List MonitorRow)
    (h : ∃ r ∈ t, r.id = id ∧ r.user_id = u) :
    ∃ row, findOneMonitor id (updateActive a id u t) = some row := by
  obtain ⟨r, hr, h1, _⟩ := (owned_updateActive a id u id u t).2 h
  have : (findOneMonitor id (updateActive a id u t)).isSome = true := by
    unfold findOneMonitor
    rw [List.find?_isSome]
    exact ⟨r, hr, by simpa using h1⟩
  exact Option.isSome_iff_exists.1 this

/-- An owner's `startMonitor` returns. -/
theorem startMonitor_owner (u id : Nat) (s : State) (h : checkOwner u id s = .ok ()) :
    ∃ s', startMonitor u id s = (.ok (), s') := by
  obtain ⟨row, hrow⟩ := findOneMonitor_of_owned 1 id u s.monitor ((checkOwner_ok_iff u id s).1 h)
  unfold startMonitor
  simp only [h, hrow, allocBean]
  exact ⟨_, rfl⟩

theorem isRunning_eq (h : Nat) (s : State) (i : MonitorInstance) (hi : s.heap[h]? = some i) :
    isRunning h s = i.running := by
  simp [isRunning, hi]

/-- After a returning `startMonitor` the fresh handle is registered and running,
and a valid handle registered before is stopped. -/
theorem startMonitor_ok_running (u id : Nat) (s s' : State)
    (h : startMonitor u id s = (.ok (), s')) :
    regLookup id s'.monitorList = some s.heap.length ∧ isRunning s.heap.length s' = true ∧
      ∀ old, regLookup id s.monitorList = some old → old < s.heap.length →
        isRunning old s' = false := by
  obtain ⟨row, _, _, _, _, hreg, _, hget⟩ := startMonitor_ok u id s s' h
  refine ⟨?_, ?_, ?_⟩
  · rw [hreg, regLookup_regSet]
    simp
  · rw [isRunning_eq _ _ { row := row, running := true } (by rw [hget]; simp)]
  · intro old hold hlt
    have hne : old ≠ s.heap.length := by omega
    have hg := hget old
    simp only [hne, if_false, hold, if_true] at hg
    obtain ⟨j, hj⟩ : ∃ j, s.heap[old]? = some j := ⟨s.heap[old], List.getElem?_eq_getElem hlt⟩
    rw [hj] at hg
    rw [isRunning_eq _ _ _ hg]

theorem RegistryInv_pauseThenStart (u id : Nat) (s : State) (hs : RegistryInv s) :
    RegistryInv (pauseThenStart u id s).2 := by
  unfold pauseThenStart
  have hp := RegistryInv_pauseMonitor u id s hs
  cases hr : pauseMonitor u id s with
  | mk r s1 =>
    rw [hr] at hp
    cases r with
    | error e => exact hp
    | ok x => exact RegistryInv_startMonitor u id s1 hp

/-! ## Pausing -/

theorem updateActive_updateActive (a b id u : Nat) (t : List MonitorRow) :
    updateActive b id u (updateActive a id u t) = updateActive b id u t := by
  unfold updateActive
  rw [List.map_map]
  apply List.map_congr_left
  intro r _
  by_cases hc : r.id = id ∧ r.user_id = u
  · simp [hc]
  · simp [hc]

theorem updateActive_active (a id u : Nat) (t : List MonitorRow) (r : MonitorRow)
    (hr : r ∈ updateActive a id u t) (h1 : r.id = id) (h2 : r.user_id = u) : r.active = a := by
  unfold updateActive at hr
  obtain ⟨q, _, rfl⟩ := List.mem_map.1 hr
  obtain ⟨e1, e2⟩ := updateActive_row_ids a id u q
  have hq : q.id = id ∧ q.user_id = u := ⟨e1 ▸ h1, e2 ▸ h2⟩
  simp [hq]

theorem heapModify_heapModify (f : MonitorInstance → MonitorInstance)
    (hf : ∀ i, f (f i) = f i) (h : Nat) (l : List MonitorInstance) :
    heapModify f h (heapModify f h l) = heapModify f h l := by
  induction l generalizing h with
  | nil => simp [heapModify]
  | cons i l ih =>
    cases h with
    | zero => simp [heapModify, hf]
    | succ n => simp [heapModify, ih]

theorem monitorStop_monitorStop (h : Nat) (s : State) :
    monitorStop h (monitorStop h s) = monitorStop h s := by
  unfold monitorStop
  simp [heapModify_heapModify]

theorem isRunning_monitorStop (h : Nat) (s : State) : isRunning h (monitorStop h s) = false := by
  unfold isRunning
  rw [getElem?_monitorStop]
  cases s.heap[h]? <;> simp

theorem checkOwner_updateActive (a u id : Nat) (s : State) (t : State)
    (ht : t.monitor = updateActive a id u s.monitor) (h : checkOwner u id s = .ok ()) :
    checkOwner u id t = .ok () := by
  rw [checkOwner_ok_iff] at h ⊢
  rw [ht]
  exact (owned_updateActive a id u id u s.monitor).2 h

/-- What an owner's `pauseMonitor` leaves behind. -/
theorem pauseMonitor_owner (u id : Nat) (s : State) (h : checkOwner u id s = .ok ()) :
    pauseMonitor u id s = (.ok (),
      match regLookup id s.monitorList with
      | some old => monitorStop old { s with monitor := updateActive 0 id u s.monitor }
      | none => { s with monitor := updateActive 0 id u s.monitor }) := by
  unfold pauseMonitor
  simp only [h]
  cases regLookup id s.monitorList <;> rfl

/-- A non-owner's `pauseMonitor` and `startMonitor` throw and change nothing. -/
theorem lifecycle_not_owner (u id : Nat) (s : State) (h : checkOwner u id s = .error notOwnerMsg) :
    startMonitor u id s = (.error notOwnerMsg, s) ∧
      pauseMonitor u id s = (.error notOwnerMsg, s) := by
  unfold startMonitor pauseMonitor
  simp [h]

/-! ## Restart against pause then start -/

theorem State_ext (a b : State) (h1 : a.monitor = b.monitor) (h2 : a.heartbeat = b.heartbeat)
    (h3 : a.heap = b.heap) (h4 : a.monitorList = b.monitorList) : a = b := by
  cases a
  cases b
  simp_all

/-- The fields of the state an owner's `pauseMonitor` leaves behind. -/
theorem pauseMonitor_owner_fields (u id : Nat) (s : State) (h : checkOwner u id s = .ok ()) :
    (pauseMonitor u id s).1 = .ok () ∧
    (pauseMonitor u id s).2.monitor = updateActive 0 id u s.monitor ∧
    (pauseMonitor u id s).2.heartbeat = s.heartbeat ∧
    (pauseMonitor u id s).2.monitorList = s.monitorList ∧
    (pauseMonitor u id s).2.heap.length = s.heap.length ∧
    ∀ k : Nat, (pauseMonitor u id s).2.heap[k]? =
      if regLookup id s.monitorList = some k then
        (s.heap[k]?).map (fun i => { i with running := false })
      else s.heap[k]? := by
  rw [pauseMonitor_owner u id s h]
  cases hl : regLookup id s.monitorList with
  | none => simp
  | some old =>
    refine ⟨rfl, rfl, rfl, rfl, ?_, ?_⟩
    · simp [monitorStop, length_heapModify]
    · intro k
      show (monitorStop old _).heap[k]? = _
      rw [getElem?_monitorStop]
      by_cases hk : k = old
      · subst hk
        simp
      · have hk2 : ¬ old = k := fun e => hk e.symm
        simp [hk, hk2]

theorem restart_eq_pauseThenStart (u id : Nat) (s : State) :
    restartMonitor u id s = pauseThenStart u id s := by
  unfold restartMonitor
  rcases checkOwner_cases u id s with hown | herr
  · obtain ⟨hp1, hpm, hpb, hpl, hplen, hpget⟩ := pauseMonitor_owner_fields u id s hown
    have hown2 : checkOwner u id (pauseMonitor u id s).2 = .ok () :=
      checkOwner_updateActive 0 u id s _ hpm hown
    obtain ⟨sA, hA⟩ := startMonitor_owner u id s hown
    obtain ⟨sB, hB⟩ := startMonitor_owner u id _ hown2
    have hpts : pauseThenStart u id s = (.ok (), sB) := by
      unfold pauseThenStart
      cases hr : pauseMonitor u id s with
      | mk r s1 =>
        rw [hr] at hp1 hB
        cases r with
        | error e => cases hp1
        | ok x => exact hB
    rw [hA, hpts]
    obtain ⟨rowA, _, hfA, hmA, hbA, hlA, _, hgA⟩ := startMonitor_ok u id s sA hA
    obtain ⟨rowB, _, hfB, hmB, hbB, hlB, _, hgB⟩ := startMonitor_ok u id _ sB hB
    rw [hpm, updateActive_updateActive] at hfB hmB
    have hrow : rowA = rowB := by
      rw [hfA] at hfB
      exact Option.some.inj hfB
    have hs : sA = sB := by
      apply State_ext
      · rw [hmA, hmB]
      · rw [hbA, hbB, hpb]
      · apply List.ext_getElem?
        intro k
        rw [hgA k, hgB k, hplen, hpl, hpget k, hrow]
        by_cases hk : k = s.heap.length
        · simp [hk]
        · by_cases ho : regLookup id s.monitorList = some k
          · simp only [hk, ho, if_false, if_true]
            cases s.heap[k]? <;> simp
          · simp [hk, ho]
      · rw [hlA, hlB, hplen, hpl]
    rw [hs]
  · obtain ⟨h1, h2⟩ := lifecycle_not_owner u id s herr
    unfold pauseThenStart
    rw [h1, h2]

/-! ## Startup -/

theorem allocBeans_eq (rows : List MonitorRow) (s : State) :
    allocBeans rows s = (List.range' s.heap.length rows.length,
      { s with heap := s.heap ++ rows.map (fun r => { row := r, running := false }) }) := by
  induction rows generalizing s with
  | nil => simp [allocBeans]
  | cons r rs ih =>
    simp [allocBeans, allocBean, ih, List.range'_succ]

theorem heapModify_append_cons (f : MonitorInstance → MonitorInstance)
    (pre rest : List MonitorInstance) (x : MonitorInstance) :
    heapModify f pre.length (pre ++ x :: rest) = pre ++ f x :: rest := by
  induction pre with
  | nil => simp [heapModify]
  | cons i l ih => simp [heapModify, ih]

theorem mem_regKeys_regSet (k h k' : Nat) (l : List (Nat × Nat)) :
    k' ∈ regKeys (regSet k h l) ↔ k' = k ∨ k' ∈ regKeys l := by
  unfold regKeys
  induction l with
  | nil => simp [regSet]
  | cons p l ih =>
    by_cases hp : p.1 = k
    · simp [regSet, hp]
    · simp only [regSet, hp, if_false, List.map_cons, List.mem_cons, ih]
      tauto

/-- The first loop of `startMonitors` on freshly allocated beans. -/
theorem registerAll_fresh (rows : List MonitorRow) (pre : List MonitorInstance) (s : State)
    (hs : s.heap = pre ++ rows.map (fun r => { row := r, running := false })) :
    (registerAll (List.range' pre.length rows.length) s).heap = s.heap ∧
    (registerAll (List.range' pre.length rows.length) s).monitor = s.monitor ∧
    (registerAll (List.range' pre.length rows.length) s).heartbeat = s.heartbeat ∧
    (∀ k, k ∈ regKeys (registerAll (List.range' pre.length rows.length) s).monitorList ↔
      k ∈ regKeys s.monitorList ∨ ∃ r ∈ rows, r.id = k) ∧
    (∀ k h, regLookup k (registerAll (List.range' pre.length rows.length) s).monitorList = some h →
      regLookup k s.monitorList = some h ∨
      ∃ j r, rows[j]? = some r ∧ h = pre.length + j ∧ r.id = k) := by
  induction rows generalizing pre s with
  | nil =>
    refine ⟨rfl, rfl, rfl, ?_, ?_⟩
    · intro k
      simp [registerAll]
    · intro k h hk
      exact Or.inl hk
  | cons r rs ih =>
    have hget : s.heap[pre.length]? = some { row := r, running := false } := by
      rw [hs, List.getElem?_append_right (le_refl _)]
      simp
    simp only [List.length_cons, List.range'_succ, registerAll, hget]
    have hs1 : ({ s with monitorList := regSet r.id pre.length s.monitorList } : State).heap =
        (pre ++ [{ row := r, running := false }]) ++
          rs.map (fun r => { row := r, running := false }) := by
      show s.heap = _
      rw [hs]
      simp
    have hlen : (pre ++ [({ row := r, running := false } : MonitorInstance)]).length =
        pre.length + 1 := by simp
    obtain ⟨h1, h2, h3, h4, h5⟩ := ih (pre ++ [{ row := r, running := false }])
      { s with monitorList := regSet r.id pre.length s.monitorList } hs1
    rw [hlen] at h1 h2 h3 h4 h5
    refine ⟨h1, h2, h3, ?_, ?_⟩
    · intro k
      rw [h4 k, mem_regKeys_regSet]
      simp only [List.mem_cons, exists_eq_or_imp]
      constructor
      · rintro ((h | h) | h)
        · exact Or.inr (Or.inl h.symm)
        · exact Or.inl h
        · exact Or.inr (Or.inr h)
      · rintro (h | h | h)
        · exact Or.inl (Or.inr h)
        · exact Or.inl (Or.inl h.symm)
        · exact Or.inr h
    · intro k h hk
      rcases h5 k h hk with hh | ⟨j, q, hq, hj, hid⟩
      · have hh' : regLookup k (regSet r.id pre.length s.monitorList) = some h := hh
        rw [regLookup_regSet] at hh'
        by_cases hkr : k = r.id
        · simp only [hkr, if_true, Option.some.injEq] at hh'
          exact Or.inr ⟨0, r, by simp, by omega, hkr.symm⟩
        · simp only [hkr, if_false] at hh'
          exact Or.inl hh'
      · exact Or.inr ⟨j + 1, q, by simpa using hq, by omega, hid⟩

/-- The second loop of `startMonitors` on freshly allocated beans. -/
theorem startLoop_fresh (rand : Nat → Nat) (rows : List MonitorRow)
    (pre : List MonitorInstance) (s : State) (k : Nat)
    (hs : s.heap = pre ++ rows.map (fun r => { row := r, running := false })) :
    (startLoop rand k (List.range' pre.length rows.length) s).1.heap =
      pre ++ rows.map (fun r => { row := r, running := true }) ∧
    (startLoop rand k (List.range' pre.length rows.length) s).1.monitor = s.monitor ∧
    (startLoop rand k (List.range' pre.length rows.length) s).1.heartbeat = s.heartbeat ∧
    (startLoop rand k (List.range' pre.length rows.length) s).1.monitorList = s.monitorList ∧
    startedHandles (startLoop rand k (List.range' pre.length rows.length) s).2 =
      List.range' pre.length rows.length := by
  induction rows generalizing pre s k with
  | nil =>
    refine ⟨?_, rfl, rfl, rfl, rfl⟩
    show s.heap = _
    rw [hs]
    simp
  | cons r rs ih =>
    simp only [List.length_cons, List.range'_succ, startLoop, startedHandles]
    have hs1 : (monitorStart pre.length s).heap =
        (pre ++ [{ row := r, running := true }]) ++
          rs.map (fun r => { row := r, running := false }) := by
      show heapModify _ pre.length s.heap = _
      rw [hs, List.map_cons, heapModify_append_cons]
      simp
    have hlen : (pre ++ [({ row := r, running := true } : MonitorInstance)]).length =
        pre.length + 1 := by simp
    obtain ⟨h1, h2, h3, h4, h5⟩ := ih (pre ++ [{ row := r, running := true }])
      (monitorStart pre.length s) (k + 1) hs1
    rw [hlen] at h1 h2 h3 h4 h5
    refine ⟨?_, h2, h3, h4, ?_⟩
    · rw [h1]
      simp
    · rw [h5]

theorem delayBefore_startLoop (rand : Nat → Nat) (n L k i : Nat) (s : State) (hi : i < n) :
    delayBefore (L + i) (startLoop rand k (List.range' L n) s).2 = some (jitterSum rand k i) := by
  induction n generalizing L k i s with
  | zero => omega
  | succ n ih =>
    simp only [List.range'_succ, startLoop, delayBefore]
    cases i with
    | zero => simp [jitterSum]
    | succ j =>
      have hne : ¬ L = L + (j + 1) := by omega
      simp only [hne, if_false]
      have := ih (L + 1) (k + 1) j (monitorStart L s) (by omega)
      have e : L + 1 + j = L + (j + 1) := by omega
      rw [e] at this
      rw [this]
      simp [jitterSum]

theorem jitterSum_bounds (rand : Nat → Nat) (k i : Nat) :
    300 * i ≤ jitterSum rand k i ∧ jitterSum rand k i ≤ 999 * i := by
  induction i generalizing k with
  | zero => simp [jitterSum]
  | succ i ih =>
    obtain ⟨h1, h2⟩ := ih (k + 1)
    have hlt : rand k % 700 < 700 := Nat.mod_lt _ (by decide)
    simp only [jitterSum, getRandomInt]
    omega

theorem startMonitors_eq (rand : Nat → Nat) (s : State) :
    startMonitors rand s =
      startLoop rand 0 (List.range' s.heap.length (findActive s.monitor).length)
        (registerAll (List.range' s.heap.length (findActive s.monitor).length)
          { s with heap := s.heap ++
            (findActive s.monitor).map (fun r => { row := r, running := false }) }) := by
  unfold startMonitors
  rw [allocBeans_eq]

theorem getElem?_fresh (pre : List MonitorInstance) (rows : List MonitorRow) (b : Bool)
    (j : Nat) (r : MonitorRow) (hj : rows[j]? = some r) :
    (pre ++ rows.map (fun r => { row := r, running := b }))[pre.length + j]? =
      some { row := r, running := b } := by
  rw [List.getElem?_append_right (by omega)]
  simp [hj]

theorem mem_findActive (t : List MonitorRow) (r : MonitorRow) :
    r ∈ findActive t ↔ r ∈ t ∧ r.active = 1 := by
  simp [findActive]

/-- The state and the calls of `startMonitors`, run with an empty registry. -/
theorem startMonitors_spec (rand : Nat → Nat) (s : State) (hreg : s.monitorList = []) :
    (startMonitors rand s).1.heap =
      s.heap ++ (findActive s.monitor).map (fun r => { row := r, running := true }) ∧
    (startMonitors rand s).1.monitor = s.monitor ∧
    startedHandles (startMonitors rand s).2 =
      List.range' s.heap.length (findActive s.monitor).length ∧
    (∀ k, k ∈ regKeys (startMonitors rand s).1.monitorList ↔ ∃ r ∈ findActive s.monitor, r.id = k) ∧
    (∀ k h, regLookup k (startMonitors rand s).1.monitorList = some h →
      ∃ j r, (findActive s.monitor)[j]? = some r ∧ h = s.heap.length + j ∧ r.id = k) := by
  rw [startMonitors_eq]
  obtain ⟨r1, r2, r3, r4, r5⟩ := registerAll_fresh (findActive s.monitor) s.heap
    { s with heap := s.heap ++
      (findActive s.monitor).map (fun r => { row := r, running := false }) } rfl
  obtain ⟨l1, l2, l3, l4, l5⟩ := startLoop_fresh rand (findActive s.monitor) s.heap
    (registerAll (List.range' s.heap.length (findActive s.monitor).length)
      { s with heap := s.heap ++
        (findActive s.monitor).map (fun r => { row := r, running := false }) }) 0 r1
  refine ⟨l1, l2.trans r2, l5, ?_, ?_⟩
  · intro k
    rw [l4, r4 k]
    show k ∈ regKeys s.monitorList ∨ _ ↔ _
    rw [hreg]
    simp [regKeys]
  · intro k h hk
    rw [l4] at hk
    rcases r5 k h hk with hh | hh
    · have hh' : regLookup k s.monitorList = some h := hh
      rw [hreg] at hh'
      simp [regLookup] at hh'
    · exact hh

/-! ## Heartbeat handlers -/

theorem clearHeartbeats_ok (checkLogin : Socket → Except String Unit)
    (send : State → Nat → Except String Unit) (socket : Socket) (id : Nat) (s : State)
    (hok : (clearHeartbeats checkLogin send socket id s).1.ok = true) :
    (clearHeartbeats checkLogin send socket id s).2 =
      { s with heartbeat := deleteBeats id s.heartbeat } := by
  unfold clearHeartbeats at hok ⊢
  cases hc : checkLogin socket with
  | error e => simp [hc] at hok
  | ok x =>
    simp only [hc] at hok ⊢
    cases hsend : send { s with heartbeat := deleteBeats id s.heartbeat } id <;> rfl

theorem clearEvents_ok (checkLogin : Socket → Except String Unit)
    (send : State → Nat → Except String Unit) (socket : Socket) (id : Nat) (s : State)
    (hok : (clearEvents checkLogin send socket id s).1.ok = true) :
    (clearEvents checkLogin send socket id s).2 =
      { s with heartbeat := resetImportant id s.heartbeat } := by
  unfold clearEvents at hok ⊢
  cases hc : checkLogin socket with
  | error e => simp [hc] at hok
  | ok x =>
    simp only [hc] at hok ⊢
    cases hsend : send { s with heartbeat := resetImportant id s.heartbeat } id <;> rfl

theorem filter_deleteBeats_other (id m : Nat) (hm : m ≠ id) (t : List HeartbeatRow) :
    (deleteBeats id t).filter (fun b => decide (b.monitor_id = m)) =
      t.filter (fun b => decide (b.monitor_id = m)) := by
  unfold deleteBeats
  rw [List.filter_filter]
  apply List.filter_congr
  intro b _
  by_cases hb : b.monitor_id = m
  · have : ¬ b.monitor_id = id := fun e => hm (hb.symm.trans e)
    simp [hb, this, hm]
  · simp [hb]

theorem filter_resetImportant_other (id m : Nat) (hm : m ≠ id) (t : List HeartbeatRow) :
    (resetImportant id t).filter (fun b => decide (b.monitor_id = m)) =
      t.filter (fun b => decide (b.monitor_id = m)) := by
  unfold resetImportant
  induction t with
  | nil => rfl
  | cons b t ih =>
    by_cases hb : b.monitor_id = id
    · have : ¬ b.monitor_id = m := fun e => hm (e.symm.trans hb)
      simp only [List.map_cons, hb, if_true, List.filter_cons]
      simpa [hm.symm] using ih
    · simp only [List.map_cons, hb, if_false, List.filter_cons, ih]

theorem resetImportant_row (id : Nat) (b : HeartbeatRow) :
    (if b.monitor_id = id then { b with msg := "", important := 0 } else b).id = b.id ∧
    (if b.monitor_id = id then { b with msg := "", important := 0 } else b).monitor_id =
      b.monitor_id ∧
    (if b.monitor_id = id then { b with msg := "", important := 0 } else b).time = b.time ∧
    (if b.monitor_id = id then { b with msg := "", important := 0 } else b).status = b.status := by
  split <;> exact ⟨rfl, rfl, rfl, rfl⟩

/-! ## Claims -/

/-- C1: in every state reached from an empty `server.monitorList` (no loop
running) by completed `startMonitor`, `restartMonitor`, `pauseMonitor` and
`deleteMonitor` calls, at most one instance per monitor id is running; a
returning `startMonitor` on a registered id leaves the previously registered
instance stopped and the fresh one registered and running; and `pauseMonitor`
followed by `startMonitor` leaves at most one running instance per id. -/
theorem C1_at_most_one_running_instance (checkLogin : Socket → Except String Unit)
    (s0 : State) (ops : List Op)
    (hreg : s0.monitorList = []) (hrun : ∀ i ∈ s0.heap, i.running = false) :
    (∀ id, runningCount id (run checkLogin s0 ops) ≤ 1) ∧
    (∀ u id old s', regLookup id (run checkLogin s0 ops).monitorList = some old →
      startMonitor u id (run checkLogin s0 ops) = (.ok (), s') →
      isRunning old s' = false ∧
      regLookup id s'.monitorList = some (run checkLogin s0 ops).heap.length ∧
      isRunning (run checkLogin s0 ops).heap.length s' = true ∧
      runningCount id s' ≤ 1) ∧
    (∀ u id id', runningCount id' (pauseThenStart u id (run checkLogin s0 ops)).2 ≤ 1) := by
  have hinv : RegistryInv (run checkLogin s0 ops) :=
    RegistryInv_run checkLogin ops s0 (RegistryInv_init s0 hreg hrun)
  refine ⟨fun id => runningCount_le_one id _ hinv, ?_, ?_⟩
  · intro u id old s' hold hstart
    obtain ⟨h1, h2, h3⟩ := startMonitor_ok_running u id _ s' hstart
    refine ⟨h3 old hold (hinv.2 id old hold), h1, h2, ?_⟩
    have := RegistryInv_startMonitor u id _ hinv
    rw [hstart] at this
    exact runningCount_le_one id s' this
  · intro u id id'
    exact runningCount_le_one id' _ (RegistryInv_pauseThenStart u id _ hinv)

/-- Witness of C1 on the example state, after start, pause, start of monitor 1. -/
theorem C1_at_most_one_running_instance_witness :
    exState.monitorList = [] ∧ (∀ i ∈ exState.heap, i.running = false) ∧
    runningCount 1 (run loggedIn exState [Op.start 1 1, Op.pause 1 1, Op.start 1 1]) ≤ 1 :=
  ⟨rfl, by simp [exState],
    (C1_at_most_one_running_instance loggedIn exState
      [Op.start 1 1, Op.pause 1 1, Op.start 1 1] rfl (by simp [exState])).1 1⟩

/-- C2 (as stated) fails: in `exRunning` monitor 1 is registered under handle 0,
yet `startMonitor(1, 1)` returns without any error, replaces the registered
instance by handle 1 and starts it. -/
theorem C2_start_registered_counterexample :
    regLookup 1 exRunning.monitorList = some 0 ∧
    (startMonitor 1 1 exRunning).1 = Except.ok () ∧
    regLookup 1 (startMonitor 1 1 exRunning).2.monitorList = some 1 ∧
    isRunning 1 (startMonitor 1 1 exRunning).2 = true := by
  refine ⟨rfl, rfl, rfl, rfl⟩

/-- C2 (amended): for an owner, `startMonitor` on an id that already has a
registered instance returns without error; it stops the previously registered
instance, registers a freshly loaded instance under the id and starts it. -/
theorem C2_start_registered_restarts (u id old : Nat) (s : State)
    (hown : checkOwner u id s = .ok ())
    (hreg : regLookup id s.monitorList = some old) (hold : old < s.heap.length) :
    (startMonitor u id s).1 = .ok () ∧
    regLookup id (startMonitor u id s).2.monitorList = some s.heap.length ∧
    s.heap.length ≠ old ∧
    isRunning s.heap.length (startMonitor u id s).2 = true ∧
    isRunning old (startMonitor u id s).2 = false := by
  obtain ⟨s', hs'⟩ := startMonitor_owner u id s hown
  obtain ⟨h1, h2, h3⟩ := startMonitor_ok_running u id s s' hs'
  rw [hs']
  exact ⟨rfl, h1, by omega, h2, h3 old hreg hold⟩

/-- Witness of the amended C2 on `exRunning`. -/
theorem C2_start_registered_restarts_witness :
    checkOwner 1 1 exRunning = .ok () ∧ regLookup 1 exRunning.monitorList = some 0 ∧
    0 < exRunning.heap.length ∧
    (startMonitor 1 1 exRunning).1 = .ok () ∧
    regLookup 1 (startMonitor 1 1 exRunning).2.monitorList = some exRunning.heap.length ∧
    exRunning.heap.length ≠ 0 ∧
    isRunning exRunning.heap.length (startMonitor 1 1 exRunning).2 = true ∧
    isRunning 0 (startMonitor 1 1 exRunning).2 = false :=
  ⟨rfl, rfl, by decide,
    C2_start_registered_restarts 1 1 0 exRunning rfl rfl (by decide)⟩

/-- C3: for a monitor id owned by the user, `pauseMonitor` raises no error,
calling it twice gives the same result and state as calling it once, the owned
row has `active = 0`, the registered instance is stopped, the registry is left
as it was, and without a registry entry no instance is touched either. -/
theorem C3_pauseMonitor_idempotent (u id : Nat) (s : State)
    (hown : checkOwner u id s = .ok ()) :
    (pauseMonitor u id s).1 = .ok () ∧
    pauseMonitor u id (pauseMonitor u id s).2 = pauseMonitor u id s ∧
    (∀ r ∈ (pauseMonitor u id s).2.monitor, r.id = id → r.user_id = u → r.active = 0) ∧
    (∀ h, regLookup id s.monitorList = some h → isRunning h (pauseMonitor u id s).2 = false) ∧
    (pauseMonitor u id s).2.monitorList = s.monitorList ∧
    (regLookup id s.monitorList = none → (pauseMonitor u id s).2.heap = s.heap) := by
  have hp := pauseMonitor_owner u id s hown
  cases hl : regLookup id s.monitorList with
  | none =>
    rw [hl] at hp
    have hown2 : checkOwner u id { s with monitor := updateActive 0 id u s.monitor } = .ok () :=
      checkOwner_updateActive 0 u id s _ rfl hown
    have hp2 := pauseMonitor_owner u id _ hown2
    simp only [hl, updateActive_updateActive] at hp2
    rw [hp]
    refine ⟨rfl, hp2, ?_, ?_, rfl, fun _ => rfl⟩
    · intro r hr h1 h2
      exact updateActive_active 0 id u s.monitor r hr h1 h2
    · intro h hh
      cases hh
  | some old =>
    rw [hl] at hp
    have hown2 : checkOwner u id
        (monitorStop old { s with monitor := updateActive 0 id u s.monitor }) = .ok () :=
      checkOwner_updateActive 0 u id s _ rfl hown
    have hp2 := pauseMonitor_owner u id _ hown2
    have hl2 : regLookup id
        (monitorStop old { s with monitor := updateActive 0 id u s.monitor }).monitorList =
          some old := hl
    rw [hl2] at hp2
    have hst : monitorStop old
        { monitorStop old { s with monitor := updateActive 0 id u s.monitor } with
          monitor := updateActive 0 id u
            (monitorStop old { s with monitor := updateActive 0 id u s.monitor }).monitor } =
        monitorStop old { s with monitor := updateActive 0 id u s.monitor } := by
      have : (monitorStop old { s with monitor := updateActive 0 id u s.monitor }).monitor =
          updateActive 0 id u s.monitor := rfl
      rw [this, updateActive_updateActive]
      show monitorStop old (monitorStop old { s with monitor := updateActive 0 id u s.monitor }) = _
      exact monitorStop_monitorStop old _
    simp only [hst] at hp2
    rw [hp]
    refine ⟨rfl, hp2, ?_, ?_, rfl, ?_⟩
    · intro r hr h1 h2
      exact updateActive_active 0 id u s.monitor r hr h1 h2
    · intro h hh
      have : old = h := by simpa using hh
      subst this
      exact isRunning_monitorStop old _
    · intro hn
      cases hn

/-- Witness of C3 on `exRunning`, where monitor 1 is registered and running. -/
theorem C3_pauseMonitor_idempotent_witness :
    checkOwner 1 1 exRunning = .ok () ∧
    pauseMonitor 1 1 (pauseMonitor 1 1 exRunning).2 = pauseMonitor 1 1 exRunning ∧
    isRunning 0 (pauseMonitor 1 1 exRunning).2 = false :=
  ⟨rfl, (C3_pauseMonitor_idempotent 1 1 exRunning rfl).2.1,
    (C3_pauseMonitor_idempotent 1 1 exRunning rfl).2.2.2.1 0 rfl⟩

/-- C10: `checkOwner` throws "You do not own this monitor." exactly when no
monitor row has the given id and user id (and returns otherwise); for such a
pair `startMonitor` and `pauseMonitor` throw that error and leave the whole
state (table `monitor`, instances, registry) as it was. -/
theorem C10_checkOwner_guards_lifecycle (u id : Nat) (s : State) :
    (checkOwner u id s = .error notOwnerMsg ↔ ¬ ∃ r ∈ s.monitor, r.id = id ∧ r.user_id = u) ∧
    (checkOwner u id s = .ok () ↔ ∃ r ∈ s.monitor, r.id = id ∧ r.user_id = u) ∧
    ((¬ ∃ r ∈ s.monitor, r.id = id ∧ r.user_id = u) →
      startMonitor u id s = (.error notOwnerMsg, s) ∧
      pauseMonitor u id s = (.error notOwnerMsg, s)) :=
  ⟨checkOwner_error_iff u id s, checkOwner_ok_iff u id s,
    fun h => lifecycle_not_owner u id s ((checkOwner_error_iff u id s).2 h)⟩

/-- Witness of C10: user 2 owns no monitor of `exRunning`. -/
theorem C10_checkOwner_guards_lifecycle_witness :
    (¬ ∃ r ∈ exRunning.monitor, r.id = 1 ∧ r.user_id = 2) ∧
    startMonitor 2 1 exRunning = (.error notOwnerMsg, exRunning) ∧
    pauseMonitor 2 1 exRunning = (.error notOwnerMsg, exRunning) :=
  ⟨by decide, (C10_checkOwner_guards_lifecycle 2 1 exRunning).2.2 (by decide)⟩

/-- C4: `restartMonitor` gives the same result and final state as `pauseMonitor`
followed by `startMonitor`; for an owned id it returns, the owned row has
`active = 1`, the freshly loaded instance is registered under the id and
running, the instance registered before is stopped, and when the registry
invariant held before, the fresh instance is the only running one of that id. -/
theorem C4_restart_is_pause_then_start (u id : Nat) (s : State) :
    restartMonitor u id s = pauseThenStart u id s ∧
    (checkOwner u id s = .ok () →
      (restartMonitor u id s).1 = .ok () ∧
      (∀ r ∈ (restartMonitor u id s).2.monitor, r.id = id → r.user_id = u → r.active = 1) ∧
      regLookup id (restartMonitor u id s).2.monitorList = some s.heap.length ∧
      (∃ row, findOneMonitor id (restartMonitor u id s).2.monitor = some row ∧
        (restartMonitor u id s).2.heap[s.heap.length]? = some { row := row, running := true }) ∧
      (∀ old, regLookup id s.monitorList = some old → old < s.heap.length →
        isRunning old (restartMonitor u id s).2 = false) ∧
      (RegistryInv s → ∀ (k : Nat) (i : MonitorInstance),
        (restartMonitor u id s).2.heap[k]? = some i → i.row.id = id → i.running = true →
        k = s.heap.length)) := by
  refine ⟨restart_eq_pauseThenStart u id s, ?_⟩
  intro hown
  obtain ⟨s', hs'⟩ := startMonitor_owner u id s hown
  obtain ⟨row, _, hf, hm, _, _, _, hget⟩ := startMonitor_ok u id s s' hs'
  obtain ⟨h1, _, h3⟩ := startMonitor_ok_running u id s s' hs'
  have hinv := RegistryInv_startMonitor u id s
  unfold restartMonitor
  rw [hs'] at hinv ⊢
  refine ⟨rfl, ?_, h1, ⟨row, ?_, ?_⟩, h3, ?_⟩
  · intro r hr
    have hr' : r ∈ s'.monitor := hr
    rw [hm] at hr'
    exact updateActive_active 1 id u s.monitor r hr'
  · show findOneMonitor id s'.monitor = some row
    rw [hm]
    exact hf
  · show s'.heap[s.heap.length]? = _
    rw [hget]
    simp
  · intro hs k i hk hid hrun
    have := (hinv hs).1 k i hk hrun
    rw [hid] at this
    have h1' : regLookup id s'.monitorList = some s.heap.length := h1
    rw [h1'] at this
    exact (Option.some.inj this).symm

/-- Witness of C4 on `exRunning`: restarting the running monitor 1. -/
theorem C4_restart_is_pause_then_start_witness :
    checkOwner 1 1 exRunning = .ok () ∧
    restartMonitor 1 1 exRunning = pauseThenStart 1 1 exRunning ∧
    (restartMonitor 1 1 exRunning).1 = .ok () ∧
    regLookup 1 (restartMonitor 1 1 exRunning).2.monitorList = some exRunning.heap.length :=
  ⟨rfl, (C4_restart_is_pause_then_start 1 1 exRunning).1,
    ((C4_restart_is_pause_then_start 1 1 exRunning).2 rfl).1,
    ((C4_restart_is_pause_then_start 1 1 exRunning).2 rfl).2.2.1⟩

/-- C5: run with an empty `server.monitorList`, `startMonitors` registers exactly
the ids of the rows with `active = 1`; it allocates one instance per such row,
in order, and calls `start` exactly once on each of them and on nothing else;
every registered handle is the running instance of an active row with that id;
table `monitor` is not changed. -/
theorem C5_startMonitors_resumes_active (rand : Nat → Nat) (s : State)
    (hreg : s.monitorList = []) :
    (∀ id, id ∈ regKeys (startMonitors rand s).1.monitorList ↔
      ∃ r ∈ s.monitor, r.active = 1 ∧ r.id = id) ∧
    (startMonitors rand s).1.heap =
      s.heap ++ (findActive s.monitor).map (fun r => { row := r, running := true }) ∧
    startedHandles (startMonitors rand s).2 =
      List.range' s.heap.length (findActive s.monitor).length ∧
    (∀ j r, (findActive s.monitor)[j]? = some r →
      (startMonitors rand s).1.heap[s.heap.length + j]? = some { row := r, running := true } ∧
      (startedHandles (startMonitors rand s).2).count (s.heap.length + j) = 1) ∧
    (∀ h ∈ startedHandles (startMonitors rand s).2, ∃ r ∈ s.monitor, r.active = 1 ∧
      (startMonitors rand s).1.heap[h]? = some { row := r, running := true }) ∧
    (∀ k h, regLookup k (startMonitors rand s).1.monitorList = some h →
      ∃ r ∈ s.monitor, r.active = 1 ∧ r.id = k ∧
        (startMonitors rand s).1.heap[h]? = some { row := r, running := true } ∧
        (startedHandles (startMonitors rand s).2).count h = 1) ∧
    (startMonitors rand s).1.monitor = s.monitor := by
  obtain ⟨hheap, hmon, hstart, hkeys, hlook⟩ := startMonitors_spec rand s hreg
  have hcount : ∀ j r, (findActive s.monitor)[j]? = some r →
      (startMonitors rand s).1.heap[s.heap.length + j]? = some { row := r, running := true } ∧
      (startedHandles (startMonitors rand s).2).count (s.heap.length + j) = 1 := by
    intro j r hj
    refine ⟨?_, ?_⟩
    · rw [hheap]
      exact getElem?_fresh s.heap _ true j r hj
    · rw [hstart]
      apply List.count_eq_one_of_mem (List.nodup_range' _ _)
      have hlt : j < (findActive s.monitor).length := by
        rcases Nat.lt_or_ge j (findActive s.monitor).length with h | h
        · exact h
        · rw [List.getElem?_eq_none h] at hj
          cases hj
      rw [List.mem_range'_1]
      omega
  refine ⟨?_, hheap, hstart, hcount, ?_, ?_, hmon⟩
  · intro id
    rw [hkeys id]
    constructor
    · rintro ⟨r, hr, hid⟩
      exact ⟨r, ((mem_findActive _ _).1 hr).1, ((mem_findActive _ _).1 hr).2, hid⟩
    · rintro ⟨r, hr, ha, hid⟩
      exact ⟨r, (mem_findActive _ _).2 ⟨hr, ha⟩, hid⟩
  · intro h hh
    rw [hstart, List.mem_range'_1] at hh
    have hlt : h - s.heap.length < (findActive s.monitor).length := by omega
    have hj : (findActive s.monitor)[h - s.heap.length]? =
        some ((findActive s.monitor)[h - s.heap.length]) := List.getElem?_eq_getElem hlt
    have hmem := (mem_findActive _ _).1 (List.getElem?_mem hj)
    refine ⟨_, hmem.1, hmem.2, ?_⟩
    have := (hcount _ _ hj).1
    have e : s.heap.length + (h - s.heap.length) = h := by omega
    rw [e] at this
    exact this
  · intro k h hk
    obtain ⟨j, r, hj, hh, hid⟩ := hlook k h hk
    have hmem := (mem_findActive _ _).1 (List.getElem?_mem hj)
    subst hh
    exact ⟨r, hmem.1, hmem.2, hid, (hcount j r hj).1, (hcount j r hj).2⟩

/-- Witness of C5 on `exState`: only monitor 1 is active, so only id 1 is registered. -/
theorem C5_startMonitors_resumes_active_witness :
    exState.monitorList = [] ∧
    regKeys (startMonitors (fun _ => 0) exState).1.monitorList = [1] ∧
    startedHandles (startMonitors (fun _ => 0) exState).2 =
      List.range' exState.heap.length (findActive exState.monitor).length :=
  ⟨rfl, rfl, (C5_startMonitors_resumes_active (fun _ => 0) exState rfl).2.2.1⟩

/-- C6 (as stated) fails: in `exState` monitor 1 is the first (and only) active
monitor; its instance, handle 0, is started before any sleep, after a delay of 0. -/
theorem C6_first_monitor_no_delay_counterexample :
    findActive exState.monitor =
      [{ id := 1, user_id := 1, active := 1, name := "a", config := 0 }] ∧
    (startMonitors (fun _ => 5) exState).2 = [Event.start 0, Event.sleep 305] ∧
    delayBefore 0 (startMonitors (fun _ => 5) exState).2 = some 0 := by
  refine ⟨by decide, by decide, by decide⟩

/-- C6 (amended): in `startMonitors` the sleep follows each `start`; the
instance of the `i`-th active monitor (counted from 0) is started after the
sleeps of the `i` monitors before it, each a draw of `getRandomInt(300, 1000)`:
the first one after no delay, every later one after at least `300 * i`
(and at most `999 * i`) milliseconds. -/
theorem C6_start_delay_is_sum_of_earlier_jitters (rand : Nat → Nat) (s : State) (i : Nat)
    (hi : i < (findActive s.monitor).length) :
    delayBefore (s.heap.length + i) (startMonitors rand s).2 = some (jitterSum rand 0 i) ∧
    jitterSum rand 0 0 = 0 ∧
    300 * i ≤ jitterSum rand 0 i ∧ jitterSum rand 0 i ≤ 999 * i ∧
    (0 < i → 0 < jitterSum rand 0 i) := by
  have hb := jitterSum_bounds rand 0 i
  refine ⟨?_, rfl, hb.1, hb.2, fun h => by omega⟩
  rw [startMonitors_eq]
  exact delayBefore_startLoop rand _ s.heap.length 0 i _ hi

/-- Witness of the amended C6 on `exTwoActive`: the second active monitor
(monitor 3, handle 1) is started after the one sleep of 305 ms before it. -/
theorem C6_start_delay_is_sum_of_earlier_jitters_witness :
    1 < (findActive exTwoActive.monitor).length ∧
    delayBefore (exTwoActive.heap.length + 1) (startMonitors (fun _ => 5) exTwoActive).2 =
      some (jitterSum (fun _ => 5) 0 1) ∧
    jitterSum (fun _ => 5) 0 1 = 305 :=
  ⟨by decide,
    (C6_start_delay_is_sum_of_earlier_jitters (fun _ => 5) exTwoActive 1 (by decide)).1, rfl⟩

/-- C7: when the `clearHeartbeats` handler answers `ok: true`, table `heartbeat`
is the prior table without the rows of that monitor: none of its rows remains,
a row of another monitor is present exactly when it was before, the rows of
every other monitor are the same list, and nothing else of the state changed. -/
theorem C7_clearHeartbeats_removes_exactly_that_monitor
    (checkLogin : Socket → Except String Unit) (send : State → Nat → Except String Unit)
    (socket : Socket) (id : Nat) (s : State)
    (hok : (clearHeartbeats checkLogin send socket id s).1.ok = true) :
    (clearHeartbeats checkLogin send socket id s).2.heartbeat =
      s.heartbeat.filter (fun b => !decide (b.monitor_id = id)) ∧
    (∀ b ∈ (clearHeartbeats checkLogin send socket id s).2.heartbeat, b.monitor_id ≠ id) ∧
    (∀ b, b.monitor_id ≠ id →
      (b ∈ (clearHeartbeats checkLogin send socket id s).2.heartbeat ↔ b ∈ s.heartbeat)) ∧
    (∀ m, m ≠ id →
      (clearHeartbeats checkLogin send socket id s).2.heartbeat.filter
          (fun b => decide (b.monitor_id = m)) =
        s.heartbeat.filter (fun b => decide (b.monitor_id = m))) ∧
    (clearHeartbeats checkLogin send socket id s).2.monitor = s.monitor ∧
    (clearHeartbeats checkLogin send socket id s).2.heap = s.heap ∧
    (clearHeartbeats checkLogin send socket id s).2.monitorList = s.monitorList := by
  rw [clearHeartbeats_ok checkLogin send socket id s hok]
  refine ⟨rfl, ?_, ?_, ?_, rfl, rfl, rfl⟩
  · intro b hb
    have hb' : b ∈ deleteBeats id s.heartbeat := hb
    unfold deleteBeats at hb'
    simpa using (List.mem_filter.1 hb').2
  · intro b hne
    show b ∈ deleteBeats id s.heartbeat ↔ _
    unfold deleteBeats
    simp [List.mem_filter, hne]
  · intro m hm
    exact filter_deleteBeats_other id m hm s.heartbeat

/-- Witness of C7: clearing monitor 1 in `exState` leaves the one heartbeat of monitor 2. -/
theorem C7_clearHeartbeats_removes_exactly_that_monitor_witness :
    (clearHeartbeats loggedIn sendFine { userID := some 1 } 1 exState).1.ok = true ∧
    (clearHeartbeats loggedIn sendFine { userID := some 1 } 1 exState).2.heartbeat =
      exState.heartbeat.filter (fun b => !decide (b.monitor_id = 1)) ∧
    (clearHeartbeats loggedIn sendFine { userID := some 1 } 1 exState).2.heartbeat =
      [{ id := 2, monitor_id := 2, time := "2026-11-04 05:00:00", status := 0, msg := "down",
         important := 1 }] :=
  ⟨rfl,
    (C7_clearHeartbeats_removes_exactly_that_monitor loggedIn sendFine
      { userID := some 1 } 1 exState rfl).1, by decide⟩

/-- C8: when the `clearEvents` handler answers `ok: true`, table `heartbeat` has
the same rows as before (same ids, monitor ids, times and statuses, in the same
order, hence the same count per monitor), every row of that monitor has
`important = 0` (and an empty `msg`), and the rows of every other monitor and
the rest of the state are unchanged. -/
theorem C8_clearEvents_resets_important_keeps_rows
    (checkLogin : Socket → Except String Unit) (send : State → Nat → Except String Unit)
    (socket : Socket) (id : Nat) (s : State)
    (hok : (clearEvents checkLogin send socket id s).1.ok = true) :
    (clearEvents checkLogin send socket id s).2.heartbeat.map (fun b => b.id) =
      s.heartbeat.map (fun b => b.id) ∧
    (clearEvents checkLogin send socket id s).2.heartbeat.map (fun b => b.monitor_id) =
      s.heartbeat.map (fun b => b.monitor_id) ∧
    (clearEvents checkLogin send socket id s).2.heartbeat.map (fun b => (b.time, b.status)) =
      s.heartbeat.map (fun b => (b.time, b.status)) ∧
    (clearEvents checkLogin send socket id s).2.heartbeat.length = s.heartbeat.length ∧
    (∀ b ∈ (clearEvents checkLogin send socket id s).2.heartbeat, b.monitor_id = id →
      b.important = 0 ∧ b.msg = "") ∧
    (∀ m, m ≠ id →
      (clearEvents checkLogin send socket id s).2.heartbeat.filter
          (fun b => decide (b.monitor_id = m)) =
        s.heartbeat.filter (fun b => decide (b.monitor_id = m))) ∧
    (clearEvents checkLogin send socket id s).2.monitor = s.monitor ∧
    (clearEvents checkLogin send socket id s).2.heap = s.heap ∧
    (clearEvents checkLogin send socket id s).2.monitorList = s.monitorList := by
  rw [clearEvents_ok checkLogin send socket id s hok]
  refine ⟨?_, ?_, ?_, ?_, ?_, ?_, rfl, rfl, rfl⟩
  · show (resetImportant id s.heartbeat).map _ = _
    unfold resetImportant
    rw [List.map_map]
    apply List.map_congr_left
    intro b _
    exact (resetImportant_row id b).1
  · show (resetImportant id s.heartbeat).map _ = _
    unfold resetImportant
    rw [List.map_map]
    apply List.map_congr_left
    intro b _
    exact (resetImportant_row id b).2.1
  · show (resetImportant id s.heartbeat).map _ = _
    unfold resetImportant
    rw [List.map_map]
    apply List.map_congr_left
    intro b _
    show (_, _) = (_, _)
    rw [(resetImportant_row id b).2.2.1, (resetImportant_row id b).2.2.2]
  · show (resetImportant id s.heartbeat).length = _
    simp [resetImportant]
  · intro b hb hid
    have hb' : b ∈ resetImportant id s.heartbeat := hb
    unfold resetImportant at hb'
    obtain ⟨q, _, rfl⟩ := List.mem_map.1 hb'
    by_cases hq : q.monitor_id = id
    · simp [hq]
    · rw [(resetImportant_row id q).2.1] at hid
      exact absurd hid hq
  · intro m hm
    exact filter_resetImportant_other id m hm s.heartbeat

/-- Witness of C8: clearing the events of monitor 1 in `exState` keeps all four rows. -/
theorem C8_clearEvents_resets_important_keeps_rows_witness :
    (clearEvents loggedIn sendFine { userID := some 1 } 1 exState).1.ok = true ∧
    (clearEvents loggedIn sendFine { userID := some 1 } 1 exState).2.heartbeat.map
        (fun b => b.id) = [1, 2, 3, 4] ∧
    (clearEvents loggedIn sendFine { userID := some 1 } 1 exState).2.heartbeat.map
        (fun b => b.important) = [0, 1, 0, 0] :=
  ⟨rfl,
    (C8_clearEvents_resets_important_keeps_rows loggedIn sendFine
      { userID := some 1 } 1 exState rfl).1, by decide⟩

/-- C9 (as stated) fails: for the period `1000000000` the `DATETIME` call is
`NULL` and the handler answers `ok: true` with an empty list, although all
three heartbeats of monitor 1 in `exBeats` are later than ten to the ninth
hours before now; and for the period `2` the heartbeat 3, stored as
`2026-11-04 08:00:00.000`, is returned although it lies at the instant two
hours before now, not after it, because the texts are compared. -/
theorem C9_period_out_of_range_counterexample :
    exDatetime "1000000000" = none ∧
    getMonitorBeats loggedIn exDatetime { userID := some 1 } 1 (some "1000000000") exBeats =
      { ok := true, msg := none, data := [] } ∧
    (exBeats.heartbeat.filter (fun b => decide (b.monitor_id = 1))).map (fun b => b.id) =
      [1, 2, 3] ∧
    exDatetime "2" = some "2026-11-04 08:00:00" ∧
    (getMonitorBeats loggedIn exDatetime { userID := some 1 } 1 (some "2") exBeats).data.map
      (fun b => b.id) = [3, 2] := by
  refine ⟨by decide, by decide, by decide, by decide, by decide⟩

/-- C9 (amended): for a logged-in socket and a non-null period,
`getMonitorBeats` answers `ok: true` with a list sorted by the time text in
non-decreasing order; when `DATETIME('now', '-' || period || ' hours')` is
`NULL` the list is empty; otherwise it is a permutation of the heartbeats of
that monitor whose time text is greater than the value of that call (each of
them once, no other row). -/
theorem C9_getMonitorBeats_sorted_window
    (checkLogin : Socket → Except String Unit) (datetime : String → Option String)
    (socket : Socket) (id : Nat) (p : String) (s : State)
    (hlogin : checkLogin socket = .ok ()) :
    (getMonitorBeats checkLogin datetime socket id (some p) s).ok = true ∧
    List.Sorted (fun a b : HeartbeatRow => a.time.data ≤ b.time.data)
      (getMonitorBeats checkLogin datetime socket id (some p) s).data ∧
    (datetime p = none → (getMonitorBeats checkLogin datetime socket id (some p) s).data = []) ∧
    (∀ c, datetime p = some c →
      List.Perm (getMonitorBeats checkLogin datetime socket id (some p) s).data
        (s.heartbeat.filter
          (fun b => decide (b.monitor_id = id) && decide (c.data < b.time.data))) ∧
      (∀ b, b ∈ (getMonitorBeats checkLogin datetime socket id (some p) s).data ↔
        b ∈ s.heartbeat ∧ b.monitor_id = id ∧ c.data < b.time.data)) := by
  haveI : IsTotal HeartbeatRow (fun a b => a.time.data ≤ b.time.data) :=
    ⟨fun a b => le_total a.time.data b.time.data⟩
  haveI : IsTrans HeartbeatRow (fun a b => a.time.data ≤ b.time.data) :=
    ⟨fun a b c hab hbc => le_trans hab hbc⟩
  have hd : (getMonitorBeats checkLogin datetime socket id (some p) s) =
      { ok := true, msg := none, data := selectBeats (datetime p) id s.heartbeat } := by
    unfold getMonitorBeats
    simp [hlogin]
  rw [hd]
  refine ⟨rfl, ?_, ?_, ?_⟩
  · show List.Sorted _ (selectBeats (datetime p) id s.heartbeat)
    unfold selectBeats
    cases datetime p with
    | none => exact List.sorted_nil
    | some c => exact List.sorted_insertionSort _ _
  · intro hn
    show selectBeats (datetime p) id s.heartbeat = []
    rw [hn]
    rfl
  · intro c hc
    show List.Perm (selectBeats (datetime p) id s.heartbeat) _ ∧
      ∀ b, b ∈ selectBeats (datetime p) id s.heartbeat ↔ _
    rw [hc]
    unfold selectBeats
    refine ⟨List.perm_insertionSort _ _, ?_⟩
    intro b
    simp only
    rw [List.mem_insertionSort, List.mem_filter]
    simp

/-- Witness of the amended C9 on `exBeats` with the period `2`: the value of
the `DATETIME` call is `2026-11-04 08:00:00`, and the heartbeats 3 and 2 of
monitor 1 are returned, oldest first. -/
theorem C9_getMonitorBeats_sorted_window_witness :
    loggedIn { userID := some 1 } = .ok () ∧
    exDatetime "2" = some "2026-11-04 08:00:00" ∧
    ((getMonitorBeats loggedIn exDatetime { userID := some 1 } 1 (some "2") exBeats).data.map
      (fun b => b.id) = [3, 2]) ∧
    List.Sorted (fun a b : HeartbeatRow => a.time.data ≤ b.time.data)
      (getMonitorBeats loggedIn exDatetime { userID := some 1 } 1 (some "2") exBeats).data ∧
    List.Perm (getMonitorBeats loggedIn exDatetime { userID := some 1 } 1 (some "2") exBeats).data
      (exBeats.heartbeat.filter
        (fun b => decide (b.monitor_id = 1) &&
          decide ("2026-11-04 08:00:00".data < b.time.data))) :=
  ⟨rfl, by decide, by decide,
    (C9_getMonitorBeats_sorted_window loggedIn exDatetime { userID := some 1 } 1 "2" exBeats
      rfl).2.1,
    ((C9_getMonitorBeats_sorted_window loggedIn exDatetime { userID := some 1 } 1 "2" exBeats
      rfl).2.2.2 "2026-11-04 08:00:00" (by decide)).1⟩

/-! ## Notification bindings -/

/-- The table left by the loop is the table it started from followed by the rows
of a prefix of the truthy keys; when the loop returns, by the rows of all of them. -/
theorem storeBindings_spec (store : NotificationBinding → Except String Unit) (id : Nat)
    (l : List (Nat × Bool)) (base : List NotificationBinding) :
    (∃ n, (storeBindings store id l base).2 =
      base ++ ((l.filter (fun p => p.2)).take n).map
        (fun p => ({ monitor_id := id, notification_id := p.1 } : NotificationBinding))) ∧
    ((storeBindings store id l base).1 = .ok () →
      (storeBindings store id l base).2 =
        base ++ (l.filter (fun p => p.2)).map
          (fun p => ({ monitor_id := id, notification_id := p.1 } : NotificationBinding))) := by
  induction l generalizing base with
  | nil => exact ⟨⟨0, by simp [storeBindings]⟩, fun _ => by simp [storeBindings]⟩
  | cons p l ih =>
    cases hp : p.2 with
    | false =>
      have hs : storeBindings store id (p :: l) base = storeBindings store id l base := by
        simp [storeBindings, hp]
      have hf : (p :: l).filter (fun p => p.2) = l.filter (fun p => p.2) := by
        simp [List.filter_cons, hp]
      rw [hs, hf]
      exact ih base
    | true =>
      have hf : (p :: l).filter (fun p => p.2) = p :: l.filter (fun p => p.2) := by
        simp [List.filter_cons, hp]
      cases hst : store { monitor_id := id, notification_id := p.1 } with
      | error e =>
        have hs : storeBindings store id (p :: l) base = (.error e, base) := by
          simp [storeBindings, hp, hst]
        rw [hs]
        exact ⟨⟨0, by simp⟩, fun h => by cases h⟩
      | ok x =>
        have hs : storeBindings store id (p :: l) base =
            storeBindings store id l (base ++ [{ monitor_id := id, notification_id := p.1 }]) := by
          simp [storeBindings, hp, hst]
        rw [hs, hf]
        obtain ⟨⟨n, hn⟩, hall⟩ := ih (base ++ [{ monitor_id := id, notification_id := p.1 }])
        refine ⟨⟨n + 1, ?_⟩, fun h => ?_⟩
        · rw [hn]
          simp
        · rw [hall h]
          simp

/-- The table left by a call of `updateMonitorNotification` that returns. -/
theorem updateMonitorNotification_eq (store : NotificationBinding → Except String Unit)
    (id : Nat) (l : List (Nat × Bool)) (t : List NotificationBinding)
    (hret : (updateMonitorNotification store id l t).1 = .ok ()) :
    (updateMonitorNotification store id l t).2 =
      t.filter (fun b => !decide (b.monitor_id = id)) ++
        (l.filter (fun p => p.2)).map
          (fun p => ({ monitor_id := id, notification_id := p.1 } : NotificationBinding)) := by
  unfold updateMonitorNotification at hret ⊢
  exact (storeBindings_spec store id l _).2 hret

/-- The table left by any call of `updateMonitorNotification`. -/
theorem updateMonitorNotification_prefix (store : NotificationBinding → Except String Unit)
    (id : Nat) (l : List (Nat × Bool)) (t : List NotificationBinding) :
    ∃ n, (updateMonitorNotification store id l t).2 =
      t.filter (fun b => !decide (b.monitor_id = id)) ++
        ((l.filter (fun p => p.2)).take n).map
          (fun p => ({ monitor_id := id, notification_id := p.1 } : NotificationBinding)) := by
  unfold updateMonitorNotification
  exact (storeBindings_spec store id l _).1

/-! ## Maps on table `monitor` that keep the id column -/

theorem KeepsIds_store (bean : MonitorRow) :
    KeepsIds bean.id (fun r => if r.id = bean.id then bean else r) := by
  refine ⟨?_, ?_⟩
  · intro q
    by_cases h : q.id = bean.id
    · simp [h]
    · simp [h]
  · intro q h
    simp [h]

theorem KeepsIds_updateActive (a k u : Nat) :
    KeepsIds k (fun r => if r.id = k ∧ r.user_id = u then { r with active := a } else r) := by
  refine ⟨fun q => (updateActive_row_ids a k u q).1, ?_⟩
  intro q h
  simp [h]

theorem map_id_of_KeepsIds (k : Nat) (f : MonitorRow → MonitorRow) (hf : KeepsIds k f)
    (t : List MonitorRow) : (t.map f).map (fun r => r.id) = t.map (fun r => r.id) := by
  rw [List.map_map]
  apply List.map_congr_left
  intro q _
  exact hf.1 q

theorem mem_map_of_KeepsIds (k : Nat) (f : MonitorRow → MonitorRow) (hf : KeepsIds k f)
    (t : List MonitorRow) (r : MonitorRow) (hr : r.id ≠ k) : r ∈ t.map f ↔ r ∈ t := by
  constructor
  · intro h
    obtain ⟨q, hq, rfl⟩ := List.mem_map.1 h
    have hqk : q.id ≠ k := by
      rw [← hf.1 q]
      exact hr
    rw [hf.2 q hqk]
    exact hq
  · intro h
    exact List.mem_map.2 ⟨r, h, hf.2 r hr⟩

theorem findOneMonitor_map (k j : Nat) (f : MonitorRow → MonitorRow) (hf : KeepsIds j f)
    (t : List MonitorRow) :
    findOneMonitor k (t.map f) = (findOneMonitor k t).map f := by
  unfold findOneMonitor
  rw [List.find?_map]
  have : ((fun r : MonitorRow => decide (r.id = k)) ∘ f) = fun r => decide (r.id = k) := by
    funext q
    simp [hf.1 q]
  rw [this]

/-! ## The shape of a successful `editMonitor` -/

/-- What `editMonitor` has done when it answers `ok: true`. -/
theorem editMonitor_ok (checkLogin : Socket → Except String Unit)
    (store : NotificationBinding → Except String Unit)
    (send : Server → Except String Unit) (socket : Socket) (monitor : MonitorInput)
    (sv : Server) (hok : (editMonitor checkLogin store send socket monitor sv).1.ok = true) :
    ∃ bean u, findOneMonitor monitor.id sv.core.monitor = some bean ∧
      socket.userID = some u ∧ bean.user_id = u ∧
      updateMonitorNotification store bean.id monitor.notificationIDList sv.monitor_notification =
        (.ok (), (editMonitor checkLogin store send socket monitor sv).2.monitor_notification) ∧
      ((bean.active ≠ 0 ∧
          restartMonitor u bean.id
            { sv.core with monitor := storeMonitor (editedRow bean monitor) sv.core.monitor } =
            (.ok (), (editMonitor checkLogin store send socket monitor sv).2.core)) ∨
        (bean.active = 0 ∧
          (editMonitor checkLogin store send socket monitor sv).2.core =
            { sv.core with monitor := storeMonitor (editedRow bean monitor) sv.core.monitor })) := by
  unfold editMonitor at hok ⊢
  cases hc : checkLogin socket with
  | error e => simp [hc] at hok
  | ok x =>
    simp only [hc] at hok ⊢
    cases hf : findOneMonitor monitor.id sv.core.monitor with
    | none => simp [hf] at hok
    | some bean =>
      simp only [hf] at hok ⊢
      cases hu : socket.userID with
      | none => simp [hu] at hok
      | some u =>
        simp only [hu] at hok ⊢
        by_cases hne : bean.user_id ≠ u
        · simp [hne] at hok
        · have heq : bean.user_id = u := not_not.1 hne
          have hid : (editedRow bean monitor).id = bean.id := rfl
          have hact : (editedRow bean monitor).active = bean.active := rfl
          simp only [hne, if_false, hid, hact] at hok ⊢
          refine ⟨bean, u, rfl, rfl, heq, ?_⟩
          cases hb : updateMonitorNotification store bean.id monitor.notificationIDList
              sv.monitor_notification with
          | mk rb bindings =>
            simp only [hb] at hok ⊢
            cases rb with
            | error e => simp at hok
            | ok w =>
              simp only at hok ⊢
              by_cases ha0 : bean.active = 0
              · simp only [ha0, ne_eq, not_true_eq_false, if_false, if_true] at hok ⊢
                cases hs : send (Server.mk
                    { sv.core with
                      monitor := storeMonitor (editedRow bean monitor) sv.core.monitor }
                    bindings) with
                | error e => simp [hs] at hok
                | ok z => exact ⟨rfl, Or.inr ⟨trivial, rfl⟩⟩
              · have ha : bean.active ≠ 0 := ha0
                simp only [ha0, ne_eq, not_false_eq_true, if_false, if_true] at hok ⊢
                cases hr : restartMonitor u bean.id
                    { sv.core with
                      monitor := storeMonitor (editedRow bean monitor) sv.core.monitor } with
                | mk r c =>
                  simp only [hr] at hok ⊢
                  cases r with
                  | error e => simp at hok
                  | ok y =>
                    simp only at hok ⊢
                    cases hs : send (Server.mk c bindings) with
                    | error e => simp [hs] at hok
                    | ok z => exact ⟨rfl, Or.inl ⟨trivial, rfl⟩⟩

theorem updateActive_row_conf (a id u : Nat) (q : MonitorRow) :
    (if q.id = id ∧ q.user_id = u then { q with active := a } else q).name = q.name ∧
      (if q.id = id ∧ q.user_id = u then { q with active := a } else q).config = q.config := by
  split <;> exact ⟨rfl, rfl⟩

theorem findOneMonitor_store (k : Nat) (t : List MonitorRow) (bean : MonitorRow)
    (monitor : MonitorInput) (hf : findOneMonitor k t = some bean) :
    findOneMonitor k (storeMonitor (editedRow bean monitor) t) =
      some (editedRow bean monitor) := by
  unfold storeMonitor
  rw [findOneMonitor_map k (editedRow bean monitor).id _ (KeepsIds_store _), hf]
  have : (editedRow bean monitor).id = bean.id := rfl
  simp [this]

theorem findOneMonitor_store_update (a k u : Nat) (t : List MonitorRow) (bean : MonitorRow)
    (monitor : MonitorInput) (hf : findOneMonitor k t = some bean) :
    ∃ row, findOneMonitor k (updateActive a k u (storeMonitor (editedRow bean monitor) t)) =
        some row ∧
      row.id = bean.id ∧ row.user_id = bean.user_id ∧ row.name = monitor.name ∧
      row.config = monitor.config := by
  unfold updateActive
  rw [findOneMonitor_map k k _ (KeepsIds_updateActive a k u), findOneMonitor_store k t bean monitor hf]
  refine ⟨_, rfl, ?_, ?_, ?_, ?_⟩
  · exact (updateActive_row_ids a k u _).1
  · exact (updateActive_row_ids a k u _).2
  · exact (updateActive_row_conf a k u _).1
  · exact (updateActive_row_conf a k u _).2

theorem storeMonitor_user_id (t : List MonitorRow) (bean bean1 : MonitorRow) (hb : bean ∈ t)
    (hid : bean1.id = bean.id) (hu : bean1.user_id = bean.user_id)
    (hn : (t.map (fun r => r.id)).Nodup) :
    (storeMonitor bean1 t).map (fun r => r.user_id) = t.map (fun r => r.user_id) := by
  unfold storeMonitor
  rw [List.map_map]
  apply List.map_congr_left
  intro r hr
  by_cases h : r.id = bean1.id
  · have hrb : r = bean := List.inj_on_of_nodup_map hn hr hb (h.trans hid)
    simp [hrb, hid, hu]
  · simp [h]

theorem updateActive_user_id (a k u : Nat) (t : List MonitorRow) :
    (updateActive a k u t).map (fun r => r.user_id) = t.map (fun r => r.user_id) := by
  unfold updateActive
  rw [List.map_map]
  apply List.map_congr_left
  intro r _
  exact (updateActive_row_ids a k u r).2

/-- Table `monitor` after a successful `editMonitor`. -/
theorem editMonitor_ok_table (checkLogin : Socket → Except String Unit)
    (store : NotificationBinding → Except String Unit)
    (send : Server → Except String Unit) (socket : Socket) (monitor : MonitorInput)
    (sv : Server) (hok : (editMonitor checkLogin store send socket monitor sv).1.ok = true) :
    ∃ bean u, findOneMonitor monitor.id sv.core.monitor = some bean ∧
      socket.userID = some u ∧ bean.user_id = u ∧
      ((bean.active ≠ 0 ∧ (editMonitor checkLogin store send socket monitor sv).2.core.monitor =
          updateActive 1 bean.id u (storeMonitor (editedRow bean monitor) sv.core.monitor)) ∨
        (bean.active = 0 ∧ (editMonitor checkLogin store send socket monitor sv).2.core.monitor =
          storeMonitor (editedRow bean monitor) sv.core.monitor)) := by
  obtain ⟨bean, u, hf, hu, hbu, _, h⟩ := editMonitor_ok checkLogin store send socket monitor sv hok
  refine ⟨bean, u, hf, hu, hbu, ?_⟩
  rcases h with ⟨ha, hr⟩ | ⟨ha, hr⟩
  · left
    refine ⟨ha, ?_⟩
    obtain ⟨_, _, _, hm, _⟩ := startMonitor_ok u bean.id _ _ hr
    exact hm
  · right
    exact ⟨ha, by rw [hr]⟩

/-- C11: for a logged-in socket and a stored monitor whose `user_id` is not
`socket.userID`, `editMonitor` answers `ok: false` with "Permission denied."
and leaves the whole server state (monitor rows, notification bindings,
`server.monitorList`, instances) as it was. -/
theorem C11_editMonitor_rejects_non_owner (checkLogin : Socket → Except String Unit)
    (store : NotificationBinding → Except String Unit)
    (send : Server → Except String Unit) (socket : Socket) (monitor : MonitorInput)
    (sv : Server) (bean : MonitorRow)
    (hlogin : checkLogin socket = .ok ())
    (hbean : findOneMonitor monitor.id sv.core.monitor = some bean)
    (hne : some bean.user_id ≠ socket.userID) :
    editMonitor checkLogin store send socket monitor sv =
      ({ ok := false, msg := some "Permission denied." }, sv) := by
  unfold editMonitor
  simp only [hlogin, hbean]
  cases hu : socket.userID with
  | none => rfl
  | some u =>
    have : bean.user_id ≠ u := by
      intro h
      apply hne
      rw [hu, h]
    simp [this, permissionDeniedMsg]

/-- Witness of C11: user 2 edits monitor 1 of user 1 in `exServer`. -/
theorem C11_editMonitor_rejects_non_owner_witness :
    loggedIn { userID := some 2 } = .ok () ∧
    findOneMonitor exInput.id exServer.core.monitor =
      some { id := 1, user_id := 1, active := 1, name := "a", config := 0 } ∧
    some 1 ≠ (some 2 : Option Nat) ∧
    editMonitor loggedIn storeFine sendListFine { userID := some 2 } exInput exServer =
      ({ ok := false, msg := some "Permission denied." }, exServer) :=
  ⟨rfl, by decide, by decide,
    C11_editMonitor_rejects_non_owner loggedIn storeFine sendListFine { userID := some 2 } exInput exServer
      { id := 1, user_id := 1, active := 1, name := "a", config := 0 } rfl (by decide)
      (by decide)⟩

/-- C12: after a successful `editMonitor`, whatever `id`, `user_id` or `active`
the submitted object carries, the stored row of the monitor has the id and the
`user_id` it had before and the submitted name and configuration; the id column
of the table is unchanged, rows with another id are untouched, and with unique
ids the `user_id` column is unchanged as well. -/
theorem C12_editMonitor_keeps_identity (checkLogin : Socket → Except String Unit)
    (store : NotificationBinding → Except String Unit)
    (send : Server → Except String Unit) (socket : Socket) (monitor : MonitorInput)
    (sv : Server) (hok : (editMonitor checkLogin store send socket monitor sv).1.ok = true) :
    (∃ bean row, findOneMonitor monitor.id sv.core.monitor = some bean ∧
      findOneMonitor monitor.id (editMonitor checkLogin store send socket monitor sv).2.core.monitor =
        some row ∧
      row.id = bean.id ∧ row.user_id = bean.user_id ∧
      row.name = monitor.name ∧ row.config = monitor.config) ∧
    (editMonitor checkLogin store send socket monitor sv).2.core.monitor.map (fun r => r.id) =
      sv.core.monitor.map (fun r => r.id) ∧
    (∀ r, r.id ≠ monitor.id →
      (r ∈ (editMonitor checkLogin store send socket monitor sv).2.core.monitor ↔
        r ∈ sv.core.monitor)) ∧
    ((sv.core.monitor.map (fun r => r.id)).Nodup →
      (editMonitor checkLogin store send socket monitor sv).2.core.monitor.map (fun r => r.user_id) =
        sv.core.monitor.map (fun r => r.user_id)) := by
  obtain ⟨bean, u, hf, _, _, h⟩ := editMonitor_ok_table checkLogin store send socket monitor sv hok
  have hbid : bean.id = monitor.id := findOneMonitor_id _ _ _ hf
  have hmem : bean ∈ sv.core.monitor := List.mem_of_find?_eq_some hf
  have hkeep : KeepsIds monitor.id
      (fun r => if r.id = (editedRow bean monitor).id then editedRow bean monitor else r) := by
    have := KeepsIds_store (editedRow bean monitor)
    have e : (editedRow bean monitor).id = monitor.id := hbid
    rw [e] at this
    simpa [e] using this
  rcases h with ⟨_, ht⟩ | ⟨_, ht⟩
  · rw [ht, hbid]
    refine ⟨?_, ?_, ?_, ?_⟩
    · obtain ⟨row, h1, h2, h3, h4, h5⟩ :=
        findOneMonitor_store_update 1 monitor.id u sv.core.monitor bean monitor hf
      exact ⟨bean, row, hf, h1, h2, h3, h4, h5⟩
    · unfold updateActive storeMonitor
      rw [map_id_of_KeepsIds monitor.id _ (KeepsIds_updateActive 1 monitor.id u),
        map_id_of_KeepsIds monitor.id _ hkeep]
    · intro r hr
      unfold updateActive storeMonitor
      rw [mem_map_of_KeepsIds monitor.id _ (KeepsIds_updateActive 1 monitor.id u) _ r hr,
        mem_map_of_KeepsIds monitor.id _ hkeep _ r hr]
    · intro hn
      rw [updateActive_user_id, storeMonitor_user_id _ bean (editedRow bean monitor) hmem rfl rfl hn]
  · rw [ht]
    refine ⟨?_, ?_, ?_, ?_⟩
    · exact ⟨bean, editedRow bean monitor, hf,
        findOneMonitor_store monitor.id sv.core.monitor bean monitor hf, rfl, rfl, rfl, rfl⟩
    · unfold storeMonitor
      rw [map_id_of_KeepsIds monitor.id _ hkeep]
    · intro r hr
      unfold storeMonitor
      rw [mem_map_of_KeepsIds monitor.id _ hkeep _ r hr]
    · intro hn
      rw [storeMonitor_user_id _ bean (editedRow bean monitor) hmem rfl rfl hn]

/-- Witness of C12: user 1 edits monitor 1 in `exServer` with `user_id: 99` in
the submitted object; the stored row keeps id 1 and user 1. -/
theorem C12_editMonitor_keeps_identity_witness :
    (editMonitor loggedIn storeFine sendListFine { userID := some 1 } exInput exServer).1.ok = true ∧
    (editMonitor loggedIn storeFine sendListFine { userID := some 1 } exInput exServer).2.core.monitor.map
        (fun r => r.id) = exServer.core.monitor.map (fun r => r.id) ∧
    findOneMonitor 1
        (editMonitor loggedIn storeFine sendListFine { userID := some 1 } exInput exServer).2.core.monitor =
      some { id := 1, user_id := 1, active := 1, name := "renamed", config := 5 } :=
  ⟨rfl,
    (C12_editMonitor_keeps_identity loggedIn storeFine sendListFine { userID := some 1 } exInput exServer
      rfl).2.1, by decide⟩

/-- C13: after a successful `editMonitor`, if the stored row is active, the
instance registered under the id before is stopped and a fresh instance is
registered under the id and running, loaded with the submitted name and
configuration (the row now stored); if the row is not active, no instance is
created or started and `server.monitorList` is unchanged. -/
theorem C13_editMonitor_restarts_iff_active (checkLogin : Socket → Except String Unit)
    (store : NotificationBinding → Except String Unit)
    (send : Server → Except String Unit) (socket : Socket) (monitor : MonitorInput)
    (sv : Server) (hok : (editMonitor checkLogin store send socket monitor sv).1.ok = true) :
    ∃ bean, findOneMonitor monitor.id sv.core.monitor = some bean ∧
      (bean.active ≠ 0 →
        regLookup monitor.id (editMonitor checkLogin store send socket monitor sv).2.core.monitorList =
          some sv.core.heap.length ∧
        (∃ row, (editMonitor checkLogin store send socket monitor sv).2.core.heap[sv.core.heap.length]? =
            some { row := row, running := true } ∧
          findOneMonitor monitor.id
            (editMonitor checkLogin store send socket monitor sv).2.core.monitor = some row ∧
          row.id = monitor.id ∧ row.name = monitor.name ∧ row.config = monitor.config) ∧
        (∀ old, regLookup monitor.id sv.core.monitorList = some old →
          old < sv.core.heap.length →
          isRunning old (editMonitor checkLogin store send socket monitor sv).2.core = false)) ∧
      (bean.active = 0 →
        (editMonitor checkLogin store send socket monitor sv).2.core.heap = sv.core.heap ∧
        (editMonitor checkLogin store send socket monitor sv).2.core.monitorList =
          sv.core.monitorList) := by
  obtain ⟨bean, u, hf, _, _, _, h⟩ := editMonitor_ok checkLogin store send socket monitor sv hok
  have hbid : bean.id = monitor.id := findOneMonitor_id _ _ _ hf
  refine ⟨bean, hf, ?_, ?_⟩
  · intro ha
    rcases h with ⟨_, hr⟩ | ⟨ha0, _⟩
    · rw [hbid] at hr
      obtain ⟨row, _, hfr, hm, _, _, _, hget⟩ := startMonitor_ok u monitor.id _ _ hr
      obtain ⟨h1, _, h3⟩ := startMonitor_ok_running u monitor.id _ _ hr
      obtain ⟨row', hfr', e1, _, e3, e4⟩ :=
        findOneMonitor_store_update 1 monitor.id u sv.core.monitor bean monitor hf
      have hrow : row = row' := by
        have hfr2 : findOneMonitor monitor.id
            (updateActive 1 monitor.id u
              (storeMonitor (editedRow bean monitor) sv.core.monitor)) = some row := hfr
        rw [hfr'] at hfr2
        exact (Option.some.inj hfr2).symm
      refine ⟨h1, ⟨row, ?_, ?_, ?_, ?_, ?_⟩, h3⟩
      · have := hget sv.core.heap.length
        simpa using this
      · rw [hm]
        exact hfr
      · rw [hrow, e1, hbid]
      · rw [hrow, e3]
      · rw [hrow, e4]
    · exact absurd ha0 ha
  · intro ha0
    rcases h with ⟨ha, _⟩ | ⟨_, hr⟩
    · exact absurd ha0 ha
    · rw [hr]
      exact ⟨rfl, rfl⟩

/-- Witness of C13: editing the active monitor 1 of `exServer` stops handle 0
and registers the running handle 1 with the new configuration. -/
theorem C13_editMonitor_restarts_iff_active_witness :
    (editMonitor loggedIn storeFine sendListFine { userID := some 1 } exInput exServer).1.ok = true ∧
    (∃ bean, findOneMonitor exInput.id exServer.core.monitor = some bean ∧
      (bean.active ≠ 0 →
        regLookup exInput.id
            (editMonitor loggedIn storeFine sendListFine { userID := some 1 } exInput
              exServer).2.core.monitorList = some exServer.core.heap.length ∧
        (∃ row, (editMonitor loggedIn storeFine sendListFine { userID := some 1 } exInput
              exServer).2.core.heap[exServer.core.heap.length]? =
            some { row := row, running := true } ∧
          findOneMonitor exInput.id
            (editMonitor loggedIn storeFine sendListFine { userID := some 1 } exInput
              exServer).2.core.monitor = some row ∧
          row.id = exInput.id ∧ row.name = exInput.name ∧ row.config = exInput.config) ∧
        (∀ old, regLookup exInput.id exServer.core.monitorList = some old →
          old < exServer.core.heap.length →
          isRunning old (editMonitor loggedIn storeFine sendListFine { userID := some 1 } exInput
            exServer).2.core = false)) ∧
      (bean.active = 0 →
        (editMonitor loggedIn storeFine sendListFine { userID := some 1 } exInput exServer).2.core.heap =
          exServer.core.heap ∧
        (editMonitor loggedIn storeFine sendListFine { userID := some 1 } exInput
          exServer).2.core.monitorList = exServer.core.monitorList)) :=
  ⟨rfl,
    C13_editMonitor_restarts_iff_active loggedIn storeFine sendListFine { userID := some 1 } exInput
      exServer rfl⟩

/-! ## The rows written and the rows deleted by `updateMonitorNotification` -/

theorem filter_written_self (id : Nat) (ps : List (Nat × Bool)) :
    (ps.map (fun p => ({ monitor_id := id, notification_id := p.1 } : NotificationBinding))).filter
        (fun b => decide (b.monitor_id = id)) =
      ps.map (fun p => ({ monitor_id := id, notification_id := p.1 } : NotificationBinding)) := by
  rw [List.filter_eq_self]
  intro b hb
  obtain ⟨p, _, rfl⟩ := List.mem_map.1 hb
  simp

theorem filter_written_other (id m : Nat) (hm : m ≠ id) (ps : List (Nat × Bool)) :
    (ps.map (fun p => ({ monitor_id := id, notification_id := p.1 } : NotificationBinding))).filter
        (fun b => decide (b.monitor_id = m)) = [] := by
  rw [List.filter_eq_nil_iff]
  intro b hb
  obtain ⟨p, _, rfl⟩ := List.mem_map.1 hb
  simp [hm.symm]

theorem filter_deleted_self (id : Nat) (t : List NotificationBinding) :
    (t.filter (fun b => !decide (b.monitor_id = id))).filter
        (fun b => decide (b.monitor_id = id)) = [] := by
  rw [List.filter_filter, List.filter_eq_nil_iff]
  intro b _
  simp

theorem filter_deleted_other (id m : Nat) (hm : m ≠ id) (t : List NotificationBinding) :
    (t.filter (fun b => !decide (b.monitor_id = id))).filter
        (fun b => decide (b.monitor_id = m)) =
      t.filter (fun b => decide (b.monitor_id = m)) := by
  rw [List.filter_filter]
  apply List.filter_congr
  intro b _
  by_cases hb : b.monitor_id = m
  · have : ¬ b.monitor_id = id := fun e => hm (hb.symm.trans e)
    simp [hb, this, hm]
  · simp [hb]

theorem mem_written (id k : Nat) (l : List (Nat × Bool)) :
    ({ monitor_id := id, notification_id := k } : NotificationBinding) ∈
      (l.filter (fun p => p.2)).map
        (fun p => ({ monitor_id := id, notification_id := p.1 } : NotificationBinding)) ↔
      (k, true) ∈ l := by
  constructor
  · intro h
    obtain ⟨p, hp, he⟩ := List.mem_map.1 h
    have hp' := List.mem_filter.1 hp
    have hk : p.1 = k := by
      have := congrArg NotificationBinding.notification_id he
      exact this
    have hp2 : p.2 = true := hp'.2
    have : p = (k, true) := Prod.ext hk hp2
    rw [← this]
    exact hp'.1
  · intro h
    exact List.mem_map.2 ⟨(k, true), List.mem_filter.2 ⟨h, rfl⟩, rfl⟩

/-- C18 (as stated) fails when an `R.store` of the loop throws:
with a table that refuses a binding to notification 5, the call
`updateMonitorNotification(1, {5: true})` throws after its `DELETE` has
run, so monitor 1, bound to 7 and 8 before, is left with no row at all instead
of the one row (1, 5); with the keys 9 and 5 it is left with (1, 9) only; and
`editMonitor` with that list answers `ok: false` having stored the renamed
monitor and removed its bindings. -/
theorem C18_store_throws_counterexample :
    exServer.monitor_notification.filter (fun b => decide (b.monitor_id = 1)) =
      [{ monitor_id := 1, notification_id := 7 }, { monitor_id := 1, notification_id := 8 }] ∧
    (updateMonitorNotification exStoreNo5 1 [(5, true)] exServer.monitor_notification).1 =
      .error "SQLITE_CONSTRAINT: FOREIGN KEY constraint failed" ∧
    (updateMonitorNotification exStoreNo5 1 [(5, true)] exServer.monitor_notification).2 =
      [{ monitor_id := 2, notification_id := 7 }] ∧
    ([((5 : Nat), true)].filter (fun p => p.2)).map
        (fun p => ({ monitor_id := 1, notification_id := p.1 } : NotificationBinding)) =
      [{ monitor_id := 1, notification_id := 5 }] ∧
    (updateMonitorNotification exStoreNo5 1 [(9, true), (5, true)]
        exServer.monitor_notification).2 =
      [{ monitor_id := 2, notification_id := 7 }, { monitor_id := 1, notification_id := 9 }] ∧
    (editMonitor loggedIn exStoreNo5 sendListFine { userID := some 1 } exInputNo5 exServer).1 =
      { ok := false, msg := some "SQLITE_CONSTRAINT: FOREIGN KEY constraint failed" } ∧
    (editMonitor loggedIn exStoreNo5 sendListFine { userID := some 1 } exInputNo5
        exServer).2.monitor_notification = [{ monitor_id := 2, notification_id := 7 }] ∧
    (findOneMonitor 1 (editMonitor loggedIn exStoreNo5 sendListFine { userID := some 1 }
        exInputNo5 exServer).2.core.monitor).map (fun r => r.name) = some "renamed" := by
  refine ⟨by decide, rfl, by decide, by decide, by decide, by decide, by decide, by decide⟩

/-- C18 (amended): rows of other monitors are never touched by
`updateMonitorNotification(monitorID, notificationIDList)`, and the rows it
leaves for the monitor are those of the first keys with a truthy value, in list
order, none left from before. When the call returns (no `R.store` threw) they
are the rows of all such keys: exactly one row per entry of the list with a
truthy value, in list order; a row of that monitor is present exactly when its
notification id is a key with a truthy value; and with distinct keys each such
row occurs once. -/
theorem C18_updateMonitorNotification_replaces_bindings
    (store : NotificationBinding → Except String Unit) (id : Nat) (l : List (Nat × Bool))
    (t : List NotificationBinding) :
    (∀ m, m ≠ id →
      (updateMonitorNotification store id l t).2.filter (fun b => decide (b.monitor_id = m)) =
        t.filter (fun b => decide (b.monitor_id = m))) ∧
    (∃ n, (updateMonitorNotification store id l t).2.filter
        (fun b => decide (b.monitor_id = id)) =
      ((l.filter (fun p => p.2)).take n).map
        (fun p => ({ monitor_id := id, notification_id := p.1 } : NotificationBinding))) ∧
    ((updateMonitorNotification store id l t).1 = .ok () →
      (updateMonitorNotification store id l t).2.filter (fun b => decide (b.monitor_id = id)) =
        (l.filter (fun p => p.2)).map
          (fun p => ({ monitor_id := id, notification_id := p.1 } : NotificationBinding)) ∧
      (∀ b, b.monitor_id = id →
        (b ∈ (updateMonitorNotification store id l t).2 ↔ (b.notification_id, true) ∈ l)) ∧
      ((l.map (fun p => p.1)).Nodup → ∀ k, (k, true) ∈ l →
        (updateMonitorNotification store id l t).2.count
          { monitor_id := id, notification_id := k } = 1)) := by
  obtain ⟨n, hn⟩ := updateMonitorNotification_prefix store id l t
  refine ⟨?_, ⟨n, ?_⟩, ?_⟩
  · intro m hm
    rw [hn, List.filter_append, filter_deleted_other id m hm, filter_written_other id m hm,
      List.append_nil]
  · rw [hn, List.filter_append, filter_deleted_self, filter_written_self, List.nil_append]
  · intro hret
    rw [updateMonitorNotification_eq store id l t hret]
    refine ⟨?_, ?_, ?_⟩
    · rw [List.filter_append, filter_deleted_self, filter_written_self, List.nil_append]
    · intro b hb
      rw [List.mem_append, ← mem_written id b.notification_id l]
      have hb' : b = { monitor_id := id, notification_id := b.notification_id } := by
        cases b
        simp_all
      constructor
      · rintro (h | h)
        · have := (List.mem_filter.1 h).2
          simp [hb] at this
        · rw [hb'] at h
          exact h
      · intro h
        right
        rw [hb']
        exact h
    · intro hnd k hk
      rw [List.count_append]
      have h0 : List.count ({ monitor_id := id, notification_id := k } : NotificationBinding)
          (t.filter (fun b => !decide (b.monitor_id = id))) = 0 := by
        rw [List.count_eq_zero]
        intro h
        have := (List.mem_filter.1 h).2
        simp at this
      have hnodup : ((l.filter (fun p => p.2)).map
          (fun p => ({ monitor_id := id, notification_id := p.1 } : NotificationBinding))).Nodup := by
        have hsub : ((l.filter (fun p => p.2)).map (fun p => p.1)).Nodup :=
          List.Nodup.sublist (List.Sublist.map _ (List.filter_sublist l)) hnd
        have hinj : Function.Injective
            (fun k : Nat => ({ monitor_id := id, notification_id := k } : NotificationBinding)) := by
          intro a b hab
          exact congrArg NotificationBinding.notification_id hab
        have := List.Nodup.map hinj hsub
        rw [List.map_map] at this
        exact this
      rw [h0, List.count_eq_one_of_mem hnodup ((mem_written id k l).2 hk)]

/-- Witness of C18 on the bindings of `exServer` with a table that takes every
row: the call returns and monitor 1 is rebound to 9 only. -/
theorem C18_updateMonitorNotification_replaces_bindings_witness :
    (updateMonitorNotification storeFine 1 [(7, false), (9, true)]
      exServer.monitor_notification).1 = .ok () ∧
    ([(7, false), (9, true)].map (fun p : Nat × Bool => p.1)).Nodup ∧
    ((9, true) ∈ [((7 : Nat), false), (9, true)]) ∧
    (updateMonitorNotification storeFine 1 [(7, false), (9, true)]
      exServer.monitor_notification).2.count { monitor_id := 1, notification_id := 9 } = 1 ∧
    (updateMonitorNotification storeFine 1 [(7, false), (9, true)]
      exServer.monitor_notification).2 =
      [{ monitor_id := 2, notification_id := 7 }, { monitor_id := 1, notification_id := 9 }] :=
  ⟨rfl, by decide, by decide,
    ((C18_updateMonitorNotification_replaces_bindings storeFine 1 [(7, false), (9, true)]
      exServer.monitor_notification).2.2 rfl).2.2 (by decide) 9 (by decide), by decide⟩

/-! ## Login -/

theorem truthyToken_some (tok : Option String) (t : String) (h : truthyToken tok = some t) :
    tok = some t ∧ t ≠ "" := by
  unfold truthyToken at h
  cases tok with
  | none => cases h
  | some x =>
    by_cases hx : x = ""
    · simp [hx] at h
    · simp only [hx, if_false, Option.some.injEq] at h
      subst h
      exact ⟨rfl, hx⟩

/-- The `login` handler for a user with `twofa_status = 1`, in closed form. -/
theorem loginHandler_twofa (login : List UserRow → String → String → Option UserRow)
    (verify : String → Option String → Bool) (jwtSign : String → String)
    (socket : Socket) (d : LoginData) (users : List UserRow) (u : UserRow)
    (hu : login users d.username d.password = some u) (hs : u.twofa_status = 1) :
    loginHandler none login verify jwtSign socket (some d) users =
      match truthyToken d.token with
      | none => { answers := [LoginAnswer.tokenRequired], socket := socket, user := users,
                  afterLogin := [] }
      | some t =>
        if u.twofa_last_token ≠ some t ∧ verify t u.twofa_secret = true then
          { answers := [LoginAnswer.ok (jwtSign d.username)],
            socket := afterLogin socket u,
            user := updateLastToken t (some u.id) users,
            afterLogin := [u.id] }
        else
          { answers := [LoginAnswer.fail "Invalid Token!"], socket := socket, user := users,
            afterLogin := [] } := by
  unfold loginHandler
  simp only [hu]
  unfold loginWithToken loginTokenRequired loginNoTwoFA
  cases ht : truthyToken d.token with
  | none => simp [hs, ht]
  | some t =>
    by_cases hc : u.twofa_last_token ≠ some t ∧ verify t u.twofa_secret = true
    · simp [hs, ht, hc, afterLogin]
    · simp [hs, ht, hc]

/-- C14: when `login` returns a user with `twofa_status = 1`, the handler calls
`afterLogin` or answers `ok: true` only if a token is supplied, `verify` accepts
it against the secret of the user and it differs from `twofa_last_token`;
without a token the only answer is `tokenRequired` and socket and table are as
before; and when `login` returns no user the only answer is "Incorrect username
or password." with socket and table as before. -/
theorem C14_login_requires_valid_fresh_token
    (login : List UserRow → String → String → Option UserRow)
    (verify : String → Option String → Bool) (jwtSign : String → String)
    (socket : Socket) (d : LoginData) (users : List UserRow) :
    (∀ u, login users d.username d.password = some u → u.twofa_status = 1 →
      (((loginHandler none login verify jwtSign socket (some d) users).afterLogin ≠ [] ∨
          ∃ tok, LoginAnswer.ok tok ∈
            (loginHandler none login verify jwtSign socket (some d) users).answers) →
        ∃ t, d.token = some t ∧ t ≠ "" ∧ verify t u.twofa_secret = true ∧
          u.twofa_last_token ≠ some t ∧
          (loginHandler none login verify jwtSign socket (some d) users).answers =
            [LoginAnswer.ok (jwtSign d.username)] ∧
          (loginHandler none login verify jwtSign socket (some d) users).socket.userID =
            some u.id) ∧
      (truthyToken d.token = none →
        loginHandler none login verify jwtSign socket (some d) users =
          { answers := [LoginAnswer.tokenRequired], socket := socket, user := users,
            afterLogin := [] })) ∧
    (login users d.username d.password = none →
      loginHandler none login verify jwtSign socket (some d) users =
        { answers := [LoginAnswer.fail "Incorrect username or password."], socket := socket,
          user := users, afterLogin := [] }) := by
  refine ⟨?_, ?_⟩
  · intro u hu hs
    have hform := loginHandler_twofa login verify jwtSign socket d users u hu hs
    refine ⟨?_, ?_⟩
    · intro hsess
      cases ht : truthyToken d.token with
      | none =>
        rw [ht] at hform
        rw [hform] at hsess
        simp at hsess
      | some t =>
        rw [ht] at hform
        obtain ⟨h1, h2⟩ := truthyToken_some d.token t ht
        by_cases hc : u.twofa_last_token ≠ some t ∧ verify t u.twofa_secret = true
        · simp only [] at hform
          rw [if_pos hc] at hform
          rw [hform]
          exact ⟨t, h1, h2, hc.2, hc.1, rfl, rfl⟩
        · simp only [] at hform
          rw [if_neg hc] at hform
          rw [hform] at hsess
          simp at hsess
    · intro ht
      rw [ht] at hform
      exact hform
  · intro hn
    unfold loginHandler
    simp only [hn]

/-- Witness of C14: `admin` (2FA enabled) logs in without a token. -/
theorem C14_login_requires_valid_fresh_token_witness :
    exLogin exUsers exLoginNoToken.username exLoginNoToken.password =
      some { id := 1, username := "admin", password := "pw", active := 1,
             twofa_secret := some "S", twofa_status := 1, twofa_last_token := none } ∧
    truthyToken exLoginNoToken.token = none ∧
    loginHandler none exLogin exVerify exSign { userID := none } (some exLoginNoToken) exUsers =
      { answers := [LoginAnswer.tokenRequired], socket := { userID := none }, user := exUsers,
        afterLogin := [] } :=
  ⟨by decide, rfl,
    ((C14_login_requires_valid_fresh_token exLogin exVerify exSign { userID := none }
      exLoginNoToken exUsers).1
      { id := 1, username := "admin", password := "pw", active := 1,
        twofa_secret := some "S", twofa_status := 1, twofa_last_token := none }
      (by decide) rfl).2 rfl⟩

/-- C15: after a login of a user with `twofa_status = 1` that succeeded with
token `t`, every row of that user has `twofa_last_token = t` (the `UPDATE`
targets `socket.userID`, which `afterLogin` set to the id of that user), and a
following login with the same data that `login` resolves to that user is
answered "Invalid Token!" only, without a session, whatever `verify` says. -/
theorem C15_twofa_token_not_replayable
    (login : List UserRow → String → String → Option UserRow)
    (verify : String → Option String → Bool) (jwtSign : String → String)
    (socket : Socket) (d : LoginData) (users : List UserRow) (u : UserRow) (t : String)
    (hu : login users d.username d.password = some u) (hs : u.twofa_status = 1)
    (htok : truthyToken d.token = some t)
    (hsucc : (loginHandler none login verify jwtSign socket (some d) users).afterLogin ≠ []) :
    (loginHandler none login verify jwtSign socket (some d) users).socket.userID = some u.id ∧
    (loginHandler none login verify jwtSign socket (some d) users).user =
      updateLastToken t (some u.id) users ∧
    (∀ r ∈ (loginHandler none login verify jwtSign socket (some d) users).user,
      r.id = u.id → r.twofa_last_token = some t) ∧
    (∀ socket2 u2,
      login (loginHandler none login verify jwtSign socket (some d) users).user
        d.username d.password = some u2 →
      u2 ∈ (loginHandler none login verify jwtSign socket (some d) users).user →
      u2.id = u.id → u2.twofa_status = 1 →
      loginHandler none login verify jwtSign socket2 (some d)
          (loginHandler none login verify jwtSign socket (some d) users).user =
        { answers := [LoginAnswer.fail "Invalid Token!"], socket := socket2,
          user := (loginHandler none login verify jwtSign socket (some d) users).user,
          afterLogin := [] }) := by
  have hform := loginHandler_twofa login verify jwtSign socket d users u hu hs
  rw [htok] at hform
  by_cases hc : u.twofa_last_token ≠ some t ∧ verify t u.twofa_secret = true
  · simp only [] at hform
    rw [if_pos hc] at hform
    rw [hform]
    have hrows : ∀ r ∈ updateLastToken t (some u.id) users, r.id = u.id →
        r.twofa_last_token = some t := by
      intro r hr hid
      unfold updateLastToken at hr
      obtain ⟨q, _, rfl⟩ := List.mem_map.1 hr
      by_cases hq : some q.id = some u.id
      · simp [hq]
      · simp only [hq, if_false] at hid ⊢
        exact absurd (congrArg some hid) hq
    refine ⟨rfl, rfl, hrows, ?_⟩
    intro socket2 u2 hu2 hmem hid hs2
    have hform2 := loginHandler_twofa login verify jwtSign socket2 d _ u2 hu2 hs2
    rw [htok] at hform2
    have hlast : u2.twofa_last_token = some t := hrows u2 hmem hid
    have hc2 : ¬ (u2.twofa_last_token ≠ some t ∧ verify t u2.twofa_secret = true) := by
      intro h
      exact h.1 hlast
    simp only [] at hform2
    rw [if_neg hc2] at hform2
    exact hform2
  · simp only [] at hform
    rw [if_neg hc] at hform
    rw [hform] at hsucc
    simp at hsucc

/-- Witness of C15: `admin` logs in with token `123456`, then sends the same
login again; `exVerify` still accepts the token. -/
theorem C15_twofa_token_not_replayable_witness :
    exLogin exUsers exLoginData.username exLoginData.password =
      some { id := 1, username := "admin", password := "pw", active := 1,
             twofa_secret := some "S", twofa_status := 1, twofa_last_token := none } ∧
    truthyToken exLoginData.token = some "123456" ∧
    (loginHandler none exLogin exVerify exSign { userID := none } (some exLoginData)
      exUsers).afterLogin ≠ [] ∧
    (loginHandler none exLogin exVerify exSign { userID := none } (some exLoginData)
      exUsers).user =
      updateLastToken "123456" (some 1) exUsers ∧
    (loginHandler none exLogin exVerify exSign { userID := none } (some exLoginData)
      (updateLastToken "123456" (some 1) exUsers)).answers =
      [LoginAnswer.fail "Invalid Token!"] :=
  ⟨by decide, by decide, by decide,
    (C15_twofa_token_not_replayable exLogin exVerify exSign { userID := none } exLoginData
      exUsers
      { id := 1, username := "admin", password := "pw", active := 1,
        twofa_secret := some "S", twofa_status := 1, twofa_last_token := none }
      "123456" (by decide) rfl (by decide) (by decide)).2.1,
    by decide⟩

/-! ## Setup -/

theorem setup_cases (tooWeak : String → Bool) (hash : String → String) (defaults : UserRow)
    (username password : String) (a : AuthState) :
    (tooWeak password = true ∧
      setup tooWeak hash defaults username password a =
        ({ ok := false, msg := some weakPasswordMsg }, a)) ∨
    (tooWeak password = false ∧ a.user ≠ [] ∧
      setup tooWeak hash defaults username password a =
        ({ ok := false, msg := some initializedMsg }, a)) ∨
    (tooWeak password = false ∧ a.user = [] ∧
      setup tooWeak hash defaults username password a =
        ({ ok := true, msg := some "Added Successfully." },
          { user := storeNewUser defaults username (hash password) a.user,
            needSetup := false })) := by
  unfold setup
  cases hw : tooWeak password with
  | true => exact Or.inl ⟨rfl, by simp⟩
  | false =>
    right
    by_cases hl : a.user.length ≠ 0
    · left
      refine ⟨rfl, ?_, by simp [hl]⟩
      intro h
      simp [h] at hl
    · right
      have hl0 : a.user.length = 0 := not_not.1 hl
      refine ⟨rfl, List.length_eq_zero.1 hl0, by simp [hl0]⟩

theorem setupAll_nonempty (tooWeak : String → Bool) (hash : String → String)
    (defaults : UserRow) (calls : List (String × String)) (a : AuthState) (h : a.user ≠ []) :
    setupAll tooWeak hash defaults calls a = a := by
  induction calls generalizing a with
  | nil => rfl
  | cons c cs ih =>
    have hstep : (setup tooWeak hash defaults c.1 c.2 a).2 = a := by
      rcases setup_cases tooWeak hash defaults c.1 c.2 a with ⟨_, e⟩ | ⟨_, _, e⟩ | ⟨_, he, _⟩
      · rw [e]
      · rw [e]
      · exact absurd he h
    show setupAll tooWeak hash defaults cs (setup tooWeak hash defaults c.1 c.2 a).2 = a
    rw [hstep]
    exact ih a h

theorem setupAll_length (tooWeak : String → Bool) (hash : String → String)
    (defaults : UserRow) (calls : List (String × String)) (a : AuthState) (h : a.user = []) :
    (setupAll tooWeak hash defaults calls a).user.length ≤ 1 := by
  induction calls generalizing a with
  | nil =>
    show a.user.length ≤ 1
    simp [h]
  | cons c cs ih =>
    show (setupAll tooWeak hash defaults cs (setup tooWeak hash defaults c.1 c.2 a).2).user.length ≤ 1
    rcases setup_cases tooWeak hash defaults c.1 c.2 a with ⟨_, e⟩ | ⟨_, _, e⟩ | ⟨_, _, e⟩
    · rw [e]
      exact ih a h
    · rw [e]
      exact ih a h
    · rw [e]
      rw [setupAll_nonempty]
      · simp [storeNewUser, h]
      · simp [storeNewUser]

/-- C16: `setup` answers `ok: true`, stores one new user and sets
`needSetup = false` exactly when the password is not too weak and table `user`
is empty; otherwise it answers `ok: false` with the message of the failed check
and leaves table and `needSetup` as they were; a sequence of `setup` calls on an
empty table leaves at most one user, and on a non-empty table changes nothing. -/
theorem C16_setup_only_on_fresh_instance (tooWeak : String → Bool) (hash : String → String)
    (defaults : UserRow) (username password : String) (a : AuthState) :
    ((setup tooWeak hash defaults username password a).1.ok = true ↔
      tooWeak password = false ∧ a.user = []) ∧
    (tooWeak password = false ∧ a.user = [] →
      (setup tooWeak hash defaults username password a).2.needSetup = false ∧
      ∃ row, (setup tooWeak hash defaults username password a).2.user = [row] ∧
        row.username = username ∧ row.password = hash password) ∧
    (¬ (tooWeak password = false ∧ a.user = []) →
      (setup tooWeak hash defaults username password a).2 = a ∧
      (setup tooWeak hash defaults username password a).1.ok = false ∧
      ((setup tooWeak hash defaults username password a).1.msg = some weakPasswordMsg ∨
        (setup tooWeak hash defaults username password a).1.msg = some initializedMsg)) ∧
    (∀ calls : List (String × String),
      (a.user = [] → (setupAll tooWeak hash defaults calls a).user.length ≤ 1) ∧
      (a.user ≠ [] → setupAll tooWeak hash defaults calls a = a)) := by
  refine ⟨?_, ?_, ?_, ?_⟩
  · rcases setup_cases tooWeak hash defaults username password a with
      ⟨hw, e⟩ | ⟨hw, hne, e⟩ | ⟨hw, he, e⟩
    · rw [e]
      simp [hw]
    · rw [e]
      simp [hne]
    · rw [e]
      simp [hw, he]
  · rintro ⟨hw, he⟩
    rcases setup_cases tooWeak hash defaults username password a with
      ⟨hw', _⟩ | ⟨_, hne, _⟩ | ⟨_, _, e⟩
    · rw [hw] at hw'
      cases hw'
    · exact absurd he hne
    · rw [e]
      refine ⟨rfl, { defaults with id := (a.user.map (fun r => r.id)).foldr max 0 + 1,
                                   username := username, password := hash password },
        ?_, rfl, rfl⟩
      show storeNewUser defaults username (hash password) a.user = _
      unfold storeNewUser
      rw [he]
      rfl
  · intro hn
    rcases setup_cases tooWeak hash defaults username password a with
      ⟨_, e⟩ | ⟨_, _, e⟩ | ⟨hw, he, _⟩
    · rw [e]
      exact ⟨rfl, rfl, Or.inl rfl⟩
    · rw [e]
      exact ⟨rfl, rfl, Or.inr rfl⟩
    · exact absurd ⟨hw, he⟩ hn
  · intro calls
    exact ⟨setupAll_length tooWeak hash defaults calls a,
      setupAll_nonempty tooWeak hash defaults calls a⟩

/-- Witness of C16: on a fresh instance the first acceptable `setup` creates the
user, and a second `setup` after it changes nothing. -/
theorem C16_setup_only_on_fresh_instance_witness :
    (exTooWeak "secret1" = false ∧ exFresh.user = []) ∧
    (setup exTooWeak exHash exUserDefaults "admin" "secret1" exFresh).2.needSetup = false ∧
    (setupAll exTooWeak exHash exUserDefaults [("admin", "secret1"), ("eve", "secret2")]
      exFresh).user.length ≤ 1 :=
  ⟨by decide,
    ((C16_setup_only_on_fresh_instance exTooWeak exHash exUserDefaults "admin" "secret1"
      exFresh).2.1 (by decide)).1,
    ((C16_setup_only_on_fresh_instance exTooWeak exHash exUserDefaults "admin" "secret1"
      exFresh).2.2.2 [("admin", "secret1"), ("eve", "secret2")]).1 rfl⟩

/-! ## Settings -/

/-- C17: for a logged-in socket, `setSettings` invokes `doubleCheckPassword`
exactly when authentication is enabled (`setting("disableAuth")` falsy) and the
data asks to disable it; in the three other combinations the settings are saved
without a check and the answer is `ok: true`; when the check throws, nothing is
saved and the answer carries the thrown message; when it returns, the settings
are saved. -/
theorem C17_setSettings_checks_password_only_to_disable_auth {σ δ : Type}
    (checkLogin : Socket → Except String Unit) (setting : σ → Bool) (wantsDisable : δ → Bool)
    (doubleCheckPassword : Socket → String → Except String Unit) (setSettings : δ → σ → σ)
    (socket : Socket) (data : δ) (currentPassword : String) (st : σ)
    (hlogin : checkLogin socket = .ok ()) :
    ((setSettingsHandler checkLogin setting wantsDisable doubleCheckPassword setSettings
        socket data currentPassword st).checked = true ↔
      setting st = false ∧ wantsDisable data = true) ∧
    (¬ (setting st = false ∧ wantsDisable data = true) →
      (setSettingsHandler checkLogin setting wantsDisable doubleCheckPassword setSettings
        socket data currentPassword st).saved = true ∧
      (setSettingsHandler checkLogin setting wantsDisable doubleCheckPassword setSettings
        socket data currentPassword st).settings = setSettings data st ∧
      (setSettingsHandler checkLogin setting wantsDisable doubleCheckPassword setSettings
        socket data currentPassword st).reply = { ok := true, msg := some "Saved" }) ∧
    (setting st = false ∧ wantsDisable data = true →
      (∀ e, doubleCheckPassword socket currentPassword = .error e →
        (setSettingsHandler checkLogin setting wantsDisable doubleCheckPassword setSettings
          socket data currentPassword st).saved = false ∧
        (setSettingsHandler checkLogin setting wantsDisable doubleCheckPassword setSettings
          socket data currentPassword st).settings = st ∧
        (setSettingsHandler checkLogin setting wantsDisable doubleCheckPassword setSettings
          socket data currentPassword st).reply = { ok := false, msg := some e }) ∧
      (doubleCheckPassword socket currentPassword = .ok () →
        (setSettingsHandler checkLogin setting wantsDisable doubleCheckPassword setSettings
          socket data currentPassword st).saved = true ∧
        (setSettingsHandler checkLogin setting wantsDisable doubleCheckPassword setSettings
          socket data currentPassword st).settings = setSettings data st)) := by
  unfold setSettingsHandler
  simp only [hlogin]
  by_cases hc : setting st = false ∧ wantsDisable data = true
  · have hif : (!setting st && wantsDisable data) = true := by simp [hc.1, hc.2]
    simp only [hif, if_true]
    refine ⟨?_, fun h => absurd hc h, fun _ => ⟨?_, ?_⟩⟩
    · cases doubleCheckPassword socket currentPassword <;> simp [hc]
    · intro e he
      simp [he]
    · intro he
      simp [he]
  · have hif : ¬ (!setting st && wantsDisable data) = true := by
      intro h
      apply hc
      cases hs : setting st <;> cases hw : wantsDisable data <;> simp [hs, hw] at h ⊢
    simp only [hif, if_false]
    refine ⟨?_, fun _ => ⟨rfl, rfl, rfl⟩, fun h => absurd h hc⟩
    simp [hc]

/-- Witness of C17: authentication enabled, the data asks to disable it, and the
wrong current password is given: the check is made and nothing is saved. -/
theorem C17_setSettings_checks_password_only_to_disable_auth_witness :
    loggedIn { userID := some 1 } = .ok () ∧
    (setSettingsHandler loggedIn (fun st : Bool => st) (fun data : Bool => data) exDoubleCheck
      (fun data _ => data) { userID := some 1 } true "wrong" false).checked = true ∧
    (setSettingsHandler loggedIn (fun st : Bool => st) (fun data : Bool => data) exDoubleCheck
      (fun data _ => data) { userID := some 1 } true "wrong" false).saved = false :=
  ⟨rfl,
    (C17_setSettings_checks_password_only_to_disable_auth loggedIn (fun st : Bool => st)
      (fun data : Bool => data) exDoubleCheck (fun data _ => data) { userID := some 1 } true
      "wrong" false rfl).1.2 ⟨rfl, rfl⟩,
    (((C17_setSettings_checks_password_only_to_disable_auth loggedIn (fun st : Bool => st)
      (fun data : Bool => data) exDoubleCheck (fun data _ => data) { userID := some 1 } true
      "wrong" false rfl).2.2 ⟨rfl, rfl⟩).1 "Incorrect current password" rfl).1⟩

/-! ## Shutdown -/

theorem isRunning_monitorStop_other (h k : Nat) (s : State)
    (hr : isRunning h (monitorStop k s) = true) : isRunning h s = true ∧ h ≠ k := by
  by_cases hk : h = k
  · subst hk
    rw [isRunning_monitorStop] at hr
    cases hr
  · refine ⟨?_, hk⟩
    unfold isRunning at hr ⊢
    rw [getElem?_monitorStop] at hr
    simpa [hk] using hr

theorem stopAll_events (l : List (Nat × Nat)) (s : State) :
    (stopAll l s).2 = l.map (fun p => ShutdownEvent.stop p.2) := by
  induction l generalizing s with
  | nil => rfl
  | cons p l ih =>
    show ShutdownEvent.stop p.2 :: (stopAll l (monitorStop p.2 s)).2 = _
    rw [ih]
    rfl

theorem stopAll_running (l : List (Nat × Nat)) (s : State) (h : Nat)
    (hr : isRunning h (stopAll l s).1 = true) : isRunning h s = true ∧ ∀ p ∈ l, p.2 ≠ h := by
  induction l generalizing s with
  | nil =>
    refine ⟨hr, ?_⟩
    intro p hp
    cases hp
  | cons p l ih =>
    have hr' : isRunning h (stopAll l (monitorStop p.2 s)).1 = true := hr
    obtain ⟨h1, h2⟩ := ih (monitorStop p.2 s) hr'
    obtain ⟨h3, h4⟩ := isRunning_monitorStop_other h p.2 s h1
    refine ⟨h3, ?_⟩
    intro q hq
    rcases List.mem_cons.1 hq with e | e
    · rw [e]
      exact fun x => h4 x.symm
    · exact h2 q e

theorem stopAll_frame (l : List (Nat × Nat)) (s : State) :
    (stopAll l s).1.monitor = s.monitor ∧ (stopAll l s).1.heartbeat = s.heartbeat ∧
      (stopAll l s).1.monitorList = s.monitorList := by
  induction l generalizing s with
  | nil => exact ⟨rfl, rfl, rfl⟩
  | cons p l ih => exact ih (monitorStop p.2 s)

theorem mem_of_regLookup (k h : Nat) (l : List (Nat × Nat)) (hl : regLookup k l = some h) :
    (k, h) ∈ l := by
  induction l with
  | nil => simp [regLookup] at hl
  | cons p l ih =>
    by_cases hp : p.1 = k
    · simp only [regLookup, hp, if_true, Option.some.injEq] at hl
      have : p = (k, h) := Prod.ext hp hl
      rw [this]
      exact List.mem_cons_self _ _
    · simp only [regLookup, hp, if_false] at hl
      exact List.mem_cons_of_mem _ (ih hl)

theorem shutdownFunction_events (s : State) :
    (shutdownFunction s).2 =
      s.monitorList.map (fun p => ShutdownEvent.stop p.2) ++
        [ShutdownEvent.sleep 2000, ShutdownEvent.databaseClose,
          ShutdownEvent.stopBackgroundJobs, ShutdownEvent.cloudflaredStop] := by
  unfold shutdownFunction
  simp only [stopAll_events]

theorem beforeClose_shutdown (s : State) :
    beforeClose (shutdownFunction s).2 =
      s.monitorList.map (fun p => ShutdownEvent.stop p.2) ++ [ShutdownEvent.sleep 2000] := by
  rw [shutdownFunction_events]
  unfold beforeClose
  rw [List.takeWhile_append_of_pos]
  · rfl
  · intro e he
    obtain ⟨p, _, rfl⟩ := List.mem_map.1 he
    rfl

/-- C19: `shutdownFunction` calls `stop` on the instance of every entry of
`server.monitorList` before it calls `Database.close`, which it calls once,
after a sleep of 2000 ms; afterwards none of these instances is running. -/
theorem C19_shutdown_stops_all_before_close (s : State) :
    (∀ p ∈ s.monitorList,
      ShutdownEvent.stop p.2 ∈ beforeClose (shutdownFunction s).2 ∧
      isRunning p.2 (shutdownFunction s).1 = false) ∧
    (∀ k h, regLookup k s.monitorList = some h →
      ShutdownEvent.stop h ∈ beforeClose (shutdownFunction s).2 ∧
      isRunning h (shutdownFunction s).1 = false) ∧
    (shutdownFunction s).2 =
      beforeClose (shutdownFunction s).2 ++
        [ShutdownEvent.databaseClose, ShutdownEvent.stopBackgroundJobs,
          ShutdownEvent.cloudflaredStop] ∧
    ShutdownEvent.databaseClose ∉ beforeClose (shutdownFunction s).2 := by
  have hall : ∀ p ∈ s.monitorList,
      ShutdownEvent.stop p.2 ∈ beforeClose (shutdownFunction s).2 ∧
      isRunning p.2 (shutdownFunction s).1 = false := by
    intro p hp
    refine ⟨?_, ?_⟩
    · rw [beforeClose_shutdown]
      exact List.mem_append_left _ (List.mem_map.2 ⟨p, hp, rfl⟩)
    · cases hr : isRunning p.2 (shutdownFunction s).1 with
      | false => rfl
      | true =>
        have hr' : isRunning p.2 (stopAll s.monitorList s).1 = true := hr
        exact absurd rfl ((stopAll_running s.monitorList s p.2 hr').2 p hp)
  refine ⟨hall, ?_, ?_, ?_⟩
  · intro k h hk
    exact hall (k, h) (mem_of_regLookup k h s.monitorList hk)
  · rw [beforeClose_shutdown, shutdownFunction_events]
    simp
  · rw [beforeClose_shutdown]
    simp

/-- Witness of C19 on `exRunning`: handle 0, registered for monitor 1, is
stopped before the database is closed. -/
theorem C19_shutdown_stops_all_before_close_witness :
    regLookup 1 exRunning.monitorList = some 0 ∧
    ShutdownEvent.stop 0 ∈ beforeClose (shutdownFunction exRunning).2 ∧
    isRunning 0 (shutdownFunction exRunning).1 = false :=
  ⟨rfl, (C19_shutdown_stops_all_before_close exRunning).2.1 1 0 rfl⟩

/-! ## Backup -/

/-- C20, evaluated at the failing input: table `monitor` of `exBackupServer`
holds the one name `web-server`, no row is named `web`; with the option `skip`
the backup monitor named `web` does not pass the guard, because the string of
the existing names contains `web`, and the import leaves the server as it was. -/
theorem C20_skip_rejects_substring_of_existing_name :
    exBackupServer.core.monitor.map (fun r => r.name) = ["web-server"] ∧
    includes (monitorNameListString exBackupServer.core.monitor) "web".data = true ∧
    shouldImportMonitor "skip" (monitorNameListString exBackupServer.core.monitor)
      { name := "web", config := 3, active := 1 } = false ∧
    (uploadBackupMonitors 1 1 "skip" [{ name := "web", config := 3, active := 1 }]
      exBackupServer).2 = exBackupServer ∧
    (uploadBackupMonitors 1 1 "keep" [{ name := "web", config := 3, active := 1 }]
      exBackupServer).2.core.monitor.map (fun r => r.name) = ["web-server", "web"] := by
  refine ⟨by decide, by decide, by decide, by decide, by decide⟩

/-! ## Interleavings: a call run alone is the sequential function -/

theorem registerAndStart_fresh (row : MonitorRow) (s : State) :
    registerAndStart (allocBean row s).1 (allocBean row s).2 =
      monitorStart s.heap.length
        { (match regLookup row.id s.monitorList with
            | some old => monitorStop old (allocBean row s).2
            | none => (allocBean row s).2) with
          monitorList := regSet row.id s.heap.length s.monitorList } := by
  have hget : (allocBean row s).2.heap[(allocBean row s).1]? =
      some { row := row, running := false } := by
    show (s.heap ++ [({ row := row, running := false } : MonitorInstance)])[s.heap.length]? = _
    rw [List.getElem?_append_right (le_refl _)]
    simp
  unfold registerAndStart
  rw [hget]
  show monitorStart s.heap.length _ = _
  cases hl : regLookup row.id s.monitorList with
  | none =>
    have hl' : regLookup row.id (allocBean row s).2.monitorList = none := hl
    simp only [hl']
    rfl
  | some old =>
    have hl' : regLookup row.id (allocBean row s).2.monitorList = some old := hl
    simp only [hl']
    rfl

/-- A `startMonitor` call that runs its four steps alone leaves the state of
the sequential `startMonitor`. -/
theorem solo_startMonitor (u id : Nat) (s : State) :
    runSchedule [0, 0, 0, 0] ([AsyncCall.startCheck u id], s) =
      ([AsyncCall.done], (startMonitor u id s).2) := by
  unfold startMonitor
  cases hc : checkOwner u id s with
  | error e => simp [runSchedule, stepAt, stepCall, hc]
  | ok x =>
    cases hf : findOneMonitor id (updateActive 1 id u s.monitor) with
    | none => simp [runSchedule, stepAt, stepCall, hc, hf]
    | some row =>
      simp only [runSchedule, stepAt, stepCall, hc, hf]
      rw [registerAndStart_fresh]
      cases hl : regLookup row.id s.monitorList with
      | none =>
        have hl' : regLookup row.id
            (allocBean row { s with monitor := updateActive 1 id u s.monitor }).2.monitorList =
              none := hl
        simp only [hl, hl']
        rfl
      | some old =>
        have hl' : regLookup row.id
            (allocBean row { s with monitor := updateActive 1 id u s.monitor }).2.monitorList =
              some old := hl
        simp only [hl, hl']
        rfl

/-- A `pauseMonitor` call that runs its three steps alone leaves the state of
the sequential `pauseMonitor`. -/
theorem solo_pauseMonitor (u id : Nat) (s : State) :
    runSchedule [0, 0, 0] ([AsyncCall.pauseCheck u id], s) =
      ([AsyncCall.done], (pauseMonitor u id s).2) := by
  unfold pauseMonitor
  cases hc : checkOwner u id s with
  | error e => simp [runSchedule, stepAt, stepCall, hc]
  | ok x =>
    cases hl : regLookup id s.monitorList with
    | none => simp [runSchedule, stepAt, stepCall, hc, hl]
    | some h => simp [runSchedule, stepAt, stepCall, hc, hl]

theorem solo_bootStart (rand : Nat → Nat) (hs : List Nat) (s : State) (k : Nat) :
    runSchedule (List.replicate (hs.length + 1) 0) ([AsyncCall.bootStart hs], s) =
      ([AsyncCall.done], (startLoop rand k hs s).1) := by
  induction hs generalizing s k with
  | nil => rfl
  | cons h hs ih =>
    show runSchedule (List.replicate (hs.length + 1) 0)
      ([AsyncCall.bootStart hs], monitorStart h s) = _
    rw [ih (monitorStart h s) (k + 1)]
    rfl

/-- A `startMonitors` call that runs alone leaves the state of the sequential
`startMonitors`. -/
theorem solo_startMonitors (rand : Nat → Nat) (s : State) :
    runSchedule (List.replicate ((findActive s.monitor).length + 2) 0)
        ([AsyncCall.bootFind], s) =
      ([AsyncCall.done], (startMonitors rand s).1) := by
  have hlen : (allocBeans (findActive s.monitor) s).1.length = (findActive s.monitor).length := by
    rw [allocBeans_eq]
    simp
  have hsm : startMonitors rand s =
      startLoop rand 0 (allocBeans (findActive s.monitor) s).1
        (registerAll (allocBeans (findActive s.monitor) s).1
          (allocBeans (findActive s.monitor) s).2) := rfl
  rw [hsm, ← hlen]
  cases hb : (allocBeans (findActive s.monitor) s).1 with
  | nil =>
    show runSchedule [0, 0] ([AsyncCall.bootFind], s) = _
    simp only [runSchedule, stepAt, stepCall, hb]
    rfl
  | cons h hs =>
    show runSchedule (0 :: List.replicate (hs.length + 1) 0)
      ([AsyncCall.bootRegister (allocBeans (findActive s.monitor) s).1],
        (allocBeans (findActive s.monitor) s).2) = _
    rw [hb]
    show runSchedule (List.replicate (hs.length + 1) 0)
      ([AsyncCall.bootStart hs],
        monitorStart h (registerAll (h :: hs) (allocBeans (findActive s.monitor) s).2)) = _
    rw [solo_bootStart rand hs _ 1]
    rfl

/-! ## Interleavings: the registry invariant -/

theorem RegistryInv_allocBean (row : MonitorRow) (s : State) (hs : RegistryInv s) :
    RegistryInv (allocBean row s).2 := by
  refine ⟨?_, ?_⟩
  · intro h i hi hr
    have hi' : (s.heap ++ [({ row := row, running := false } : MonitorInstance)])[h]? =
        some i := hi
    by_cases hh : h = s.heap.length
    · rw [hh, List.getElem?_append_right (le_refl _)] at hi'
      simp at hi'
      rw [← hi'] at hr
      cases hr
    · rw [getElem?_append_one _ _ _ hh] at hi'
      exact hs.1 h i hi' hr
  · intro k h hk
    have := hs.2 k h hk
    show h < (s.heap ++ [({ row := row, running := false } : MonitorInstance)]).length
    simp
    omega

theorem RegistryInv_registerAndStart (h : Nat) (s : State) (hs : RegistryInv s) :
    RegistryInv (registerAndStart h s) := by
  unfold registerAndStart
  cases hg : s.heap[h]? with
  | none => exact hs
  | some i =>
    simp only
    have hlt : h < s.heap.length := by
      rcases Nat.lt_or_ge h s.heap.length with hh | hh
      · exact hh
      · rw [List.getElem?_eq_none hh] at hg
        cases hg
    -- the state after the optional `stop()` of the registered instance
    have key : ∀ (s3 : State), RegistryInv s3 → s3.monitorList = s.monitorList →
        s3.heap.length = s.heap.length →
        (∃ x, s3.heap[h]? = some x ∧ x.row = i.row) →
        (∀ j, regLookup i.row.id s.monitorList = some j → j ≠ h → isRunning j s3 = false) →
        RegistryInv (monitorStart h { s3 with monitorList := regSet i.row.id h s3.monitorList }) := by
      intro s3 h3 hml hlen hx hold
      obtain ⟨x, hx1, hx2⟩ := hx
      refine ⟨?_, ?_⟩
      · intro j y hj hr
        have hj' : (monitorStart h s3).heap[j]? = some y := hj
        show regLookup y.row.id (regSet i.row.id h s3.monitorList) = some j
        rw [regLookup_regSet]
        rw [getElem?_monitorStart] at hj'
        by_cases hjh : j = h
        · simp only [hjh, if_true, hx1, Option.map_some', Option.some.injEq] at hj'
          rw [← hj']
          simp [hx2, hjh]
        · simp only [hjh, if_false] at hj'
          have hlook := h3.1 j y hj' hr
          by_cases hid : y.row.id = i.row.id
          · exfalso
            rw [hid, hml] at hlook
            have := hold j hlook hjh
            rw [isRunning_eq j s3 y hj', hr] at this
            cases this
          · simp [hid, hlook]
      · intro k j hk
        show j < (monitorStart h s3).heap.length
        have hk' : regLookup k (regSet i.row.id h s3.monitorList) = some j := hk
        rw [regLookup_regSet] at hk'
        have hl2 : (monitorStart h s3).heap.length = s.heap.length := by
          simp [monitorStart, length_heapModify, hlen]
        rw [hl2]
        by_cases hki : k = i.row.id
        · simp only [hki, if_true, Option.some.injEq] at hk'
          omega
        · simp only [hki, if_false] at hk'
          have := h3.2 k j hk'
          omega
    cases hl : regLookup i.row.id s.monitorList with
    | none =>
      apply key s hs rfl rfl ⟨i, hg, rfl⟩
      intro j hj
      rw [hl] at hj
      cases hj
    | some old =>
      apply key (monitorStop old s) (RegistryInv_monitorStop old s hs) rfl
      · simp [monitorStop, length_heapModify]
      · rw [getElem?_monitorStop]
        by_cases ho : h = old
        · subst ho
          simp [hg]
        · simp [ho, hg]
      · intro j hj _
        rw [hl] at hj
        have : old = j := Option.some.inj hj
        rw [← this]
        exact isRunning_monitorStop old s

/-- A step of a `startMonitor`, `restartMonitor` or `pauseMonitor` call keeps
the registry invariant. -/
theorem stepCall_inv (t : AsyncCall) (s : State) (ht : t.isLifecycle = true)
    (hs : RegistryInv s) :
    (stepCall t s).1.isLifecycle = true ∧ RegistryInv (stepCall t s).2 := by
  cases t with
  | startCheck u id =>
    simp only [stepCall]
    cases checkOwner u id s <;> exact ⟨rfl, hs⟩
  | startUpdate u id => exact ⟨rfl, RegistryInv_congr s _ rfl rfl hs⟩
  | startFind u id =>
    simp only [stepCall]
    cases findOneMonitor id s.monitor with
    | none => exact ⟨rfl, hs⟩
    | some row => exact ⟨rfl, RegistryInv_allocBean row s hs⟩
  | startRegister bean =>
    cases bean with
    | none => exact ⟨rfl, hs⟩
    | some h => exact ⟨rfl, RegistryInv_registerAndStart h s hs⟩
  | pauseCheck u id =>
    simp only [stepCall]
    cases checkOwner u id s <;> exact ⟨rfl, hs⟩
  | pauseUpdate u id => exact ⟨rfl, RegistryInv_congr s _ rfl rfl hs⟩
  | pauseStop id =>
    simp only [stepCall]
    cases regLookup id s.monitorList with
    | none => exact ⟨rfl, hs⟩
    | some h => exact ⟨rfl, RegistryInv_monitorStop h s hs⟩
  | bootFind => cases ht
  | bootRegister beans => cases ht
  | bootStart beans => cases ht
  | done => exact ⟨rfl, hs⟩

theorem stepAt_inv (i : Nat) (ts : List AsyncCall) (s : State)
    (ht : ∀ t ∈ ts, t.isLifecycle = true) (hs : RegistryInv s) :
    (∀ t ∈ (stepAt i ts s).1, t.isLifecycle = true) ∧ RegistryInv (stepAt i ts s).2 := by
  induction ts generalizing i with
  | nil => cases i <;> exact ⟨ht, hs⟩
  | cons t ts ih =>
    cases i with
    | zero =>
      obtain ⟨h1, h2⟩ := stepCall_inv t s (ht t (List.mem_cons_self _ _)) hs
      refine ⟨?_, h2⟩
      intro x hx
      rcases List.mem_cons.1 hx with e | e
      · rw [e]
        exact h1
      · exact ht x (List.mem_cons_of_mem _ e)
    | succ i =>
      obtain ⟨h1, h2⟩ := ih i (fun x hx => ht x (List.mem_cons_of_mem _ hx))
      refine ⟨?_, h2⟩
      intro x hx
      rcases List.mem_cons.1 hx with e | e
      · rw [e]
        exact ht t (List.mem_cons_self _ _)
      · exact h1 x e

theorem runSchedule_inv (sched : List Nat) (c : Config)
    (ht : ∀ t ∈ c.1, t.isLifecycle = true) (hs : RegistryInv c.2) :
    (∀ t ∈ (runSchedule sched c).1, t.isLifecycle = true) ∧
      RegistryInv (runSchedule sched c).2 := by
  induction sched generalizing c with
  | nil => exact ⟨ht, hs⟩
  | cons i sched ih =>
    obtain ⟨h1, h2⟩ := stepAt_inv i c.1 c.2 ht hs
    exact ih (stepAt i c.1 c.2) h1 h2

/-! ## Interleavings: every lifecycle call completes -/

theorem stepCall_stepsLeft (t : AsyncCall) (s : State) :
    (stepCall t s).1.stepsLeft ≤ t.stepsLeft - 1 := by
  cases t with
  | startCheck u id =>
    simp only [stepCall]
    cases checkOwner u id s <;> simp [AsyncCall.stepsLeft]
  | startUpdate u id => simp [stepCall, AsyncCall.stepsLeft]
  | startFind u id =>
    simp only [stepCall]
    cases findOneMonitor id s.monitor <;> simp [AsyncCall.stepsLeft]
  | startRegister bean => cases bean <;> simp [stepCall, AsyncCall.stepsLeft]
  | pauseCheck u id =>
    simp only [stepCall]
    cases checkOwner u id s <;> simp [AsyncCall.stepsLeft]
  | pauseUpdate u id => simp [stepCall, AsyncCall.stepsLeft]
  | pauseStop id =>
    simp only [stepCall]
    cases regLookup id s.monitorList <;> simp [AsyncCall.stepsLeft]
  | bootFind => simp [stepCall, AsyncCall.stepsLeft]
  | bootRegister beans => cases beans <;> simp [stepCall, AsyncCall.stepsLeft]
  | bootStart beans => cases beans <;> simp [stepCall, AsyncCall.stepsLeft]
  | done => simp [stepCall, AsyncCall.stepsLeft]

theorem stepAt_stepsLeftAt (i : Nat) (ts : List AsyncCall) (s : State) (k : Nat) :
    stepsLeftAt (stepAt i ts s).1 k ≤ stepsLeftAt ts k - (if k = i then 1 else 0) := by
  induction ts generalizing i k with
  | nil => cases i <;> simp [stepAt, stepsLeftAt]
  | cons t ts ih =>
    cases i with
    | zero =>
      cases k with
      | zero =>
        have := stepCall_stepsLeft t s
        simpa [stepAt, stepsLeftAt] using this
      | succ k => simp [stepAt, stepsLeftAt]
    | succ i =>
      cases k with
      | zero => simp [stepAt, stepsLeftAt]
      | succ k =>
        have := ih i k
        simpa [stepAt, stepsLeftAt] using this

theorem runSchedule_stepsLeftAt (sched : List Nat) (c : Config) (k : Nat) :
    stepsLeftAt (runSchedule sched c).1 k ≤ stepsLeftAt c.1 k - sched.count k := by
  induction sched generalizing c with
  | nil => simp [runSchedule]
  | cons i sched ih =>
    have h1 := ih (stepAt i c.1 c.2)
    have h2 := stepAt_stepsLeftAt i c.1 c.2 k
    have h3 : (i :: sched).count k = sched.count k + (if k = i then 1 else 0) := by
      rw [List.count_cons]
      by_cases hki : k = i
      · simp [hki]
      · have : ¬ i = k := fun e => hki e.symm
        simp [hki, this]
    show stepsLeftAt (runSchedule sched (stepAt i c.1 c.2)).1 k ≤ _
    rw [h3]
    omega

theorem stepsLeftAt_begin (calls : List Call) (k : Nat) :
    stepsLeftAt (calls.map Call.begin) k ≤ 4 := by
  unfold stepsLeftAt
  rw [List.getElem?_map]
  cases calls[k]? with
  | none => simp
  | some c => cases c <;> simp [Call.begin, AsyncCall.stepsLeft]

theorem allDone_of_stepsLeft (ts : List AsyncCall) (ht : ∀ t ∈ ts, t.isLifecycle = true)
    (h0 : ∀ k, stepsLeftAt ts k = 0) : allDone ts = true := by
  unfold allDone
  rw [List.all_eq_true]
  intro t hmem
  obtain ⟨k, hk⟩ := List.getElem?_of_mem hmem
  have hz := h0 k
  unfold stepsLeftAt at hz
  rw [hk] at hz
  have hl := ht t hmem
  cases t <;> simp [AsyncCall.stepsLeft, AsyncCall.isLifecycle] at hz hl ⊢

theorem isLifecycle_begin (calls : List Call) (hc : ∀ c ∈ calls, c ≠ Call.startMonitors) :
    ∀ t ∈ calls.map Call.begin, t.isLifecycle = true := by
  intro t ht
  obtain ⟨c, hcm, rfl⟩ := List.mem_map.1 ht
  have := hc c hcm
  cases c with
  | startMonitor u id => rfl
  | restartMonitor u id => rfl
  | pauseMonitor u id => rfl
  | startMonitors => exact absurd rfl this

theorem stepsLeftAt_le_four (ts : List AsyncCall) (k : Nat) : stepsLeftAt ts k ≤ 4 := by
  unfold stepsLeftAt
  cases ts[k]? with
  | none => simp
  | some t => cases t <;> simp [AsyncCall.stepsLeft]

/-- Calls of `startMonitor`, `restartMonitor` and `pauseMonitor` in flight, at any
of their program points and from any state with the invariant of the registry,
keep at most one running instance per monitor id after every step of every
interleaving, and have all completed once each has run four steps: each of
them tests, stops, assigns and starts in one block after its last `await`. -/
theorem lifecycle_interleavings_keep_one_running (ts : List AsyncCall) (s0 : State)
    (sched : List Nat) (hts : ∀ t ∈ ts, t.isLifecycle = true) (hinv0 : RegistryInv s0) :
    (∀ id, runningCount id (runSchedule sched (ts, s0)).2 ≤ 1) ∧
    ((∀ k, k < ts.length → 4 ≤ sched.count k) →
      allDone (runSchedule sched (ts, s0)).1 = true) := by
  obtain ⟨hlife, hinv⟩ := runSchedule_inv sched (ts, s0) hts hinv0
  refine ⟨fun id => runningCount_le_one id _ hinv, ?_⟩
  intro hfair
  apply allDone_of_stepsLeft _ hlife
  intro k
  have h1 : stepsLeftAt (runSchedule sched (ts, s0)).1 k ≤ stepsLeftAt ts k - sched.count k :=
    runSchedule_stepsLeftAt sched (ts, s0) k
  have h2 := stepsLeftAt_le_four ts k
  rcases Nat.lt_or_ge k ts.length with hk | hk
  · have := hfair k hk
    omega
  · have hz : stepsLeftAt ts k = 0 := by
      unfold stepsLeftAt
      rw [List.getElem?_eq_none (by simpa using hk)]
    omega

/-- The same race with `pauseMonitor(1, 3)` in place of `startMonitor(1, 3)`:
when both calls have completed, the row of monitor 3 has `active = 0` and the
instance registered for it, started by `startMonitors` after its sleep, runs. -/
theorem startMonitors_pause_race :
    allDone exPauseRace.1 = true ∧
    (findOneMonitor 3 exPauseRace.2.monitor).map (fun r => r.active) = some 0 ∧
    regLookup 3 exPauseRace.2.monitorList = some 1 ∧
    isRunning 1 exPauseRace.2 = true := by
  refine ⟨by decide, by decide, by decide, by decide⟩

/-- C21: the registry is not guarded against a race with the startup loop. In
`exRace` the calls `startMonitors()` and `startMonitor(1, 3)` interleave at
their `await`s on `exTwoActive`, where nothing is registered or running:
`startMonitors` registers its beans of the monitors 1 and 3 and starts the
first; during its `await sleep` the call `startMonitor(1, 3)` stops the
registered bean of monitor 3 (not yet started), registers and starts its own
(handle 2); after the sleep `startMonitors` starts its bean of monitor 3
(handle 1), which is no longer the registered one. Both calls have completed
and two instances of monitor 3 are running, one of them out of reach of
`server.monitorList`. -/
theorem C21_startMonitors_race_two_running :
    exTwoActive.monitorList = [] ∧ exTwoActive.heap = [] ∧
    exRace.1 = [AsyncCall.done, AsyncCall.done] ∧
    allDone exRace.1 = true ∧
    runningCount 3 exRace.2 = 2 ∧
    isRunning 1 exRace.2 = true ∧ isRunning 2 exRace.2 = true ∧
    regLookup 3 exRace.2.monitorList = some 2 ∧
    (exRace.2.heap[1]?).map (fun i => i.row.id) = some 3 ∧
    (exRace.2.heap[2]?).map (fun i => i.row.id) = some 3 := by
  refine ⟨rfl, rfl, by decide, by decide, by decide, by decide, by decide, by decide,
    by decide, by decide⟩

end MalibuStatus
